import Mathlib

set_option autoImplicit false

/-!
Taskmaster API client: request pipeline, credential store and API surface.

A shallow embedding of `frontend/src/services/api.js` (the main variant) and
`frontend/taskmaster-expo/src/services/api.js` (the expo variant).

* Device storage (`AsyncStorage`) is an explicit `Store` threaded through a `World`,
  together with the trace of every effect performed so far.
* The remote server, the refresh endpoint and storage failures are parameters (`Env`).
  Each of them may answer differently every time: it is asked with the number of
  effects already performed.
* A promise is its settlement (`Settled`): fulfilled with a value or rejected with a reason.
* Mutation of `error.config` through the alias `originalRequest` is an update of the
  `config` field of the error value.
-/

namespace Taskmaster

/-! ## Values -/

/-- JavaScript values carried as request bodies, query parameters and response bodies. -/
inductive JsVal where
  | undefined
  | null
  | bool (b : Bool)
  | num (n : Int)
  | str (s : String)
  | arr (items : List JsVal)
  | obj (fields : List (String × JsVal))

/-- Request headers: a JavaScript object from header name to value. -/
abbrev Headers := String → Option String

/-- The object without any property. -/
def Headers.empty : Headers := fun _ => none

/-- Property assignment `headers[name] = value`. -/
def Headers.set (h : Headers) (name value : String) : Headers :=
  fun k => if k = name then some value else h k

/-- Request descriptor: the axios request config, with the custom `_retry` mark. -/
structure Config where
  method : Option String
  baseURL : Option String
  url : Option String
  headers : Headers
  params : JsVal
  data : JsVal
  timeout : Option Nat
  _retry : Bool

/-- Status line and body of an HTTP answer, as found in `error.response`. -/
structure HttpReply where
  status : Nat
  data : JsVal

/-- Response object of a fulfilled request. -/
structure Response where
  status : Nat
  data : JsVal
  config : Config

/-- Error object with which axios rejects: `response` is absent for transport-level
failures (network error, timeout). -/
structure AxiosError where
  message : String
  config : Config
  request : Bool
  response : Option HttpReply

/-- The expression `error.response?.status`. -/
def AxiosError.status (error : AxiosError) : Option Nat :=
  error.response.map (·.status)

/-- Error with which a storage operation rejects. -/
structure StorageError where
  message : String

/-- Reason of a rejected promise. -/
inductive Rejection where
  | axios (error : AxiosError)
  | storage (error : StorageError)

/-- Settlement of a promise. -/
inductive Settled (α : Type) where
  | fulfilled (value : α)
  | rejected (reason : Rejection)

/-! ## Effects, environment and world -/

/-- Effects observable from outside the client. -/
inductive Event where
  | getItem (key : String)
  | setItem (key value : String)
  | removeItem (key : String)
  | multiRemove (keys : List String)
  | multiSet (pairs : List (String × String))
  | post (url : String) (body : JsVal)
  | dispatch (config : Config)
  | console (level message : String)

/-- Contents of the device key-value storage. -/
abbrev Store := String → Option String

/-- Removal of one key. -/
def Store.remove (s : Store) (key : String) : Store :=
  fun k => if k = key then none else s k

/-- Write of one key, replacing any earlier value. -/
def Store.set (s : Store) (key value : String) : Store :=
  fun k => if k = key then some value else s k

/-- Removal of a list of keys. -/
def Store.removeAll (s : Store) (keys : List String) : Store :=
  fun k => if k ∈ keys then none else s k

/-- State of the device: storage contents and the effects performed so far, oldest first. -/
structure World where
  store : Store
  trace : List Event

/-- Answer of the server to a dispatched request. -/
inductive ServerReply where
  | response (status : Nat) (data : JsVal)
  | noResponse (message : String)

/-- Answer of the refresh endpoint, a parameter of the model (the backend is not part of
the repository). A successful exchange answers with a body holding a new access token,
read at line 50, and possibly a rotated refresh token; any other answer (an error
status such as 401, or no answer at all) makes `axios.post` reject. -/
inductive ExchangeReply where
  | tokens (access : String) (refresh : Option String)
  | failure (status : Option Nat) (message : String)

/-- Body of a successful exchange, `response.data` at line 50 of the main variant. -/
structure TokenBody where
  access : String
  refresh : Option String

/-- Failures of the storage library. Each entry is asked with the number of effects
already performed; `some e` makes the operation reject with `e`. A failing
`multiRemove` may have removed some of its keys before rejecting. -/
structure Faults where
  getItem : Nat → String → Option StorageError
  setItem : Nat → String → String → Option StorageError
  removeItem : Nat → String → Option StorageError
  multiRemove : Nat → List String → Option (StorageError × List String)
  multiSet : Nat → List (String × String) → Option (StorageError × List (String × String))

/-- Everything outside the client: the server, the refresh endpoint, storage failures. -/
structure Env where
  server : Nat → Config → ServerReply
  refreshEndpoint : Nat → String → JsVal → ExchangeReply
  faults : Faults

/-- Append one effect to the trace. -/
def World.log (w : World) (e : Event) : World :=
  { w with trace := w.trace ++ [e] }

/-! ## AsyncStorage -/

/-- Read `AsyncStorage.getItem(key)`: the stored string, or null when absent. -/
def AsyncStorage.getItem (env : Env) (key : String) (w : World) :
    Except StorageError (Option String) × World :=
  match env.faults.getItem w.trace.length key with
  | some e => (.error e, w.log (.getItem key))
  | none => (.ok (w.store key), w.log (.getItem key))

/-- Write `AsyncStorage.setItem(key, value)`. -/
def AsyncStorage.setItem (env : Env) (key value : String) (w : World) :
    Except StorageError Unit × World :=
  match env.faults.setItem w.trace.length key value with
  | some e => (.error e, w.log (.setItem key value))
  | none => (.ok (), { store := w.store.set key value, trace := w.trace ++ [.setItem key value] })

/-- Removal `AsyncStorage.removeItem(key)`. -/
def AsyncStorage.removeItem (env : Env) (key : String) (w : World) :
    Except StorageError Unit × World :=
  match env.faults.removeItem w.trace.length key with
  | some e => (.error e, w.log (.removeItem key))
  | none => (.ok (), { store := w.store.remove key, trace := w.trace ++ [.removeItem key] })

/-- Removal `AsyncStorage.multiRemove(keys)`. -/
def AsyncStorage.multiRemove (env : Env) (keys : List String) (w : World) :
    Except StorageError Unit × World :=
  match env.faults.multiRemove w.trace.length keys with
  | some (e, done) =>
    (.error e, { store := w.store.removeAll (done.filter (· ∈ keys)),
                 trace := w.trace ++ [.multiRemove keys] })
  | none => (.ok (), { store := w.store.removeAll keys, trace := w.trace ++ [.multiRemove keys] })

/-! ## axios -/

/-- Base URL of the backend, line 5 of both variants. -/
def API_BASE_URL : String := "http://10.0.2.2:8000"

/-- Instance defaults given to `axios.create`, lines 8 to 14 of both variants. -/
def defaults : Config :=
  { method := none
    baseURL := some API_BASE_URL
    url := none
    headers := Headers.empty.set "Content-Type" "application/json"
    params := .undefined
    data := .undefined
    timeout := some 10000
    _retry := false }

/-- Merge of the instance defaults with the config of one request: the request wins,
headers are merged name by name. -/
def mergeConfig (d c : Config) : Config :=
  { method := c.method <|> d.method
    baseURL := c.baseURL <|> d.baseURL
    url := c.url
    headers := fun k => c.headers k <|> d.headers k
    params := c.params
    data := c.data
    timeout := c.timeout <|> d.timeout
    _retry := c._retry }

/-- Transport of one request. With the default `validateStatus` a status from 200 to
299 fulfils the promise, any other status rejects with the response attached, and a
request without an answer rejects without a response. -/
def dispatchRequest (env : Env) (config : Config) (w : World) :
    Except AxiosError Response × World :=
  match env.server w.trace.length config with
  | .response status data =>
    if 200 ≤ status ∧ status < 300 then
      (.ok { status := status, data := data, config := config }, w.log (.dispatch config))
    else
      (.error { message := "Request failed with status code " ++ toString status
                config := config, request := true
                response := some { status := status, data := data } },
       w.log (.dispatch config))
  | .noResponse message =>
    (.error { message := message, config := config, request := true, response := none },
     w.log (.dispatch config))

/-- Call `axios.post(url, body)` on the global axios object: no instance defaults and
no interceptor take part. -/
def axios.post (env : Env) (url : String) (body : JsVal) (w : World) :
    Except AxiosError TokenBody × World :=
  match env.refreshEndpoint w.trace.length url body with
  | .tokens access refresh =>
    (.ok { access := access, refresh := refresh }, w.log (.post url body))
  | .failure status message =>
    (.error { message := message
              config := { method := some "post", baseURL := none, url := some url
                          headers := Headers.empty, params := .undefined, data := body
                          timeout := none, _retry := false }
              request := true
              response := status.map (fun s => { status := s, data := .undefined }) },
     w.log (.post url body))

/-- Result of a call through the pipeline: the settlement and the world afterwards. -/
abbrev Result := Settled Response × World

/-! ## Main variant, `frontend/src/services/api.js` -/

namespace Main

/-- Request interceptor, lines 17 to 28. -/
def requestInterceptor (env : Env) (config : Config) (w : World) : Settled Config × World :=
  match AsyncStorage.getItem env "access_token" w with
  | (.ok (some token), w1) =>
    if token ≠ "" then
      (.fulfilled { config with headers := config.headers.set "Authorization" ("Bearer " ++ token) },
       w1)
    else (.fulfilled config, w1)
  | (.ok none, w1) => (.fulfilled config, w1)
  | (.error _, w1) => (.fulfilled config, w1.log (.console "error" "Error getting token:"))

/-- Request error handler, lines 29 to 31. -/
def requestRejected (reason : Rejection) : Settled Config := .rejected reason

/-- Response handler, line 36. -/
def responseFulfilled (response : Response) : Response := response

/-- The catch block of lines 57 to 61 followed by line 64. -/
def refreshFailed (env : Env) (error : AxiosError) (w : World) : Result :=
  match AsyncStorage.multiRemove env ["access_token", "refresh_token"] w with
  | (.ok _, w1) => (.rejected (.axios error), w1)
  | (.error e, w1) => (.rejected (.storage e), w1)

/-- Response error handler, lines 37 to 65. The parameter `api` is the axios instance
called at line 55. The promise of that call is returned without being awaited, so a
rejection of the retried request is the result of the handler and does not reach the
catch block. -/
def responseRejected (api : Config → World → Option Result) (env : Env)
    (error : AxiosError) (w : World) : Option Result :=
  let originalRequest := error.config
  if error.status = some 401 ∧ originalRequest._retry = false then
    let originalRequest : Config := { originalRequest with _retry := true }
    let error : AxiosError := { error with config := originalRequest }
    match AsyncStorage.getItem env "refresh_token" w with
    | (.ok (some refreshToken), w1) =>
      if refreshToken ≠ "" then
        match axios.post env (API_BASE_URL ++ "/auth/refresh/")
            (.obj [("refresh", .str refreshToken)]) w1 with
        | (.ok response, w2) =>
          let access := response.access
          match AsyncStorage.setItem env "access_token" access w2 with
          | (.ok _, w3) =>
            api { originalRequest with
                  headers := originalRequest.headers.set "Authorization" ("Bearer " ++ access) } w3
          | (.error _, w3) => some (refreshFailed env error w3)
        | (.error _, w2) => some (refreshFailed env error w2)
      else some (.rejected (.axios error), w1)
    | (.ok none, w1) => some (.rejected (.axios error), w1)
    | (.error _, w1) => some (refreshFailed env error w1)
  else some (.rejected (.axios error), w)

/-- The axios instance `api(config)`: defaults, request interceptor, transport, response
interceptor. The call at line 55 re-enters the instance; `fuel` bounds the nesting and
`none` means that the bound was reached. -/
def api (env : Env) : Nat → Config → World → Option Result
  | 0, _, _ => none
  | fuel + 1, config, w =>
    match requestInterceptor env (mergeConfig defaults config) w with
    | (.fulfilled config1, w1) =>
      match dispatchRequest env config1 w1 with
      | (.ok response, w2) => some (.fulfilled (responseFulfilled response), w2)
      | (.error error, w2) => responseRejected (api env fuel) env error w2
    | (.rejected reason, w1) => some (.rejected reason, w1)

/-- Call `api.get(url, config)`. -/
def api.get (env : Env) (fuel : Nat) (url : String) (params : JsVal) (w : World) :
    Option Result :=
  api env fuel
    { method := some "get", baseURL := none, url := some url, headers := Headers.empty
      params := params, data := .undefined, timeout := none, _retry := false } w

/-- Wrapper `tasksAPI.getTasks(params)`, line 98. -/
def tasksAPI.getTasks (env : Env) (fuel : Nat) (params : JsVal) (w : World) : Option Result :=
  api.get env fuel "/tasks/" params w

end Main

/-! ## Expo variant, `frontend/taskmaster-expo/src/services/api.js` -/

namespace Expo

/-- Request interceptor, lines 17 to 28. -/
def requestInterceptor (env : Env) (config : Config) (w : World) : Settled Config × World :=
  match AsyncStorage.getItem env "access_token" w with
  | (.ok (some token), w1) =>
    if token ≠ "" then
      (.fulfilled { config with headers := config.headers.set "Authorization" ("Bearer " ++ token) },
       w1)
    else (.fulfilled config, w1)
  | (.ok none, w1) => (.fulfilled config, w1)
  | (.error _, w1) => (.fulfilled config, w1.log (.console "log" "Error getting token:"))

/-- Response handler, line 36. -/
def responseFulfilled (response : Response) : Response := response

/-- Response error handler, lines 37 to 49. -/
def responseRejected (env : Env) (error : AxiosError) (w : World) : Result :=
  if error.status = some 401 then
    match AsyncStorage.removeItem env "access_token" w with
    | (.ok _, w1) =>
      match AsyncStorage.removeItem env "refresh_token" w1 with
      | (.ok _, w2) => (.rejected (.axios error), w2)
      | (.error _, w2) => (.rejected (.axios error), w2.log (.console "log" "Error removing tokens:"))
    | (.error _, w1) => (.rejected (.axios error), w1.log (.console "log" "Error removing tokens:"))
  else (.rejected (.axios error), w)

/-- The axios instance `api(config)` of the expo variant. -/
def api (env : Env) (config : Config) (w : World) : Result :=
  match requestInterceptor env (mergeConfig defaults config) w with
  | (.fulfilled config1, w1) =>
    match dispatchRequest env config1 w1 with
    | (.ok response, w2) => (.fulfilled (responseFulfilled response), w2)
    | (.error error, w2) => responseRejected env error w2
  | (.rejected reason, w1) => (.rejected reason, w1)

end Expo

/-! ## Observations on traces and example inputs -/

/-- Settlement of the promise returned by the transport. -/
def settle : Except AxiosError Response → Settled Response
  | .ok response => .fulfilled response
  | .error error => .rejected (.axios error)

/-- The refresh exchanges in a trace. -/
def exchanges (t : List Event) : List (String × JsVal) :=
  t.filterMap fun e => match e with
    | .post url body => some (url, body)
    | _ => none

/-- The configs of the requests dispatched by the api instance in a trace, oldest first. -/
def dispatched (t : List Event) : List Config :=
  t.filterMap fun e => match e with
    | .dispatch c => some c
    | _ => none

/-- A storage library that never fails. -/
def Faults.never : Faults :=
  { getItem := fun _ _ => none
    setItem := fun _ _ _ => none
    removeItem := fun _ _ => none
    multiRemove := fun _ _ => none
    multiSet := fun _ _ => none }

/-- The empty storage. -/
def Store.empty : Store := fun _ => none

namespace Example

/-- Config of `GET /tasks/` as built by `api.get`. -/
def getTasks : Config :=
  { method := some "get", baseURL := none, url := some "/tasks/", headers := Headers.empty
    params := .undefined, data := .undefined, timeout := none, _retry := false }

/-- A server that answers every request with status 200. -/
def envOk : Env :=
  { server := fun _ _ => .response 200 (.str "tasks")
    refreshEndpoint := fun _ _ _ => .failure none "Network Error"
    faults := Faults.never }

/-- A server that accepts only "Bearer A2", and a refresh endpoint that answers every
exchange with the access token A2 and the rotated refresh token R2. -/
def envRefresh : Env :=
  { server := fun _ c =>
      if c.headers "Authorization" = some "Bearer A2" then .response 200 (.str "tasks")
      else .response 401 .null
    refreshEndpoint := fun _ _ _ => .tokens "A2" (some "R2")
    faults := Faults.never }

/-- A server that answers 401 to everything, and a refresh endpoint that does so too. -/
def envDenied : Env :=
  { server := fun _ _ => .response 401 .null
    refreshEndpoint := fun _ _ _ => .failure (some 401) "Request failed with status code 401"
    faults := Faults.never }

/-- A storage library whose reads fail. -/
def envUnreadable : Env :=
  { server := fun _ _ => .response 200 (.str "tasks")
    refreshEndpoint := fun _ _ _ => .failure none "Network Error"
    faults := { Faults.never with getItem := fun _ _ => some { message := "read failed" } } }

/-- A device on which only the access token A1 is stored. -/
def worldA1 : World := { store := Store.empty.set "access_token" "A1", trace := [] }

/-- A device on which nothing is stored. -/
def worldEmpty : World := { store := Store.empty, trace := [] }

/-- A device holding the access token A1 and the refresh token R1. -/
def worldA1R1 : World :=
  { store := (Store.empty.set "access_token" "A1").set "refresh_token" "R1", trace := [] }

/-- The error of a request answered with the given status. -/
def errorWith (status : Nat) (retried : Bool) : AxiosError :=
  { message := "Request failed"
    config := { mergeConfig defaults getTasks with _retry := retried }
    request := true
    response := some { status := status, data := .null } }

/-- The error of a request that got no answer. -/
def networkError : AxiosError :=
  { message := "Network Error", config := mergeConfig defaults getTasks, request := true
    response := none }

end Example

/-! ## JavaScript values: conversion to string, truthiness, property access -/

mutual
/-- String conversion of a value, as performed when it is put into a template literal. -/
def JsVal.toStr : JsVal → String
  | .undefined => "undefined"
  | .null => "null"
  | .bool true => "true"
  | .bool false => "false"
  | .num n => toString n
  | .str s => s
  | .arr items => JsVal.join items
  | .obj _ => "[object Object]"
termination_by structural v => v
/-- String conversion of the elements of an array, joined by commas; null and undefined
elements give the empty string. -/
def JsVal.join : List JsVal → String
  | [] => ""
  | x :: rest => (match x with
      | .undefined => ""
      | .null => ""
      | v => JsVal.toStr v) ++ (match rest with
      | [] => ""
      | _ => ",") ++ JsVal.join rest
termination_by structural l => l
end

/-- Truthiness of a value, as tested by `if (v)`, `v || w` and `!!v`. -/
def JsVal.truthy : JsVal → Bool
  | .undefined => false
  | .null => false
  | .bool b => b
  | .num n => n != 0
  | .str s => s != ""
  | .arr _ => true
  | .obj _ => true

/-- The expression `a || b`. -/
def JsVal.or (a b : JsVal) : JsVal := if a.truthy then a else b

/-- Lookup of a property in the fields of an object, which are listed with distinct
keys; a missing property is undefined. -/
def JsVal.lookup (key : String) : List (String × JsVal) → JsVal
  | [] => .undefined
  | (k, v) :: rest => if k = key then v else JsVal.lookup key rest

/-- The expression `v?.key`: undefined when `v` is null or undefined, the property
otherwise. Of the values that are not objects only their own properties are modelled,
and they have none under the names used in this repository. -/
def JsVal.get (v : JsVal) (key : String) : JsVal :=
  match v with
  | .obj fields => JsVal.lookup key fields
  | _ => .undefined

/-- The expression `v.key` without optional chaining: a TypeError (`none`) when `v` is
null or undefined. -/
def JsVal.getStrict (v : JsVal) (key : String) : Option JsVal :=
  match v with
  | .undefined => none
  | .null => none
  | other => some (other.get key)

/-- The expression `v?.[0]`. -/
def JsVal.first : JsVal → JsVal
  | .arr (x :: _) => x
  | .str s => match s.data with
    | c :: _ => .str (String.singleton c)
    | [] => .undefined
  | .obj fields => JsVal.lookup "0" fields
  | _ => .undefined

/-- The test `typeof v === "string"`. -/
def JsVal.isString : JsVal → Bool
  | .str _ => true
  | _ => false

/-! ## Request descriptors built by the axios helper methods -/

namespace Request

/-- Descriptor of `api.get(url, { params })`; `api.get(url)` has undefined params. -/
def get (url : String) (params : JsVal) : Config :=
  { method := some "get", baseURL := none, url := some url, headers := Headers.empty
    params := params, data := .undefined, timeout := none, _retry := false }

/-- Descriptor of `api.delete(url)`. -/
def delete (url : String) : Config :=
  { method := some "delete", baseURL := none, url := some url, headers := Headers.empty
    params := .undefined, data := .undefined, timeout := none, _retry := false }

/-- Descriptor of `api.post(url, data)`; `api.post(url)` has undefined data. -/
def post (url : String) (data : JsVal) : Config :=
  { method := some "post", baseURL := none, url := some url, headers := Headers.empty
    params := .undefined, data := data, timeout := none, _retry := false }

/-- Descriptor of `api.put(url, data)`. -/
def put (url : String) (data : JsVal) : Config :=
  { method := some "put", baseURL := none, url := some url, headers := Headers.empty
    params := .undefined, data := data, timeout := none, _retry := false }

/-- Descriptor of `api.patch(url, data)`. -/
def patch (url : String) (data : JsVal) : Config :=
  { method := some "patch", baseURL := none, url := some url, headers := Headers.empty
    params := .undefined, data := data, timeout := none, _retry := false }

end Request

/-! ## API surface of the main variant, lines 68 to 177: the descriptor that each wrapper
hands to the instance -/

namespace Main.Descriptor

/-- Line 71. -/
def authAPI.login (credentials : JsVal) : Config := Request.post "/auth/login/" credentials

/-- Line 74. -/
def authAPI.register (userData : JsVal) : Config := Request.post "/auth/register/" userData

/-- Line 77. -/
def authAPI.logout : Config := Request.post "/auth/logout/" .undefined

/-- Line 80. -/
def authAPI.getProfile : Config := Request.get "/profile/" .undefined

/-- Line 83. -/
def authAPI.updateProfile (profileData : JsVal) : Config :=
  Request.put "/profile/update/" profileData

/-- Line 86. -/
def authAPI.changePassword (passwordData : JsVal) : Config :=
  Request.put "/profile/change-password/" passwordData

/-- Line 89. -/
def authAPI.getUserStats : Config := Request.get "/stats/" .undefined

/-- Line 92. -/
def authAPI.refreshToken (refreshToken : JsVal) : Config :=
  Request.post "/auth/refresh/" (.obj [("refresh", refreshToken)])

/-- Line 98. -/
def tasksAPI.getTasks (params : JsVal) : Config := Request.get "/tasks/" params

/-- Line 101. -/
def tasksAPI.getTask (id : JsVal) : Config := Request.get ("/tasks/" ++ id.toStr ++ "/") .undefined

/-- Line 104. -/
def tasksAPI.createTask (taskData : JsVal) : Config := Request.post "/tasks/" taskData

/-- Line 107. -/
def tasksAPI.updateTask (id taskData : JsVal) : Config :=
  Request.put ("/tasks/" ++ id.toStr ++ "/") taskData

/-- Line 110. -/
def tasksAPI.deleteTask (id : JsVal) : Config := Request.delete ("/tasks/" ++ id.toStr ++ "/")

/-- Line 113. -/
def tasksAPI.completeTask (id data : JsVal) : Config :=
  Request.post ("/tasks/" ++ id.toStr ++ "/complete/") data

/-- Line 116. -/
def tasksAPI.snoozeTask (id data : JsVal) : Config :=
  Request.post ("/tasks/" ++ id.toStr ++ "/snooze/") data

/-- Line 119: the wrapper takes the identifier only and posts without a body. -/
def tasksAPI.startProgress (id : JsVal) : Config :=
  Request.post ("/tasks/" ++ id.toStr ++ "/start_progress/") .undefined

/-- Line 122. -/
def tasksAPI.updateProgress (id data : JsVal) : Config :=
  Request.post ("/tasks/" ++ id.toStr ++ "/update_progress/") data

/-- Line 125. -/
def tasksAPI.bulkUpdate (data : JsVal) : Config := Request.post "/tasks/bulk_update/" data

/-- Line 128. -/
def tasksAPI.getUrgentTasks : Config := Request.get "/tasks/urgent/" .undefined

/-- Line 131. -/
def tasksAPI.getOverdueTasks : Config := Request.get "/tasks/overdue/" .undefined

/-- Line 134. -/
def tasksAPI.getTodayTasks : Config := Request.get "/tasks/today/" .undefined

/-- Line 137. -/
def tasksAPI.getWeekTasks : Config := Request.get "/tasks/week/" .undefined

/-- Line 140. -/
def tasksAPI.getTaskAnalytics (params : JsVal) : Config := Request.get "/analytics/" params

/-- Line 143. -/
def tasksAPI.getSmartSuggestions : Config := Request.get "/suggestions/" .undefined

/-- Line 146. -/
def tasksAPI.getCalendarView (params : JsVal) : Config := Request.get "/calendar/" params

/-- Line 152. -/
def categoriesAPI.getCategories : Config := Request.get "/categories/" .undefined

/-- Line 155. -/
def categoriesAPI.getCategory (id : JsVal) : Config :=
  Request.get ("/categories/" ++ id.toStr ++ "/") .undefined

/-- Line 158. -/
def categoriesAPI.createCategory (categoryData : JsVal) : Config :=
  Request.post "/categories/" categoryData

/-- Line 161. -/
def categoriesAPI.updateCategory (id categoryData : JsVal) : Config :=
  Request.put ("/categories/" ++ id.toStr ++ "/") categoryData

/-- Line 164. -/
def categoriesAPI.deleteCategory (id : JsVal) : Config :=
  Request.delete ("/categories/" ++ id.toStr ++ "/")

/-- Line 170. -/
def notificationsAPI.getNotifications : Config := Request.get "/notifications/" .undefined

/-- Line 173. -/
def notificationsAPI.markAsRead (id : JsVal) : Config :=
  Request.put ("/notifications/" ++ id.toStr ++ "/") (.obj [("is_read", .bool true)])

/-- Line 176. -/
def notificationsAPI.deleteNotification (id : JsVal) : Config :=
  Request.delete ("/notifications/" ++ id.toStr ++ "/")

end Main.Descriptor

/-! ## API surface of the expo variant, lines 52 to 82 -/

namespace Expo.Descriptor

/-- Line 54. -/
def authAPI.login (credentials : JsVal) : Config := Request.post "/api/auth/login/" credentials

/-- Line 55. -/
def authAPI.register (userData : JsVal) : Config := Request.post "/api/auth/register/" userData

/-- Line 56. -/
def authAPI.refresh (refreshToken : JsVal) : Config :=
  Request.post "/api/auth/refresh/" (.obj [("refresh", refreshToken)])

/-- Line 61. -/
def tasksAPI.getAll (params : JsVal) : Config := Request.get "/api/tasks/" params

/-- Line 62. -/
def tasksAPI.getById (id : JsVal) : Config :=
  Request.get ("/api/tasks/" ++ id.toStr ++ "/") .undefined

/-- Line 63. -/
def tasksAPI.create (taskData : JsVal) : Config := Request.post "/api/tasks/" taskData

/-- Line 64. -/
def tasksAPI.update (id taskData : JsVal) : Config :=
  Request.put ("/api/tasks/" ++ id.toStr ++ "/") taskData

/-- Line 65. -/
def tasksAPI.delete (id : JsVal) : Config := Request.delete ("/api/tasks/" ++ id.toStr ++ "/")

/-- Line 66. -/
def tasksAPI.markComplete (id : JsVal) : Config :=
  Request.patch ("/api/tasks/" ++ id.toStr ++ "/") (.obj [("status", .str "completed")])

/-- Line 71. -/
def categoriesAPI.getAll : Config := Request.get "/api/categories/" .undefined

/-- Line 72. -/
def categoriesAPI.create (categoryData : JsVal) : Config :=
  Request.post "/api/categories/" categoryData

/-- Line 73. -/
def categoriesAPI.update (id categoryData : JsVal) : Config :=
  Request.put ("/api/categories/" ++ id.toStr ++ "/") categoryData

/-- Line 74. -/
def categoriesAPI.delete (id : JsVal) : Config :=
  Request.delete ("/api/categories/" ++ id.toStr ++ "/")

/-- Line 79. -/
def userAPI.getProfile : Config := Request.get "/api/users/profile/" .undefined

/-- Line 80. -/
def userAPI.updateProfile (profileData : JsVal) : Config :=
  Request.put "/api/users/profile/" profileData

/-- Line 81. -/
def userAPI.changePassword (passwordData : JsVal) : Config :=
  Request.post "/api/users/change-password/" passwordData

end Expo.Descriptor

/-! ## Storage helpers of the main variant, `apiUtils`, lines 180 to 242 -/

/-- Write of a list of pairs, in order. -/
def Store.setAll (s : Store) (pairs : List (String × String)) : Store :=
  pairs.foldl (fun acc p => acc.set p.1 p.2) s

/-- Write `AsyncStorage.multiSet(pairs)`. A failing call may have written some of its
pairs before rejecting. -/
def AsyncStorage.multiSet (env : Env) (pairs : List (String × String)) (w : World) :
    Except StorageError Unit × World :=
  match env.faults.multiSet w.trace.length pairs with
  | some (e, done) =>
    (.error e, { store := w.store.setAll (done.filter (· ∈ pairs)),
                 trace := w.trace ++ [.multiSet pairs] })
  | none => (.ok (), { store := w.store.setAll pairs, trace := w.trace ++ [.multiSet pairs] })

/-- Write `AsyncStorage.setItem(key, value)` with an arbitrary value: the library stores
strings only and rejects a value of any other type. -/
def AsyncStorage.setItemOf (env : Env) (key : String) (value : JsVal) (w : World) :
    Except StorageError Unit × World :=
  match value with
  | .str s => AsyncStorage.setItem env key s w
  | _ => (.error { message := "Invalid value" }, w)

/-- An error object as `handleError` receives it: `response` when the server answered,
`request` telling whether `error.request` is set, and the `message` property. -/
structure JsError where
  response : Option HttpReply
  request : Bool
  message : JsVal

/-- The object returned by `handleError`; `data` is `none` when the object has no such
property. -/
structure ErrorInfo where
  message : JsVal
  status : Nat
  data : Option JsVal

/-- A thrown TypeError. -/
structure TypeError where
  message : String

/-- The axios error seen as an error object. -/
def AxiosError.toJsError (error : AxiosError) : JsError :=
  { response := error.response, request := error.request, message := .str error.message }

namespace Main

/-- Function `apiUtils.handleError`, lines 182 to 204. Reading `data.message` throws
when `data` is null or undefined. -/
def apiUtils.handleError (error : JsError) : Except TypeError ErrorInfo :=
  match error.response with
  | some response =>
    let data := response.data
    let status := response.status
    match data.getStrict "message" with
    | none => .error { message := "Cannot read properties of " ++ data.toStr }
    | some message =>
      .ok { message := (message.or (data.get "detail")).or (.str ("Error " ++ toString status))
            status := status
            data := some data }
  | none =>
    if error.request then
      .ok { message := .str "No response from server. Please check your connection."
            status := 0
            data := none }
    else
      .ok { message := error.message.or (.str "An unexpected error occurred.")
            status := 0
            data := none }

/-- Function `apiUtils.isAuthenticated`, lines 207 to 214. -/
def apiUtils.isAuthenticated (env : Env) (w : World) : Settled Bool × World :=
  match AsyncStorage.getItem env "access_token" w with
  | (.ok (some token), w1) => (.fulfilled (decide (token ≠ "")), w1)
  | (.ok none, w1) => (.fulfilled false, w1)
  | (.error _, w1) => (.fulfilled false, w1)

/-- Function `apiUtils.clearStorage`, lines 217 to 229. -/
def apiUtils.clearStorage (env : Env) (w : World) : Settled Unit × World :=
  match AsyncStorage.multiRemove env
      ["access_token", "refresh_token", "user_data", "tasks_cache", "categories_cache"] w with
  | (.ok _, w1) => (.fulfilled (), w1)
  | (.error _, w1) => (.fulfilled (), w1.log (.console "error" "Error clearing storage:"))

/-- Function `apiUtils.setAuthTokens`, lines 232 to 241. -/
def apiUtils.setAuthTokens (env : Env) (accessToken refreshToken : String) (w : World) :
    Settled Unit × World :=
  match AsyncStorage.multiSet env
      [("access_token", accessToken), ("refresh_token", refreshToken)] w with
  | (.ok _, w1) => (.fulfilled (), w1)
  | (.error _, w1) => (.fulfilled (), w1.log (.console "error" "Error setting tokens:"))

end Main

/-! ## Login screen of the expo variant, `screens/auth/LoginScreen.js` -/

/-- What the screen shows and where it navigates. -/
structure Ui where
  loading : Bool
  alerts : List (String × JsVal)
  routes : List String

/-- Call `Alert.alert(title, message)`. -/
def Ui.alert (ui : Ui) (title : String) (message : JsVal) : Ui :=
  { ui with alerts := ui.alerts ++ [(title, message)] }

/-- Call `navigation.replace(route)`. -/
def Ui.replace (ui : Ui) (route : String) : Ui :=
  { ui with routes := ui.routes ++ [route] }

namespace Expo.LoginScreen

/-- The catch block of `handleLogin`, lines 36 to 47. -/
def loginFailed (reason : Rejection) (w : World) (ui : Ui) : World × Ui :=
  let w1 := w.log (.console "error" "Login error:")
  match reason with
  | .axios error =>
    if error.status = some 400 then
      let data := (error.response.map (·.data)).getD .undefined
      let detail :=
        if data.isString then data
        else ((data.get "detail").or (data.get "non_field_errors").first).or
          (.str "Invalid request.")
      (w1, ui.alert "Login Failed" detail)
    else if error.status = some 401 then
      (w1, ui.alert "Login Failed" (.str "Invalid username or password"))
    else (w1, ui.alert "Error" (.str "Login failed. Please try again."))
  | .storage _ => (w1, ui.alert "Error" (.str "Login failed. Please try again."))

/-- The try block of `handleLogin`, lines 19 to 35. -/
def attemptLogin (env : Env) (username password : String) (w : World) (ui : Ui) : World × Ui :=
  match Expo.api env (Descriptor.authAPI.login
      (.obj [("username", .str username), ("password", .str password)])) w with
  | (.fulfilled response, w1) =>
    let tokens := ((response.data.get "tokens").or response.data).or (.obj [])
    let access := tokens.get "access"
    let refresh := tokens.get "refresh"
    if access.truthy then
      match AsyncStorage.setItemOf env "access_token" access w1 with
      | (.ok _, w2) =>
        if refresh.truthy then
          match AsyncStorage.setItemOf env "refresh_token" refresh w2 with
          | (.ok _, w3) => (w3, ui.replace "Main")
          | (.error e, w3) => loginFailed (.storage e) w3 ui
        else (w2, ui.replace "Main")
      | (.error e, w2) => loginFailed (.storage e) w2 ui
    else (w1, ui.alert "Error" (.str "Unexpected login response from server."))
  | (.rejected reason, w1) => loginFailed reason w1 ui

/-- Function `handleLogin`, lines 12 to 51. -/
def handleLogin (env : Env) (username password : String) (w : World) (ui : Ui) : World × Ui :=
  if username = "" ∨ password = "" then
    (w, ui.alert "Error" (.str "Please enter username and password"))
  else
    match attemptLogin env username password w { ui with loading := true } with
    | (w1, ui1) => (w1, { ui1 with loading := false })

end Expo.LoginScreen

namespace Example

/-- A storage library that fails to remove the refresh token, and a server that answers
401 to everything. -/
def envHalfRemoval : Env :=
  { server := fun _ _ => .response 401 .null
    refreshEndpoint := fun _ _ _ => .failure none "Network Error"
    faults := { Faults.never with
      removeItem := fun _ key =>
        if key = "refresh_token" then some { message := "remove failed" } else none } }

end Example

/-- The same descriptor with its path moved under a base path. -/
def Config.under (base : String) (c : Config) : Config :=
  { c with url := c.url.map (base ++ ·) }

namespace Example

/-- An error whose response has the body null. -/
def errorNullBody : JsError :=
  { response := some { status := 500, data := .null }, request := true
    message := .str "Request failed with status code 500" }

/-- An error whose response body carries a detail. -/
def errorWithDetail : JsError :=
  { response := some { status := 400, data := .obj [("detail", .str "Invalid input")] }
    request := true, message := .str "Request failed with status code 400" }

end Example

namespace Example

/-- A server that answers the login with the tokens at the top of the body. -/
def envLoginFlat : Env :=
  { server := fun _ _ => .response 200 (.obj [("access", .str "A1"), ("refresh", .str "R1")])
    refreshEndpoint := fun _ _ _ => .failure none "Network Error"
    faults := Faults.never }

/-- A server that answers the login with the tokens under the property tokens. -/
def envLoginNested : Env :=
  { server := fun _ _ =>
      .response 200 (.obj [("tokens", .obj [("access", .str "A1"), ("refresh", .str "R1")])])
    refreshEndpoint := fun _ _ _ => .failure none "Network Error"
    faults := Faults.never }

/-- A server that answers the login without tokens. -/
def envLoginEmpty : Env :=
  { server := fun _ _ => .response 200 (.obj [("user", .str "u")])
    refreshEndpoint := fun _ _ _ => .failure none "Network Error"
    faults := Faults.never }

/-- The login screen before anything happened. -/
def uiStart : Ui := { loading := false, alerts := [], routes := [] }

end Example

/-! ## JavaScript strings: trimming and length -/

/-- White space and line terminators, the characters removed by `String.prototype.trim`. -/
def isJsWhitespace (c : Char) : Bool :=
  c.toNat ∈ [0x09, 0x0A, 0x0B, 0x0C, 0x0D, 0x20, 0xA0, 0x1680, 0x2000, 0x2001, 0x2002, 0x2003,
    0x2004, 0x2005, 0x2006, 0x2007, 0x2008, 0x2009, 0x200A, 0x2028, 0x2029, 0x202F, 0x205F,
    0x3000, 0xFEFF]

/-- The method `s.trim()`. -/
def jsTrim (s : String) : String :=
  String.mk ((s.data.dropWhile isJsWhitespace).reverse.dropWhile isJsWhitespace).reverse

/-- The property `s.length`: the number of UTF-16 code units. -/
def jsLength (s : String) : Nat :=
  (s.data.map fun c => if c.toNat < 0x10000 then 1 else 2).sum

/-! ## Login screen of the main variant, `screens/auth/LoginScreen.js` -/

namespace Main.LoginScreen

/-- The form, line 21. -/
structure FormData where
  username : String
  password : String

/-- The object `errors` of `validateForm`; `none` is a property that was not set. -/
structure FormErrors where
  username : Option String
  password : Option String

/-- State of the screen: the form, its errors, the alerts shown and the login thunks
dispatched so far. -/
structure State where
  formData : FormData
  formErrors : FormErrors
  alerts : List (String × JsVal)
  dispatched : List FormData

/-- The object `errors` built at lines 54 to 64. -/
def errorsOf (formData : FormData) : FormErrors :=
  { username := if jsTrim formData.username = "" then some "Username is required" else none
    password :=
      if formData.password = "" then some "Password is required"
      else if jsLength formData.password < 6 then some "Password must be at least 6 characters"
      else none }

/-- Function `validateForm`, lines 53 to 68: the state with the errors set, and whether
the object `errors` has no key. -/
def validateForm (s : State) : State × Bool :=
  ({ s with formErrors := errorsOf s.formData },
    (errorsOf s.formData).username.isNone && (errorsOf s.formData).password.isNone)

/-- Function `handleLogin`, lines 71 to 79. The thunk `loginUser` belongs to the store
slice, which is not part of the sources: it is a parameter that tells how the
dispatched login, once unwrapped, settles. Reading `error.message` of a rejection that
is null or undefined throws (`none`). -/
def handleLogin (loginUser : FormData → Except JsVal Unit) (s : State) : Option State :=
  match validateForm s with
  | (s1, false) => some s1
  | (s1, true) =>
    let s2 := { s1 with dispatched := s1.dispatched ++ [s1.formData] }
    match loginUser s1.formData with
    | .ok _ => some s2
    | .error error =>
      match error.getStrict "message" with
      | none => none
      | some message =>
        some { s2 with
          alerts := s2.alerts ++ [("Login Failed", message.or (.str "Please check your credentials"))] }

end Main.LoginScreen

/-! ## Task card of the main variant, `components/tasks/TaskCard.js` -/

namespace TaskCard

/-- The call `a.diff(b, unit)` of the date library on two instants in milliseconds: the
difference in the unit, truncated toward zero. -/
def diff (a b unit : Int) : Int := Int.tdiv (a - b) unit

/-- Function `formatDueDate`, lines 71 to 96. The due date is an instant in
milliseconds, `none` when the task has none; `format` is the rendering of a date as
"MMM DD, YYYY" by the date library. -/
def formatDueDate (format : Int → String) (now : Int) (dueDate : Option Int) : String :=
  match dueDate with
  | none => "No due date"
  | some due =>
    let diffDays := diff due now 86400000
    let diffHours := diff due now 3600000
    if diffDays < 0 then "Overdue by " ++ toString diffDays.natAbs ++ " days"
    else if diffDays = 0 then
      if diffHours < 0 then "Overdue today"
      else if diffHours < 1 then "Due within an hour"
      else "Due in " ++ toString diffHours ++ " hours"
    else if diffDays = 1 then "Due tomorrow"
    else if diffDays < 7 then "Due in " ++ toString diffDays ++ " days"
    else format due

/-- The flag `isOverdueTask`, line 126. -/
def isOverdueTask (now : Int) (isOverdue : Bool) (dueDate : Option Int) : Bool :=
  isOverdue || (match dueDate with
    | none => false
    | some due => decide (due < now))

end TaskCard

/-! ## JavaScript values: strict equality and object spread -/

/-- The expression `a === b`. Primitive values are compared by value; objects and arrays
are compared by reference, and two of them read from different places are taken to be
different. -/
def JsVal.strictEq : JsVal → JsVal → Bool
  | .undefined, .undefined => true
  | .null, .null => true
  | .bool a, .bool b => a == b
  | .num a, .num b => a == b
  | .str a, .str b => a == b
  | _, _ => false

/-- The own properties copied by the spread `{ ...v }`; of the values that are not
objects no own property is modelled. -/
def JsVal.ownProperties : JsVal → List (String × JsVal)
  | .obj fields => fields
  | _ => []

/-- Assignment of a property in an object literal that already lists other properties:
the value of a listed key is replaced in place, a new key is added at the end. -/
def setField (key : String) (value : JsVal) : List (String × JsVal) → List (String × JsVal)
  | [] => [(key, value)]
  | (k, v) :: rest => if k = key then (k, value) :: rest else (k, v) :: setField key value rest

/-- Whether the properties of a value can be read: reading a property of null or
undefined throws a TypeError. -/
def JsVal.readable : JsVal → Bool
  | .undefined => false
  | .null => false
  | _ => true

/-! ## Numbers: double precision division and multiplication, and `Math.round` -/

/-- The non-negative quotient `n / d` rounded to the nearest integer, ties to even. -/
def roundHalfEven (n d : Nat) : Nat :=
  if 2 * (n % d) < d then n / d
  else if d < 2 * (n % d) then n / d + 1
  else if (n / d) % 2 = 0 then n / d
  else n / d + 1

/-- Search of the least scale `s`, from `s` on, for which `p * 2 ^ s / q` is at least
`2 ^ 52`, so that the quotient has a mantissa of 53 bits. -/
def scaleFrom (p q : Nat) : Nat → Nat → Nat
  | 0, s => s
  | fuel + 1, s => if q * 2 ^ 52 ≤ p * 2 ^ s then s else scaleFrom p q fuel (s + 1)

/-- A non-negative finite double, the number `mantissa / 2 ^ scale`. -/
structure Double where
  mantissa : Nat
  scale : Nat

/-- The double nearest to the rational `p / q`, ties to even: the result of a division
or multiplication whose exact value is `p / q`. It is meant for quotients below
`2 ^ 52` and above the subnormal range, which covers the counts of a task list. -/
def Double.nearest (p q : Nat) : Double :=
  if p = 0 then { mantissa := 0, scale := 0 }
  else
    { mantissa := roundHalfEven (p * 2 ^ scaleFrom p q (52 + q) 0) q
      scale := scaleFrom p q (52 + q) 0 }

/-- The function `Math.round`: the nearest integer, a tie going up. -/
def Math.round (x : Double) : Nat :=
  (2 * x.mantissa + 2 ^ x.scale) / 2 ^ (x.scale + 1)

/-! ## Home screen of the expo variant, `screens/main/HomeScreen.js` -/

/-- The clock and the date functions of the platform: the current instant, the instant
that `new Date(v)` denotes (`none` for an invalid date) and `toDateString`. -/
structure Clock where
  now : Int
  parse : JsVal → Option Int
  toDateString : Int → String

namespace Expo.HomeScreen

/-- The statistics shown on the dashboard. -/
structure Stats where
  totalTasks : Nat
  completedTasks : Nat
  pendingTasks : Nat
  overdueTasks : Nat
  completionRate : Nat

/-- State of the screen. -/
structure State where
  stats : Stats
  urgentTasks : List JsVal
  todayTasks : List JsVal
  loading : Bool
  refreshing : Bool

/-- Function `normalizeTasks`, lines 20 to 24. -/
def normalizeTasks (data : JsVal) : List JsVal :=
  match data with
  | .arr items => items
  | other =>
    match other.get "results" with
    | .arr items => items
    | _ => []

/-- The test `task.status === "completed"`. -/
def isCompleted (task : JsVal) : Bool :=
  (task.get "status").strictEq (.str "completed")

/-- The test of lines 34 to 36: the due date lies before now and the task is not
completed. A comparison with an invalid date is false. -/
def isOverdue (clock : Clock) (task : JsVal) : Bool :=
  (match clock.parse (task.get "due_date") with
    | some due => decide (due < clock.now)
    | none => false) && !isCompleted task

/-- The test of lines 47 to 49. -/
def isUrgent (task : JsVal) : Bool :=
  (task.get "priority").strictEq (.str "urgent") || (task.get "priority").strictEq (.str "high")

/-- The test of lines 51 to 55: the due date falls on the day of now. The text of an
invalid date is "Invalid Date". -/
def isToday (clock : Clock) (task : JsVal) : Bool :=
  (match clock.parse (task.get "due_date") with
    | some due => clock.toDateString due
    | none => "Invalid Date") = clock.toDateString clock.now

/-- The expression of line 37: `(completed / total) * 100` in double precision, then
`Math.round`; zero for an empty list. -/
def completionRate (completed total : Nat) : Nat :=
  if 0 < total then
    Math.round (Double.nearest ((Double.nearest completed total).mantissa * 100)
      (2 ^ (Double.nearest completed total).scale))
  else 0

/-- The statistics of lines 31 to 45. -/
def statsOf (clock : Clock) (tasks : List JsVal) : Stats :=
  { totalTasks := tasks.length
    completedTasks := (tasks.filter isCompleted).length
    pendingTasks := tasks.length - (tasks.filter isCompleted).length
    overdueTasks := (tasks.filter (isOverdue clock)).length
    completionRate := completionRate (tasks.filter isCompleted).length tasks.length }

/-- The mock statistics of the catch block, lines 62 to 68. -/
def mockStats : Stats :=
  { totalTasks := 24, completedTasks := 18, pendingTasks := 6, overdueTasks := 2
    completionRate := 75 }

/-- The mock urgent tasks, lines 70 to 85. -/
def mockUrgentTasks : List JsVal :=
  [.obj [("id", .str "1"), ("title", .str "Complete Project Proposal"),
      ("priority", .str "urgent"), ("due_date", .str "2 hours"), ("category", .str "work")],
    .obj [("id", .str "2"), ("title", .str "Review Code Changes"), ("priority", .str "high"),
      ("due_date", .str "6 hours"), ("category", .str "work")]]

/-- The mock tasks of today, lines 87 to 102. -/
def mockTodayTasks : List JsVal :=
  [.obj [("id", .str "3"), ("title", .str "Team Meeting"), ("priority", .str "medium"),
      ("due_date", .str "Today"), ("category", .str "work")],
    .obj [("id", .str "4"), ("title", .str "Gym Session"), ("priority", .str "low"),
      ("due_date", .str "Today"), ("category", .str "health")]]

/-- The catch block and the finally block, lines 60 to 105. -/
def useMockData (w : World) (s : State) : World × State :=
  (w.log (.console "log" "Using mock data - API not accessible:"),
    { s with stats := mockStats, urgentTasks := mockUrgentTasks, todayTasks := mockTodayTasks
             loading := false })

/-- Function `fetchTasks`, lines 26 to 106. A task that is null or undefined makes the
first filter throw, which leads to the catch block like a failed request. -/
def fetchTasks (env : Env) (clock : Clock) (w : World) (s : State) : World × State :=
  match Expo.api env (Expo.Descriptor.tasksAPI.getAll .undefined) w with
  | (.fulfilled response, w1) =>
    if (normalizeTasks response.data).all JsVal.readable then
      (w1, { s with
        stats := statsOf clock (normalizeTasks response.data)
        urgentTasks := ((normalizeTasks response.data).filter isUrgent).take 2
        todayTasks := ((normalizeTasks response.data).filter (isToday clock)).take 2
        loading := false })
    else useMockData w1 s
  | (.rejected _, w1) => useMockData w1 s

end Expo.HomeScreen

/-! ## Tasks screen of the expo variant, `screens/main/TasksScreen.js` -/

namespace Expo.TasksScreen

/-- State of the screen. -/
structure State where
  tasks : List JsVal
  loading : Bool
  refreshing : Bool
  addVisible : Bool
  newTitle : String
  newPriority : String
  newDueDate : String
  creating : Bool

/-- The object `{ ...t, status: "completed" }`. -/
def completed (t : JsVal) : JsVal :=
  .obj (setField "status" (.str "completed") t.ownProperties)

/-- The update of line 48, `prev.map(...)` for the task with the given id; `none` when
reading `t.id` throws. -/
def completeUpdater (id : JsVal) : List JsVal → Option (List JsVal)
  | [] => some []
  | t :: rest =>
    match t.getStrict "id" with
    | none => none
    | some tid =>
      match completeUpdater id rest with
      | none => none
      | some done => some ((if tid.strictEq id then completed t else t) :: done)

/-- The update of line 63, `prev.filter(...)` for the task with the given id; `none`
when reading `t.id` throws. -/
def deleteUpdater (id : JsVal) : List JsVal → Option (List JsVal)
  | [] => some []
  | t :: rest =>
    match t.getStrict "id" with
    | none => none
    | some tid =>
      match deleteUpdater id rest with
      | none => none
      | some kept => some (if tid.strictEq id then kept else t :: kept)

/-- Function `handleComplete`, lines 45 to 52; `none` when the update of the state
throws. -/
def handleComplete (env : Env) (task : JsVal) (w : World) (s : State) (ui : Ui) :
    Option (World × State × Ui) :=
  match task.getStrict "id" with
  | none => some (w, s, ui.alert "Error" (.str "Failed to mark task as completed"))
  | some id =>
    match Expo.api env
        (Expo.Descriptor.tasksAPI.update id (.obj [("status", .str "completed")])) w with
    | (.fulfilled _, w1) =>
      match completeUpdater id s.tasks with
      | some tasks => some (w1, { s with tasks := tasks }, ui)
      | none => none
    | (.rejected _, w1) =>
      some (w1, s, ui.alert "Error" (.str "Failed to mark task as completed"))

/-- Function `handleDelete`, lines 54 to 70; `confirmed` tells whether the user presses
Delete in the alert, and `none` is an update of the state that throws. -/
def handleDelete (env : Env) (task : JsVal) (confirmed : Bool) (w : World) (s : State)
    (ui : Ui) : Option (World × State × Ui) :=
  let ui1 := ui.alert "Delete Task" (.str "Are you sure you want to delete this task?")
  if confirmed then
    match task.getStrict "id" with
    | none => some (w, s, ui1.alert "Error" (.str "Failed to delete task"))
    | some id =>
      match Expo.api env (Expo.Descriptor.tasksAPI.delete id) w with
      | (.fulfilled _, w1) =>
        match deleteUpdater id s.tasks with
        | some tasks => some (w1, { s with tasks := tasks }, ui1)
        | none => none
      | (.rejected _, w1) => some (w1, s, ui1.alert "Error" (.str "Failed to delete task"))
  else some (w, s, ui1)

/-- The payload of lines 100 to 107. -/
def payloadOf (s : State) : JsVal :=
  .obj ([("title", .str (jsTrim s.newTitle)), ("priority", .str s.newPriority),
      ("status", .str "pending")] ++
    (if jsTrim s.newDueDate = "" then [] else [("due_date", .str (jsTrim s.newDueDate))]))

/-- Function `submitCreate`, lines 93 to 119. -/
def submitCreate (env : Env) (w : World) (s : State) (ui : Ui) : World × State × Ui :=
  if jsTrim s.newTitle = "" then
    (w, s, ui.alert "Missing title" (.str "Please enter a task title"))
  else
    match Expo.api env (Expo.Descriptor.tasksAPI.create (payloadOf s)) w with
    | (.fulfilled created, w1) =>
      (w1,
        { s with
          tasks := if created.data.truthy then created.data :: s.tasks else s.tasks
          addVisible := false
          creating := false },
        ui)
    | (.rejected _, w1) =>
      (w1, { s with creating := false },
        ui.alert "Error"
          (.str "Failed to create task. Use ISO date like 2025-12-31T12:00:00Z for Due Date."))

end Expo.TasksScreen

namespace Example

/-- A clock for which every due date is a number of milliseconds. -/
def clock : Clock :=
  { now := 1000
    parse := fun v => match v with
      | .num n => some n
      | _ => none
    toDateString := fun t => toString (t / 86400000) }

/-- A task with the given id, status and priority. -/
def task (id : Int) (status priority : String) : JsVal :=
  .obj [("id", .num id), ("title", .str "t"), ("status", .str status),
    ("priority", .str priority)]

/-- Forty tasks, of which the first twenty-three are completed. -/
def fortyTasks : List JsVal :=
  List.replicate 23 (task 1 "completed" "low") ++ List.replicate 17 (task 2 "pending" "low")

/-- Four tasks with the priorities low, high, urgent and high. -/
def fourTasks : List JsVal :=
  [task 1 "pending" "low", task 2 "pending" "high", task 3 "completed" "urgent",
    task 4 "pending" "high"]

/-- A server that answers every request with the four tasks. -/
def envFourTasks : Env :=
  { server := fun _ _ => .response 200 (.arr fourTasks)
    refreshEndpoint := fun _ _ _ => .failure none "Network Error"
    faults := Faults.never }

/-- A server that answers every request with the forty tasks. -/
def envFortyTasks : Env :=
  { server := fun _ _ => .response 200 (.arr fortyTasks)
    refreshEndpoint := fun _ _ _ => .failure none "Network Error"
    faults := Faults.never }

/-- A server that answers every request with status 500. -/
def envBroken : Env :=
  { server := fun _ _ => .response 500 .null
    refreshEndpoint := fun _ _ _ => .failure none "Network Error"
    faults := Faults.never }

/-- A server that answers a creation with the created task. -/
def envCreated : Env :=
  { server := fun _ _ => .response 201 (task 9 "pending" "medium")
    refreshEndpoint := fun _ _ _ => .failure none "Network Error"
    faults := Faults.never }

/-- A server that answers a creation with an empty body. -/
def envCreatedEmpty : Env :=
  { server := fun _ _ => .response 201 (.str "")
    refreshEndpoint := fun _ _ _ => .failure none "Network Error"
    faults := Faults.never }

/-- The home screen before the tasks are fetched. -/
def homeStart : Expo.HomeScreen.State :=
  { stats := { totalTasks := 0, completedTasks := 0, pendingTasks := 0, overdueTasks := 0
               completionRate := 0 }
    urgentTasks := [], todayTasks := [], loading := true, refreshing := false }

/-- The tasks screen showing the four tasks, with the title "  Buy milk " typed in. -/
def tasksStart : Expo.TasksScreen.State :=
  { tasks := fourTasks, loading := false, refreshing := false, addVisible := true
    newTitle := "  Buy milk ", newPriority := "medium", newDueDate := "", creating := false }

end Example

/-- The percentage `100 * c / t` rounded to the nearest integer, a tie going up: the
completion rate in the words of the specification. -/
def Spec.roundedPercentage (c t : Nat) : Nat := (200 * c + t) / (2 * t)

/-- The login form of the main variant with a username of a tab, a space, a line feed
and a no-break space, and a password of three characters. -/
def Example.loginStart : Main.LoginScreen.State :=
  { formData := { username := String.mk [Char.ofNat 9, ' ', Char.ofNat 10, Char.ofNat 160]
                  password := "abc" }
    formErrors := { username := none, password := none }
    alerts := []
    dispatched := [] }

/-- The environment `envDenied` on a device whose `multiRemove` fails without having
removed anything. -/
def Example.envDeniedStuck : Env :=
  { Example.envDenied with
    faults := { Faults.never with
      multiRemove := fun _ _ => some ({ message := "remove failed" }, []) } }

/-- The environment `envOk` on a device whose `multiRemove` fails without having
removed anything. -/
def Example.envOkStuck : Env :=
  { Example.envOk with
    faults := { Faults.never with
      multiRemove := fun _ _ => some ({ message := "remove failed" }, []) } }

/-- The login form of the main variant with the username " alice " and the password
"secret". -/
def Example.loginAccepted : Main.LoginScreen.State :=
  { formData := { username := " alice ", password := "secret" }
    formErrors := { username := none, password := none }
    alerts := []
    dispatched := [] }

/-! ## Basic facts about the building blocks -/

theorem exchanges_append (a b : List Event) :
    exchanges (a ++ b) = exchanges a ++ exchanges b := by
  simp [exchanges]

theorem dispatched_append (a b : List Event) :
    dispatched (a ++ b) = dispatched a ++ dispatched b := by
  simp [dispatched]

theorem exchanges_cons (e : Event) (t : List Event) :
    exchanges (e :: t) = exchanges [e] ++ exchanges t :=
  exchanges_append [e] t

theorem dispatched_cons (e : Event) (t : List Event) :
    dispatched (e :: t) = dispatched [e] ++ dispatched t :=
  dispatched_append [e] t

theorem dispatchRequest_world (env : Env) (c : Config) (w : World) :
    (dispatchRequest env c w).2 = w.log (.dispatch c) := by
  unfold dispatchRequest
  split
  · split <;> rfl
  · rfl

theorem dispatchRequest_error_config (env : Env) (c : Config) (w : World) (e : AxiosError)
    (h : (dispatchRequest env c w).1 = .error e) : e.config = c := by
  unfold dispatchRequest at h
  split at h
  · split at h
    · cases h
    · injection h with h
      subst h
      rfl
  · injection h with h
    subst h
    rfl

theorem axios_post_world (env : Env) (url : String) (body : JsVal) (w : World) :
    (axios.post env url body w).2 = w.log (.post url body) := by
  unfold axios.post
  split <;> rfl

namespace Main

/-- The request interceptor always fulfils; it reads the access token, leaves the
storage as it is and changes nothing of the config except possibly the Authorization
header. -/
theorem requestInterceptor_shape (env : Env) (config : Config) (w : World) :
    ∃ c d, requestInterceptor env config w
        = (.fulfilled c, { store := w.store, trace := w.trace ++ .getItem "access_token" :: d }) ∧
      exchanges d = [] ∧ dispatched d = [] ∧
      c.method = config.method ∧ c.baseURL = config.baseURL ∧ c.url = config.url ∧
      c.data = config.data ∧ c.params = config.params ∧ c.timeout = config.timeout ∧
      c._retry = config._retry ∧
      (∀ name, name ≠ "Authorization" → c.headers name = config.headers name) ∧
      (c.headers = config.headers ∨
        ∃ t, t ≠ "" ∧ w.store "access_token" = some t ∧
          c.headers "Authorization" = some ("Bearer " ++ t)) := by
  unfold requestInterceptor AsyncStorage.getItem
  cases hf : env.faults.getItem w.trace.length "access_token" with
  | some e =>
    exact ⟨config, [.console "error" "Error getting token:"], by simp [World.log],
      rfl, rfl, rfl, rfl, rfl, rfl, rfl, rfl, rfl, fun _ _ => rfl, Or.inl rfl⟩
  | none =>
    cases hs : w.store "access_token" with
    | none =>
      exact ⟨config, [], by simp [World.log, hs], rfl, rfl, rfl, rfl, rfl, rfl, rfl, rfl, rfl,
        fun _ _ => rfl, Or.inl rfl⟩
    | some t =>
      by_cases ht : t = ""
      · exact ⟨config, [], by simp [World.log, hs, ht], rfl, rfl, rfl, rfl, rfl, rfl, rfl, rfl,
          rfl, fun _ _ => rfl, Or.inl rfl⟩
      · refine ⟨{ config with headers := config.headers.set "Authorization" ("Bearer " ++ t) },
          [], by simp [World.log, hs, ht], rfl, rfl, rfl, rfl, rfl, rfl, rfl, rfl, rfl, ?_,
          Or.inr ⟨t, ht, rfl, by simp [Headers.set]⟩⟩
        intro name hname
        simp [Headers.set, hname]

/-- An error whose request already carries the retry mark is rejected as it is, whatever
the instance would do: nothing is read, written, exchanged or dispatched. -/
theorem responseRejected_of_retried (api : Config → World → Option Result) (env : Env)
    (error : AxiosError) (w : World) (hretry : error.config._retry = true) :
    responseRejected api env error w = some (.rejected (.axios error), w) := by
  simp [responseRejected, hretry]

/-- An error that is not a 401 is rejected as it is. -/
theorem responseRejected_of_not_401 (api : Config → World → Option Result) (env : Env)
    (error : AxiosError) (w : World) (h : error.status ≠ some 401) :
    responseRejected api env error w = some (.rejected (.axios error), w) := by
  simp [responseRejected, h]

/-- A call of the instance with a config that carries the retry mark: the request
interceptor runs, the request is dispatched once, and the answer of the transport is the
result. No fuel beyond one unit is used. -/
theorem api_retried (env : Env) (config : Config) (w : World)
    (hretry : config._retry = true) :
    ∃ c d, requestInterceptor env (mergeConfig defaults config) w
        = (.fulfilled c, { store := w.store, trace := w.trace ++ .getItem "access_token" :: d }) ∧
      ∀ fuel, api env (fuel + 1) config w
        = some (settle (dispatchRequest env c
              { store := w.store, trace := w.trace ++ .getItem "access_token" :: d }).1,
            { store := w.store,
              trace := w.trace ++ .getItem "access_token" :: d ++ [.dispatch c] }) := by
  obtain ⟨c, d, hri, -, -, -, -, -, -, -, -, hr, -, -⟩ :=
    requestInterceptor_shape env (mergeConfig defaults config) w
  refine ⟨c, d, hri, ?_⟩
  intro fuel
  have hc : c._retry = true := by rw [hr]; exact hretry
  simp only [api, hri]
  have hw := dispatchRequest_world env c
    { store := w.store, trace := w.trace ++ .getItem "access_token" :: d }
  cases hd : dispatchRequest env c
      { store := w.store, trace := w.trace ++ .getItem "access_token" :: d } with
  | mk out w2 =>
    rw [hd] at hw
    simp only at hw
    subst hw
    cases out with
    | ok response => simp [settle, responseFulfilled, World.log]
    | error e =>
      have he : e.config = c :=
        dispatchRequest_error_config env c _ e (by rw [hd])
      have hrej := fun w2 => responseRejected_of_retried (api env fuel) env e w2
        (by rw [he]; exact hc)
      simp only [hrej]
      simp [settle, World.log]

/-- The catch block performs one effect, the removal of both tokens. -/
theorem refreshFailed_trace (env : Env) (error : AxiosError) (w : World) :
    ∃ out s, refreshFailed env error w
      = (out, { store := s, trace := w.trace ++ [.multiRemove ["access_token", "refresh_token"]] }) := by
  unfold refreshFailed AsyncStorage.multiRemove
  cases env.faults.multiRemove w.trace.length ["access_token", "refresh_token"] with
  | none => exact ⟨_, _, rfl⟩
  | some p => exact ⟨_, _, rfl⟩

/-- The successful refresh: a 401 on a first attempt, a present refresh token R, an
exchange answered with the access token A2, and a successful write. The handler reads
R, sends one exchange carrying R, stores A2, and calls the instance with the original
request marked as retried and carrying "Bearer A2"; the answer of the transport to that
request is the result of the handler. -/
theorem responseRejected_refreshed (env : Env) (error : AxiosError) (w : World)
    (R A2 : String) (rotated : Option String)
    (h401 : error.status = some 401) (hretry : error.config._retry = false)
    (hread : env.faults.getItem w.trace.length "refresh_token" = none)
    (hR : w.store "refresh_token" = some R) (hpresent : R ≠ "")
    (hexchange : env.refreshEndpoint (w.trace.length + 1) (API_BASE_URL ++ "/auth/refresh/")
      (.obj [("refresh", .str R)]) = .tokens A2 rotated)
    (hwrite : env.faults.setItem (w.trace.length + 2) "access_token" A2 = none) :
    ∃ c d w1,
      w1 = { store := w.store.set "access_token" A2,
             trace := w.trace ++ [.getItem "refresh_token",
               .post (API_BASE_URL ++ "/auth/refresh/") (.obj [("refresh", .str R)]),
               .setItem "access_token" A2] ++ .getItem "access_token" :: d } ∧
      exchanges d = [] ∧ dispatched d = [] ∧
      c._retry = true ∧ c.headers "Authorization" = some ("Bearer " ++ A2) ∧
      c.method = error.config.method ∧ c.url = error.config.url ∧
      c.data = error.config.data ∧ c.params = error.config.params ∧
      ∀ fuel, responseRejected (api env (fuel + 1)) env error w
        = some (settle (dispatchRequest env c w1).1, w1.log (.dispatch c)) := by
  obtain ⟨c, d, hri, hapi⟩ := api_retried env
    { error.config with
      _retry := true
      headers := error.config.headers.set "Authorization" ("Bearer " ++ A2) }
    { store := w.store.set "access_token" A2,
      trace := w.trace ++ [.getItem "refresh_token",
        .post (API_BASE_URL ++ "/auth/refresh/") (.obj [("refresh", .str R)]),
        .setItem "access_token" A2] } rfl
  obtain ⟨c', d', hri', hex, hdis, hm, -, hu, hdat, hpar, -, hr, -, hhead⟩ :=
    requestInterceptor_shape env (mergeConfig defaults
      { error.config with
        _retry := true
        headers := error.config.headers.set "Authorization" ("Bearer " ++ A2) })
      { store := w.store.set "access_token" A2,
        trace := w.trace ++ [.getItem "refresh_token",
          .post (API_BASE_URL ++ "/auth/refresh/") (.obj [("refresh", .str R)]),
          .setItem "access_token" A2] }
  rw [hri] at hri'
  simp only [Prod.mk.injEq, Settled.fulfilled.injEq, World.mk.injEq, List.append_cancel_left_eq,
    List.cons.injEq, true_and] at hri'
  obtain ⟨rfl, rfl⟩ := hri'
  refine ⟨c, d, _, rfl, hex, hdis, ?_, ?_, ?_, ?_, ?_, ?_, ?_⟩
  · rw [hr]; rfl
  · rcases hhead with h | ⟨t, -, hst, ht⟩
    · rw [h]; simp [mergeConfig, Headers.set]
    · simp [Store.set] at hst
      rw [ht, hst]
  · rw [hm]; simp [mergeConfig, defaults]
  · rw [hu]; rfl
  · rw [hdat]; rfl
  · rw [hpar]; rfl
  · intro fuel
    simp only [responseRejected, h401, hretry, and_self, if_true, AsyncStorage.getItem, hread,
      hR, hpresent, ne_eq, not_false_eq_true, axios.post, World.log, List.length_append,
      List.length_singleton, hexchange, AsyncStorage.setItem]
    simp only [List.length_cons, List.length_nil, Nat.zero_add, Nat.add_assoc, Nat.reduceAdd,
      hwrite, List.append_assoc, List.singleton_append, List.cons_append, List.nil_append]
    have hapi := hapi fuel
    simp only [List.append_assoc, List.singleton_append, List.cons_append, List.nil_append]
      at hapi
    rw [hapi]

/-- Whatever the server, the refresh endpoint and the storage do, the response error
handler terminates; it sends at most one exchange and lets the instance dispatch at
most one request, which carries the retry mark and is the original request. The result
does not depend on the fuel given to the instance. -/
theorem responseRejected_bounded (env : Env) (fuel : Nat) (error : AxiosError) (w : World) :
    ∃ r d, responseRejected (api env (fuel + 1)) env error w = some r ∧
      responseRejected (api env 1) env error w = some r ∧
      r.2.trace = w.trace ++ d ∧
      (exchanges d).length ≤ 1 ∧ (dispatched d).length ≤ 1 ∧
      ((dispatched d).length = 1 → (exchanges d).length = 1 ∧ error.config._retry = false) ∧
      ∀ c ∈ dispatched d, c._retry = true ∧ c.method = error.config.method ∧
        c.url = error.config.url ∧ c.data = error.config.data ∧
        c.params = error.config.params := by
  by_cases hcond : error.status = some 401 ∧ error.config._retry = false
  · obtain ⟨h401, hretry⟩ := hcond
    cases hread : env.faults.getItem w.trace.length "refresh_token" with
    | some e =>
      obtain ⟨out, s, hf⟩ := refreshFailed_trace env
        { error with config := { error.config with _retry := true } }
        (w.log (.getItem "refresh_token"))
      have hrun : ∀ k, responseRejected k env error w = some (out, { store := s, trace :=
          (w.log (.getItem "refresh_token")).trace
            ++ [.multiRemove ["access_token", "refresh_token"]] }) := by
        intro k
        simp only [responseRejected, h401, hretry, and_self, if_true, AsyncStorage.getItem, hread]
        rw [hf]
      exact ⟨_, [.getItem "refresh_token", .multiRemove ["access_token", "refresh_token"]],
        hrun _, hrun _, by simp [World.log], by simp [exchanges], by simp [dispatched],
        by simp [dispatched], by simp [dispatched]⟩
    | none =>
      have hnone : ∀ k, (w.store "refresh_token" = none ∨ w.store "refresh_token" = some "") →
          responseRejected k env error w
            = some (.rejected (.axios { error with config := { error.config with _retry := true } }),
                w.log (.getItem "refresh_token")) := by
        intro k hs
        rcases hs with hs | hs <;>
          simp [responseRejected, h401, hretry, AsyncStorage.getItem, hread, hs]
      cases hs : w.store "refresh_token" with
      | none =>
        exact ⟨_, [.getItem "refresh_token"], hnone _ (Or.inl hs), hnone _ (Or.inl hs),
          by simp [World.log], by simp [exchanges], by simp [dispatched], by simp [dispatched],
          by simp [dispatched]⟩
      | some R =>
        by_cases hR : R = ""
        · subst hR
          exact ⟨_, [.getItem "refresh_token"], hnone _ (Or.inr hs), hnone _ (Or.inr hs),
            by simp [World.log], by simp [exchanges], by simp [dispatched],
            by simp [dispatched], by simp [dispatched]⟩
        · cases hex : env.refreshEndpoint (w.trace.length + 1) (API_BASE_URL ++ "/auth/refresh/")
              (.obj [("refresh", .str R)]) with
          | failure status message =>
            obtain ⟨out, s, hf⟩ := refreshFailed_trace env
              { error with config := { error.config with _retry := true } }
              ((w.log (.getItem "refresh_token")).log
                (.post (API_BASE_URL ++ "/auth/refresh/") (.obj [("refresh", .str R)])))
            have hrun : ∀ k, responseRejected k env error w = some (out, { store := s, trace :=
                ((w.log (.getItem "refresh_token")).log
                  (.post (API_BASE_URL ++ "/auth/refresh/") (.obj [("refresh", .str R)]))).trace
                  ++ [.multiRemove ["access_token", "refresh_token"]] }) := by
              intro k
              simp only [responseRejected, h401, hretry, and_self, if_true, AsyncStorage.getItem,
                hread, hs, hR, ne_eq, not_false_eq_true, axios.post, World.log,
                List.length_append, List.length_singleton, hex]
              simp only [World.log] at hf
              rw [hf]
            exact ⟨_, [.getItem "refresh_token",
                .post (API_BASE_URL ++ "/auth/refresh/") (.obj [("refresh", .str R)]),
                .multiRemove ["access_token", "refresh_token"]],
              hrun _, hrun _, by simp [World.log], by simp [exchanges], by simp [dispatched],
              by simp [dispatched], by simp [dispatched]⟩
          | tokens A2 rotated =>
            cases hwrite : env.faults.setItem (w.trace.length + 2) "access_token" A2 with
            | some e =>
              obtain ⟨out, s, hf⟩ := refreshFailed_trace env
                { error with config := { error.config with _retry := true } }
                (((w.log (.getItem "refresh_token")).log
                  (.post (API_BASE_URL ++ "/auth/refresh/") (.obj [("refresh", .str R)]))).log
                  (.setItem "access_token" A2))
              have hrun : ∀ k, responseRejected k env error w = some (out, { store := s, trace :=
                  (((w.log (.getItem "refresh_token")).log
                    (.post (API_BASE_URL ++ "/auth/refresh/") (.obj [("refresh", .str R)]))).log
                    (.setItem "access_token" A2)).trace
                    ++ [.multiRemove ["access_token", "refresh_token"]] }) := by
                intro k
                simp only [responseRejected, h401, hretry, and_self, if_true,
                  AsyncStorage.getItem, hread, hs, hR, ne_eq, not_false_eq_true, axios.post,
                  World.log, List.length_append, List.length_singleton, hex,
                  AsyncStorage.setItem]
                simp only [List.length_cons, List.length_nil, Nat.zero_add, Nat.add_assoc,
                  Nat.reduceAdd, hwrite]
                simp only [World.log] at hf
                rw [hf]
              exact ⟨_, [.getItem "refresh_token",
                  .post (API_BASE_URL ++ "/auth/refresh/") (.obj [("refresh", .str R)]),
                  .setItem "access_token" A2, .multiRemove ["access_token", "refresh_token"]],
                hrun _, hrun _, by simp [World.log], by simp [exchanges], by simp [dispatched],
                by simp [dispatched], by simp [dispatched]⟩
            | none =>
              obtain ⟨c, d, w1, hw1, hex1, hdis1, hc, -, hm, hu, hdat, hpar, hrun⟩ :=
                responseRejected_refreshed env error w R A2 rotated h401 hretry hread hs hR hex
                  hwrite
              subst hw1
              refine ⟨_, [.getItem "refresh_token",
                  .post (API_BASE_URL ++ "/auth/refresh/") (.obj [("refresh", .str R)]),
                  .setItem "access_token" A2] ++ .getItem "access_token" :: d ++ [.dispatch c],
                hrun fuel, hrun 0, by simp [World.log], ?_, ?_, ?_, ?_⟩
              · rw [exchanges_append, exchanges_append, exchanges_cons _ d, hex1]
                simp [exchanges]
              · rw [dispatched_append, dispatched_append, dispatched_cons _ d, hdis1]
                simp [dispatched]
              · intro _
                refine ⟨?_, hretry⟩
                rw [exchanges_append, exchanges_append, exchanges_cons _ d, hex1]
                simp [exchanges]
              · intro c0 hc0
                rw [dispatched_append, dispatched_append, dispatched_cons _ d, hdis1] at hc0
                simp [dispatched] at hc0
                subst hc0
                exact ⟨hc, hm, hu, hdat, hpar⟩
  · have hrun : ∀ k, responseRejected k env error w = some (.rejected (.axios error), w) := by
      intro k
      simp [responseRejected, hcond]
    exact ⟨_, [], hrun _, hrun _, by simp, by simp [exchanges], by simp [dispatched],
      by simp [dispatched], by simp [dispatched]⟩

end Main

/-! ## Request interceptor -/

/-- C1. Request interceptor of both variants: when the read of "access_token" gives a
present (non-empty) token t, the interceptor fulfils with a config whose Authorization
header is "Bearer " followed by t, and whose method, base URL, path, body, query
params, timeout, retry mark and every other header are those of the given config. -/
theorem C1_request_interceptor_attaches_bearer
    (ri : Env → Config → World → Settled Config × World)
    (hri : ri = Main.requestInterceptor ∨ ri = Expo.requestInterceptor)
    (env : Env) (config : Config) (w : World) (t : String)
    (hread : env.faults.getItem w.trace.length "access_token" = none)
    (hstored : w.store "access_token" = some t) (hpresent : t ≠ "") :
    ∃ c, (ri env config w).1 = .fulfilled c ∧
      c.headers "Authorization" = some ("Bearer " ++ t) ∧
      c.method = config.method ∧ c.baseURL = config.baseURL ∧ c.url = config.url ∧
      c.data = config.data ∧ c.params = config.params ∧ c.timeout = config.timeout ∧
      c._retry = config._retry ∧
      ∀ name, name ≠ "Authorization" → c.headers name = config.headers name := by
  rcases hri with rfl | rfl
  · refine ⟨{ config with headers := config.headers.set "Authorization" ("Bearer " ++ t) },
      ?_, ?_, rfl, rfl, rfl, rfl, rfl, rfl, rfl, ?_⟩
    · simp [Main.requestInterceptor, AsyncStorage.getItem, hread, hstored, hpresent]
    · simp [Headers.set]
    · intro name hname
      simp [Headers.set, hname]
  · refine ⟨{ config with headers := config.headers.set "Authorization" ("Bearer " ++ t) },
      ?_, ?_, rfl, rfl, rfl, rfl, rfl, rfl, rfl, ?_⟩
    · simp [Expo.requestInterceptor, AsyncStorage.getItem, hread, hstored, hpresent]
    · simp [Headers.set]
    · intro name hname
      simp [Headers.set, hname]

/-- Witness of C1: with A1 stored, the interceptor puts "Bearer A1" on `GET /tasks/`,
and `tasksAPI.getTasks()` reads the token and then dispatches one request, a get of
"/tasks/" carrying "Bearer A1". -/
theorem C1_witness :
    (∃ c, (Main.requestInterceptor Example.envOk Example.getTasks Example.worldA1).1
        = .fulfilled c ∧
      c.headers "Authorization" = some ("Bearer " ++ "A1") ∧
      c.method = Example.getTasks.method ∧ c.baseURL = Example.getTasks.baseURL ∧
      c.url = Example.getTasks.url ∧ c.data = Example.getTasks.data ∧
      c.params = Example.getTasks.params ∧ c.timeout = Example.getTasks.timeout ∧
      c._retry = Example.getTasks._retry ∧
      ∀ name, name ≠ "Authorization" → c.headers name = Example.getTasks.headers name) ∧
    (∃ r c, Main.tasksAPI.getTasks Example.envOk 2 .undefined Example.worldA1 = some r ∧
      r.2.trace = [.getItem "access_token", .dispatch c] ∧
      c.method = some "get" ∧ c.url = some "/tasks/" ∧
      c.headers "Authorization" = some "Bearer A1") :=
  ⟨C1_request_interceptor_attaches_bearer Main.requestInterceptor (Or.inl rfl)
      Example.envOk Example.getTasks Example.worldA1 "A1" rfl rfl (by decide),
    ⟨_, _, rfl, rfl, rfl, rfl, by decide⟩⟩


/-- C8. Request interceptor of both variants without a token: the interceptor never
rejects, and when nothing is stored under "access_token", or when the read fails, it
fulfils with the very config it was given (so no Authorization header is added) and
leaves the storage as it was. -/
theorem C8_request_interceptor_without_token
    (ri : Env → Config → World → Settled Config × World)
    (hri : ri = Main.requestInterceptor ∨ ri = Expo.requestInterceptor)
    (env : Env) (config : Config) (w : World) :
    (∃ c, (ri env config w).1 = .fulfilled c) ∧
    ((w.store "access_token" = none ∨
        ∃ e, env.faults.getItem w.trace.length "access_token" = some e) →
      (ri env config w).1 = .fulfilled config ∧ (ri env config w).2.store = w.store) := by
  rcases hri with rfl | rfl
  · constructor
    · unfold Main.requestInterceptor AsyncStorage.getItem
      cases env.faults.getItem w.trace.length "access_token" with
      | some e => exact ⟨_, rfl⟩
      | none =>
        cases w.store "access_token" with
        | none => exact ⟨_, rfl⟩
        | some t => by_cases ht : t = "" <;> simp [ht]
    · rintro (hs | ⟨e, he⟩)
      · unfold Main.requestInterceptor AsyncStorage.getItem
        cases env.faults.getItem w.trace.length "access_token" with
        | some e => exact ⟨rfl, rfl⟩
        | none => simp [hs, World.log]
      · simp [Main.requestInterceptor, AsyncStorage.getItem, he, World.log]
  · constructor
    · unfold Expo.requestInterceptor AsyncStorage.getItem
      cases env.faults.getItem w.trace.length "access_token" with
      | some e => exact ⟨_, rfl⟩
      | none =>
        cases w.store "access_token" with
        | none => exact ⟨_, rfl⟩
        | some t => by_cases ht : t = "" <;> simp [ht]
    · rintro (hs | ⟨e, he⟩)
      · unfold Expo.requestInterceptor AsyncStorage.getItem
        cases env.faults.getItem w.trace.length "access_token" with
        | some e => exact ⟨rfl, rfl⟩
        | none => simp [hs, World.log]
      · simp [Expo.requestInterceptor, AsyncStorage.getItem, he, World.log]

/-- Witness of C8: on a device without tokens the main interceptor returns `GET /tasks/`
as given, and so does the expo interceptor when the read of the token fails; the call
`tasksAPI.getTasks()` on the device without tokens dispatches its request, without an
Authorization header. -/
theorem C8_witness :
    (∃ r c, Main.tasksAPI.getTasks Example.envOk 2 .undefined Example.worldEmpty = some r ∧
      dispatched r.2.trace = [c] ∧ c.url = some "/tasks/" ∧
      c.headers "Authorization" = none) ∧
    ((∃ c, (Main.requestInterceptor Example.envOk Example.getTasks Example.worldEmpty).1
        = .fulfilled c) ∧
      ((Example.worldEmpty.store "access_token" = none ∨
          ∃ e, Example.envOk.faults.getItem Example.worldEmpty.trace.length "access_token"
            = some e) →
        (Main.requestInterceptor Example.envOk Example.getTasks Example.worldEmpty).1
            = .fulfilled Example.getTasks ∧
          (Main.requestInterceptor Example.envOk Example.getTasks Example.worldEmpty).2.store
            = Example.worldEmpty.store)) ∧
    ((Expo.requestInterceptor Example.envUnreadable Example.getTasks Example.worldA1).1
        = .fulfilled Example.getTasks ∧
      (Expo.requestInterceptor Example.envUnreadable Example.getTasks Example.worldA1).2.store
        = Example.worldA1.store) :=
  ⟨⟨_, _, rfl, rfl, rfl, by decide⟩,
    C8_request_interceptor_without_token Main.requestInterceptor (Or.inl rfl) Example.envOk
      Example.getTasks Example.worldEmpty,
    (C8_request_interceptor_without_token Expo.requestInterceptor (Or.inr rfl)
      Example.envUnreadable Example.getTasks Example.worldA1).2
      (Or.inr ⟨{ message := "read failed" }, rfl⟩)⟩

/-! ## Response interceptor -/

/-- C9. Pass-through in both variants: a successful response is returned as it is; an
error that is not an authorization failure (no response at all, or a status other than
401) is rejected as it is, and the world is exactly the one before: no storage read
or write, no exchange, no dispatch. -/
theorem C9_pass_through (api : Config → World → Option Result) (env : Env) (w : World) :
    (∀ response : Response,
      Main.responseFulfilled response = response ∧ Expo.responseFulfilled response = response) ∧
    (∀ error : AxiosError,
      (error.response = none ∨ ∃ reply, error.response = some reply ∧ reply.status ≠ 401) →
      Main.responseRejected api env error w = some (.rejected (.axios error), w) ∧
      Expo.responseRejected env error w = (.rejected (.axios error), w)) := by
  refine ⟨fun _ => ⟨rfl, rfl⟩, ?_⟩
  intro error h
  have hs : error.status ≠ some 401 := by
    rcases h with h | ⟨reply, h, hne⟩
    · simp [AxiosError.status, h]
    · simp [AxiosError.status, h, hne]
  exact ⟨Main.responseRejected_of_not_401 api env error w hs,
    by simp [Expo.responseRejected, hs]⟩

/-- Witness of C9: a network error and a status 500 pass through both variants. -/
theorem C9_witness :
    (Main.responseRejected (Main.api Example.envOk 1) Example.envOk Example.networkError
        Example.worldA1R1 = some (.rejected (.axios Example.networkError), Example.worldA1R1) ∧
      Expo.responseRejected Example.envOk Example.networkError Example.worldA1R1
        = (.rejected (.axios Example.networkError), Example.worldA1R1)) ∧
    (Main.responseRejected (Main.api Example.envOk 1) Example.envOk
        (Example.errorWith 500 false) Example.worldA1R1
        = some (.rejected (.axios (Example.errorWith 500 false)), Example.worldA1R1) ∧
      Expo.responseRejected Example.envOk (Example.errorWith 500 false) Example.worldA1R1
        = (.rejected (.axios (Example.errorWith 500 false)), Example.worldA1R1)) :=
  ⟨(C9_pass_through (Main.api Example.envOk 1) Example.envOk Example.worldA1R1).2
      Example.networkError (Or.inl rfl),
    (C9_pass_through (Main.api Example.envOk 1) Example.envOk Example.worldA1R1).2
      (Example.errorWith 500 false) (Or.inr ⟨_, rfl, by decide⟩)⟩

/-- C4. Main pipeline, second 401: an error with status 401 whose request already
carries the retry mark is rejected as it is, whatever the instance would do with a
request, and the world is exactly the one before: no exchange, no dispatch, the stored
credentials untouched. -/
theorem C4_second_401_propagates (api : Config → World → Option Result) (env : Env)
    (error : AxiosError) (w : World)
    (h401 : error.status = some 401) (hretry : error.config._retry = true) :
    Main.responseRejected api env error w = some (.rejected (.axios error), w) ∧
    (∀ r, Main.responseRejected api env error w = some r →
      r.1 = .rejected (.axios error) ∧ r.2.store = w.store ∧
      exchanges r.2.trace = exchanges w.trace ∧ dispatched r.2.trace = dispatched w.trace) := by
  have h : Main.responseRejected api env error w = some (.rejected (.axios error), w) := by
    simp [Main.responseRejected, h401, hretry]
  refine ⟨h, ?_⟩
  intro r hr
  rw [h] at hr
  cases hr
  exact ⟨rfl, rfl, rfl, rfl⟩

/-- Witness of C4: a 401 on an already retried `GET /tasks/`. -/
theorem C4_witness :
    (Example.errorWith 401 true).status = some 401 ∧
    (Example.errorWith 401 true).config._retry = true ∧
    (Main.responseRejected (Main.api Example.envRefresh 1) Example.envRefresh
        (Example.errorWith 401 true) Example.worldA1R1
        = some (.rejected (.axios (Example.errorWith 401 true)), Example.worldA1R1) ∧
      (∀ r, Main.responseRejected (Main.api Example.envRefresh 1) Example.envRefresh
          (Example.errorWith 401 true) Example.worldA1R1 = some r →
        r.1 = .rejected (.axios (Example.errorWith 401 true)) ∧
        r.2.store = Example.worldA1R1.store ∧
        exchanges r.2.trace = exchanges Example.worldA1R1.trace ∧
        dispatched r.2.trace = dispatched Example.worldA1R1.trace)) :=
  ⟨rfl, rfl, C4_second_401_propagates (Main.api Example.envRefresh 1) Example.envRefresh
    (Example.errorWith 401 true) Example.worldA1R1 rfl rfl⟩


/-- C5, as amended. Main pipeline, absent refresh token: for a 401 on a first attempt,
when the read of "refresh_token" finds nothing, the handler rejects with the original
error (same message, same response, same request) whose request descriptor now carries
the retry mark set at line 41; it sends no exchange, dispatches nothing and leaves the
storage as it was. Its only effect is the read of the refresh token. -/
theorem C5_absent_refresh_token (api : Config → World → Option Result) (env : Env)
    (error : AxiosError) (w : World)
    (h401 : error.status = some 401) (hretry : error.config._retry = false)
    (hread : env.faults.getItem w.trace.length "refresh_token" = none)
    (habsent : w.store "refresh_token" = none) :
    ∃ r e, Main.responseRejected api env error w = some r ∧
      r.1 = .rejected (.axios e) ∧
      e.message = error.message ∧ e.response = error.response ∧ e.request = error.request ∧
      e.config = { error.config with _retry := true } ∧
      r.2.store = w.store ∧ r.2.trace = w.trace ++ [.getItem "refresh_token"] ∧
      exchanges r.2.trace = exchanges w.trace ∧ dispatched r.2.trace = dispatched w.trace := by
  refine ⟨(.rejected (.axios { error with config := { error.config with _retry := true } }),
      w.log (.getItem "refresh_token")),
    { error with config := { error.config with _retry := true } }, ?_, rfl, rfl, rfl,
    rfl, rfl, rfl, rfl, ?_, ?_⟩
  · simp [Main.responseRejected, h401, hretry, AsyncStorage.getItem, hread, habsent]
  · simp [World.log, exchanges_append, exchanges]
  · simp [World.log, dispatched_append, dispatched]

/-- Witness of C5: a 401 on a first `GET /tasks/` on a device that holds no tokens. -/
theorem C5_witness :
    ∃ r e, Main.responseRejected (Main.api Example.envRefresh 1) Example.envRefresh
        (Example.errorWith 401 false) Example.worldEmpty = some r ∧
      r.1 = .rejected (.axios e) ∧
      e.message = (Example.errorWith 401 false).message ∧
      e.response = (Example.errorWith 401 false).response ∧
      e.request = (Example.errorWith 401 false).request ∧
      e.config = { (Example.errorWith 401 false).config with _retry := true } ∧
      r.2.store = Example.worldEmpty.store ∧
      r.2.trace = Example.worldEmpty.trace ++ [.getItem "refresh_token"] ∧
      exchanges r.2.trace = exchanges Example.worldEmpty.trace ∧
      dispatched r.2.trace = dispatched Example.worldEmpty.trace :=
  C5_absent_refresh_token (Main.api Example.envRefresh 1) Example.envRefresh
    (Example.errorWith 401 false) Example.worldEmpty rfl rfl rfl rfl

/-- Counterexample to C5 as stated: a 401 on a first `GET /tasks/` with no refresh token
stored. The error was raised on a request without the retry mark; the error with which
the handler rejects has the mark on its request, so it is not the original error
unchanged. -/
theorem C5_counterexample :
    (Example.errorWith 401 false).status = some 401 ∧
    (Example.errorWith 401 false).config._retry = false ∧
    Example.worldEmpty.store "refresh_token" = none ∧
    ∃ w e, Main.responseRejected (Main.api Example.envRefresh 1) Example.envRefresh
        (Example.errorWith 401 false) Example.worldEmpty = some (.rejected (.axios e), w) ∧
      e.config._retry = true ∧ e ≠ Example.errorWith 401 false := by
  refine ⟨rfl, rfl, rfl, _, _, rfl, rfl, ?_⟩
  intro h
  have h2 := congrArg (fun e : AxiosError => e.config._retry) h
  simp [Example.errorWith] at h2

/-- C6. Main pipeline, failed exchange: a 401 on a first attempt with a present refresh
token R and an exchange that fails (an error status or no answer). When the removal of
the tokens succeeds, neither "access_token" nor "refresh_token" is stored afterwards,
nothing was dispatched, and the handler rejects with the original 401 error (same
message and response, its request marked as retried), not with the error of the
exchange. The failing input is a removal that rejects: the `multiRemove` of line 59 is
awaited inside the catch block without a guard, so the handler rejects with the error
of the storage and with no axios error at all, the original 401 is lost, and the tokens
the removal did not reach stay stored. -/
theorem C6_failed_exchange_then_removal (api : Config → World → Option Result) (env : Env)
    (error : AxiosError) (w : World) (R : String) (status : Option Nat) (message : String)
    (h401 : error.status = some 401) (hretry : error.config._retry = false)
    (hread : env.faults.getItem w.trace.length "refresh_token" = none)
    (hR : w.store "refresh_token" = some R) (hpresent : R ≠ "")
    (hexchange : env.refreshEndpoint (w.trace.length + 1) (API_BASE_URL ++ "/auth/refresh/")
      (.obj [("refresh", .str R)]) = .failure status message) :
    (env.faults.multiRemove (w.trace.length + 2) ["access_token", "refresh_token"] = none →
      ∃ r e, Main.responseRejected api env error w = some r ∧
        r.2.store "access_token" = none ∧ r.2.store "refresh_token" = none ∧
        dispatched r.2.trace = dispatched w.trace ∧
        r.1 = .rejected (.axios e) ∧
        e = { error with config := { error.config with _retry := true } } ∧
        e.status = some 401 ∧ e.response = error.response ∧ e.message = error.message ∧
        ∀ exchangeError,
          (axios.post env (API_BASE_URL ++ "/auth/refresh/") (.obj [("refresh", .str R)])
            (w.log (.getItem "refresh_token"))).1 = .error exchangeError →
          r.1 ≠ .rejected (.axios exchangeError)) ∧
    (∀ storageError done,
      env.faults.multiRemove (w.trace.length + 2) ["access_token", "refresh_token"]
        = some (storageError, done) →
      ∃ r, Main.responseRejected api env error w = some r ∧
        r.1 = .rejected (.storage storageError) ∧
        (∀ e, r.1 ≠ .rejected (.axios e)) ∧
        r.2.store = w.store.removeAll (done.filter (· ∈ ["access_token", "refresh_token"])) ∧
        ("refresh_token" ∉ done → r.2.store "refresh_token" = some R) ∧
        ("access_token" ∉ done → r.2.store "access_token" = w.store "access_token") ∧
        dispatched r.2.trace = dispatched w.trace) := by
  constructor
  · intro hremove
    refine ⟨(.rejected (.axios { error with config := { error.config with _retry := true } }),
        { store := w.store.removeAll ["access_token", "refresh_token"],
          trace := w.trace ++ [.getItem "refresh_token",
            .post (API_BASE_URL ++ "/auth/refresh/") (.obj [("refresh", .str R)]),
            .multiRemove ["access_token", "refresh_token"]] }),
      { error with config := { error.config with _retry := true } }, ?_, ?_, ?_, ?_, rfl, rfl,
      h401, rfl, rfl, ?_⟩
    · simp only [Main.responseRejected, h401, hretry, and_self, if_true, AsyncStorage.getItem,
        hread, hR, hpresent, ne_eq, not_false_eq_true, axios.post, World.log,
        List.length_append, List.length_singleton, hexchange, Main.refreshFailed,
        AsyncStorage.multiRemove]
      simp only [List.length_cons, List.length_nil, Nat.zero_add, Nat.add_assoc, Nat.reduceAdd,
        hremove, List.append_assoc, List.singleton_append, List.cons_append, List.nil_append]
    · simp [Store.removeAll]
    · simp [Store.removeAll]
    · simp [dispatched_append, dispatched]
    · intro exchangeError hex heq
      simp only [axios.post, World.log, List.length_append, List.length_singleton, hexchange]
        at hex
      injection hex with hex
      subst hex
      simp at heq
  · intro storageError done hremove
    refine ⟨(.rejected (.storage storageError),
        { store := w.store.removeAll (done.filter (· ∈ ["access_token", "refresh_token"])),
          trace := w.trace ++ [.getItem "refresh_token",
            .post (API_BASE_URL ++ "/auth/refresh/") (.obj [("refresh", .str R)]),
            .multiRemove ["access_token", "refresh_token"]] }), ?_, rfl, ?_, rfl, ?_, ?_, ?_⟩
    · simp only [Main.responseRejected, h401, hretry, and_self, if_true, AsyncStorage.getItem,
        hread, hR, hpresent, ne_eq, not_false_eq_true, axios.post, World.log,
        List.length_append, List.length_singleton, hexchange, Main.refreshFailed,
        AsyncStorage.multiRemove]
      simp only [List.length_cons, List.length_nil, Nat.zero_add, Nat.add_assoc, Nat.reduceAdd,
        hremove, List.append_assoc, List.singleton_append, List.cons_append, List.nil_append]
    · intro e h
      simp at h
    · intro hdone
      simp [Store.removeAll, hdone, hR]
    · intro hdone
      simp [Store.removeAll, hdone]
    · simp [dispatched_append, dispatched]

/-- Witness of C6: a 401 on a first `GET /tasks/` with A1 and R1 stored and a refresh
endpoint that answers 401. On a device whose removal works both tokens are removed and
the original 401 is rejected; on a device whose `multiRemove` rejects, the rejection is
the error of the storage and A1 and R1 are still stored. -/
theorem C6_witness :
    (∃ r e, Main.responseRejected (Main.api Example.envDenied 1) Example.envDenied
        (Example.errorWith 401 false) Example.worldA1R1 = some r ∧
      r.2.store "access_token" = none ∧ r.2.store "refresh_token" = none ∧
      r.1 = .rejected (.axios e) ∧ e.status = some 401) ∧
    (∃ r, Main.responseRejected (Main.api Example.envDeniedStuck 1) Example.envDeniedStuck
        (Example.errorWith 401 false) Example.worldA1R1 = some r ∧
      r.1 = .rejected (.storage { message := "remove failed" }) ∧
      (∀ e, r.1 ≠ .rejected (.axios e)) ∧
      r.2.store "access_token" = some "A1" ∧ r.2.store "refresh_token" = some "R1") := by
  constructor
  · obtain ⟨r, e, hrun, ha, hr, -, hrej, -, hstatus, -⟩ :=
      (C6_failed_exchange_then_removal (Main.api Example.envDenied 1) Example.envDenied
        (Example.errorWith 401 false) Example.worldA1R1 "R1" (some 401)
        "Request failed with status code 401" rfl rfl rfl rfl (by decide) rfl).1 rfl
    exact ⟨r, e, hrun, ha, hr, hrej, hstatus⟩
  · obtain ⟨r, hrun, hrej, hno, -, hr, ha, -⟩ :=
      (C6_failed_exchange_then_removal (Main.api Example.envDeniedStuck 1)
        Example.envDeniedStuck (Example.errorWith 401 false) Example.worldA1R1 "R1" (some 401)
        "Request failed with status code 401" rfl rfl rfl rfl (by decide) rfl).2
        { message := "remove failed" } [] rfl
    exact ⟨r, hrun, hrej, hno, by rw [ha (by simp)]; rfl, hr (by simp)⟩


/-- C2. Main pipeline, successful refresh: for a 401 on a request without the retry
mark, a present stored refresh token R, an exchange answered with the access token A2
and a successful write of A2, the handler terminates having sent exactly one exchange,
carrying R, and having dispatched exactly one request: the original one (same method,
path, body and query params) with the retry mark set and with the Authorization header
"Bearer " followed by A2. -/
theorem C2_refresh_retries_once (env : Env) (fuel : Nat) (error : AxiosError) (w : World)
    (R A2 : String) (rotated : Option String)
    (h401 : error.status = some 401) (hretry : error.config._retry = false)
    (hread : env.faults.getItem w.trace.length "refresh_token" = none)
    (hR : w.store "refresh_token" = some R) (hpresent : R ≠ "")
    (hexchange : env.refreshEndpoint (w.trace.length + 1) (API_BASE_URL ++ "/auth/refresh/")
      (.obj [("refresh", .str R)]) = .tokens A2 rotated)
    (hwrite : env.faults.setItem (w.trace.length + 2) "access_token" A2 = none) :
    ∃ r d c, Main.responseRejected (Main.api env (fuel + 1)) env error w = some r ∧
      r.2.trace = w.trace ++ d ∧
      exchanges d = [(API_BASE_URL ++ "/auth/refresh/", .obj [("refresh", .str R)])] ∧
      dispatched d = [c] ∧
      c._retry = true ∧ c.headers "Authorization" = some ("Bearer " ++ A2) ∧
      c.method = error.config.method ∧ c.url = error.config.url ∧
      c.data = error.config.data ∧ c.params = error.config.params := by
  obtain ⟨c, d, w1, hw1, hex1, hdis1, hc, hauth, hm, hu, hdat, hpar, hrun⟩ :=
    Main.responseRejected_refreshed env error w R A2 rotated h401 hretry hread hR hpresent
      hexchange hwrite
  subst hw1
  refine ⟨_, [.getItem "refresh_token",
      .post (API_BASE_URL ++ "/auth/refresh/") (.obj [("refresh", .str R)]),
      .setItem "access_token" A2] ++ .getItem "access_token" :: d ++ [.dispatch c], c,
    hrun fuel, by simp [World.log], ?_, ?_, hc, hauth, hm, hu, hdat, hpar⟩
  · rw [exchanges_append, exchanges_append, exchanges_cons _ d, hex1]
    simp [exchanges]
  · rw [dispatched_append, dispatched_append, dispatched_cons _ d, hdis1]
    simp [dispatched]

/-- Witness of C2: `GET /tasks/` answered 401 with A1 and R1 stored; the exchange gives
A2. -/
theorem C2_witness :
    ∃ r d c, Main.responseRejected (Main.api Example.envRefresh (0 + 1)) Example.envRefresh
        (Example.errorWith 401 false) Example.worldA1R1 = some r ∧
      r.2.trace = Example.worldA1R1.trace ++ d ∧
      exchanges d = [(API_BASE_URL ++ "/auth/refresh/", .obj [("refresh", .str "R1")])] ∧
      dispatched d = [c] ∧
      c._retry = true ∧ c.headers "Authorization" = some ("Bearer " ++ "A2") ∧
      c.method = (Example.errorWith 401 false).config.method ∧
      c.url = (Example.errorWith 401 false).config.url ∧
      c.data = (Example.errorWith 401 false).config.data ∧
      c.params = (Example.errorWith 401 false).config.params :=
  C2_refresh_retries_once Example.envRefresh 0 (Example.errorWith 401 false) Example.worldA1R1
    "R1" "A2" (some "R2") rfl rfl rfl rfl (by decide) rfl rfl

/-- C3. Main pipeline, successful refresh: under the preconditions of C2, the handler
terminates; afterwards the value stored under "access_token" is A2; and its result is
exactly the answer of the transport to the retried request c (the original request with
the retry mark and "Bearer A2"), dispatched once A2 is stored: the response when the
server answers with a status from 200 to 299, the error of that request otherwise. -/
theorem C3_refresh_stores_token_and_returns_retry (env : Env) (fuel : Nat)
    (error : AxiosError) (w : World) (R A2 : String) (rotated : Option String)
    (h401 : error.status = some 401) (hretry : error.config._retry = false)
    (hread : env.faults.getItem w.trace.length "refresh_token" = none)
    (hR : w.store "refresh_token" = some R) (hpresent : R ≠ "")
    (hexchange : env.refreshEndpoint (w.trace.length + 1) (API_BASE_URL ++ "/auth/refresh/")
      (.obj [("refresh", .str R)]) = .tokens A2 rotated)
    (hwrite : env.faults.setItem (w.trace.length + 2) "access_token" A2 = none) :
    ∃ r c w1, Main.responseRejected (Main.api env (fuel + 1)) env error w = some r ∧
      r.2.store "access_token" = some A2 ∧
      c._retry = true ∧ c.headers "Authorization" = some ("Bearer " ++ A2) ∧
      c.method = error.config.method ∧ c.url = error.config.url ∧
      c.data = error.config.data ∧ c.params = error.config.params ∧
      w1.store "access_token" = some A2 ∧ dispatched w1.trace = dispatched w.trace ∧
      r.1 = settle (dispatchRequest env c w1).1 ∧ r.2 = (dispatchRequest env c w1).2 ∧
      ∀ status data, env.server w1.trace.length c = .response status data →
        200 ≤ status → status < 300 →
        r.1 = .fulfilled { status := status, data := data, config := c } := by
  obtain ⟨c, d, w1, hw1, hex1, hdis1, hc, hauth, hm, hu, hdat, hpar, hrun⟩ :=
    Main.responseRejected_refreshed env error w R A2 rotated h401 hretry hread hR hpresent
      hexchange hwrite
  refine ⟨_, c, w1, hrun fuel, ?_, hc, hauth, hm, hu, hdat, hpar, ?_, ?_, rfl,
    (dispatchRequest_world env c w1).symm, ?_⟩
  · subst hw1
    simp [World.log, Store.set]
  · subst hw1
    simp [Store.set]
  · subst hw1
    rw [dispatched_append, dispatched_append, dispatched_cons _ d, hdis1]
    simp [dispatched]
  · intro status data hserver hlo hhi
    simp [dispatchRequest, hserver, hlo, hhi, settle]

/-- Witness of C3: `GET /tasks/` answered 401 with R1 stored, the exchange gives A2 and
the server accepts A2. The whole call `tasksAPI.getTasks()` then hands to the caller
the response of the retried `GET /tasks/`, and A2 is stored. -/
theorem C3_witness :
    (∃ r c w1, Main.responseRejected (Main.api Example.envRefresh (0 + 1)) Example.envRefresh
        (Example.errorWith 401 false) Example.worldA1R1 = some r ∧
      r.2.store "access_token" = some "A2" ∧
      c._retry = true ∧ c.headers "Authorization" = some ("Bearer " ++ "A2") ∧
      c.method = (Example.errorWith 401 false).config.method ∧
      c.url = (Example.errorWith 401 false).config.url ∧
      c.data = (Example.errorWith 401 false).config.data ∧
      c.params = (Example.errorWith 401 false).config.params ∧
      w1.store "access_token" = some "A2" ∧
      dispatched w1.trace = dispatched Example.worldA1R1.trace ∧
      r.1 = settle (dispatchRequest Example.envRefresh c w1).1 ∧
      r.2 = (dispatchRequest Example.envRefresh c w1).2 ∧
      ∀ status data, Example.envRefresh.server w1.trace.length c = .response status data →
        200 ≤ status → status < 300 →
        r.1 = .fulfilled { status := status, data := data, config := c }) ∧
    (∃ c w, Main.tasksAPI.getTasks Example.envRefresh 2 .undefined Example.worldA1R1
        = some (.fulfilled { status := 200, data := .str "tasks", config := c }, w) ∧
      c.method = some "get" ∧ c.url = some "/tasks/" ∧ c._retry = true ∧
      c.headers "Authorization" = some "Bearer A2" ∧
      w.store "access_token" = some "A2") :=
  ⟨C3_refresh_stores_token_and_returns_retry Example.envRefresh 0 (Example.errorWith 401 false)
      Example.worldA1R1 "R1" "A2" (some "R2") rfl rfl rfl rfl (by decide) rfl rfl,
    ⟨_, _, rfl, rfl, rfl, rfl, by decide, by decide⟩⟩

/-- C10, as amended. On a successful refresh exchange the pipeline stores only the new
access token: afterwards "access_token" holds A2, and "refresh_token" still holds the
token R that was sent, also when the answer carries a rotated refresh token; every key
other than "access_token" keeps its value. -/
theorem C10_refresh_keeps_stored_refresh_token (env : Env) (fuel : Nat) (error : AxiosError)
    (w : World) (R A2 : String) (rotated : Option String)
    (h401 : error.status = some 401) (hretry : error.config._retry = false)
    (hread : env.faults.getItem w.trace.length "refresh_token" = none)
    (hR : w.store "refresh_token" = some R) (hpresent : R ≠ "")
    (hexchange : env.refreshEndpoint (w.trace.length + 1) (API_BASE_URL ++ "/auth/refresh/")
      (.obj [("refresh", .str R)]) = .tokens A2 rotated)
    (hwrite : env.faults.setItem (w.trace.length + 2) "access_token" A2 = none) :
    ∃ r, Main.responseRejected (Main.api env (fuel + 1)) env error w = some r ∧
      r.2.store "access_token" = some A2 ∧ r.2.store "refresh_token" = some R ∧
      ∀ key, key ≠ "access_token" → r.2.store key = w.store key := by
  obtain ⟨c, d, w1, hw1, -, -, -, -, -, -, -, -, hrun⟩ :=
    Main.responseRejected_refreshed env error w R A2 rotated h401 hretry hread hR hpresent
      hexchange hwrite
  subst hw1
  refine ⟨_, hrun fuel, ?_, ?_, ?_⟩
  · simp [World.log, Store.set]
  · simp [World.log, Store.set, hR]
  · intro key hkey
    simp [World.log, Store.set, hkey]

/-- Witness of C10 as amended: the exchange answers with A2 and the rotated token R2;
afterwards A2 and the old R1 are stored. -/
theorem C10_witness :
    ∃ r, Main.responseRejected (Main.api Example.envRefresh (0 + 1)) Example.envRefresh
        (Example.errorWith 401 false) Example.worldA1R1 = some r ∧
      r.2.store "access_token" = some "A2" ∧ r.2.store "refresh_token" = some "R1" ∧
      ∀ key, key ≠ "access_token" → r.2.store key = Example.worldA1R1.store key :=
  C10_refresh_keeps_stored_refresh_token Example.envRefresh 0 (Example.errorWith 401 false)
    Example.worldA1R1 "R1" "A2" (some "R2") rfl rfl rfl rfl (by decide) rfl rfl

/-- Counterexample to C10 as stated: R1 is stored, the exchange succeeds and its answer
carries the access token A2 and the rotated refresh token R2; after the handler has
completed, the stored refresh token is still R1, not R2. -/
theorem C10_counterexample :
    Example.worldA1R1.store "refresh_token" = some "R1" ∧
    Example.envRefresh.refreshEndpoint 1 (API_BASE_URL ++ "/auth/refresh/")
      (.obj [("refresh", .str "R1")]) = .tokens "A2" (some "R2") ∧
    ∃ r, Main.responseRejected (Main.api Example.envRefresh 1) Example.envRefresh
        (Example.errorWith 401 false) Example.worldA1R1 = some r ∧
      r.2.store "access_token" = some "A2" ∧
      r.2.store "refresh_token" = some "R1" ∧ r.2.store "refresh_token" ≠ some "R2" :=
  ⟨rfl, rfl, _, rfl, by decide, by decide, by decide⟩


/-- C7. Main pipeline, bounded retry: whatever the server, the refresh endpoint and the
storage answer, and whatever is stored, one call of the instance terminates with a
settlement (two units of fuel are enough and more fuel gives the same result). It sends
at most one refresh exchange and dispatches the request (same method, path, body and
query params) once or twice: the first dispatch carries the retry mark of the given
config, and a second dispatch happens only for a config without the mark, after exactly
one exchange, and carries the mark. The exchange goes through `axios.post`, whose only
effect is the post itself, whatever the refresh endpoint answers. -/
theorem C7_bounded_retry (env : Env) (fuel : Nat) (config : Config) (w : World) :
    (∃ r d c1, Main.api env (fuel + 2) config w = some r ∧ Main.api env 2 config w = some r ∧
      r.2.trace = w.trace ++ d ∧
      (exchanges d).length ≤ 1 ∧
      c1._retry = config._retry ∧ c1.method = config.method ∧ c1.url = config.url ∧
      c1.data = config.data ∧ c1.params = config.params ∧
      (dispatched d = [c1] ∨
        ∃ c2, dispatched d = [c1, c2] ∧ config._retry = false ∧ (exchanges d).length = 1 ∧
          c2._retry = true ∧ c2.method = config.method ∧ c2.url = config.url ∧
          c2.data = config.data ∧ c2.params = config.params)) ∧
    (∀ (url : String) (body : JsVal) (w0 : World),
      (axios.post env url body w0).2 = w0.log (.post url body)) := by
  refine ⟨?_, fun url body w0 => axios_post_world env url body w0⟩
  obtain ⟨c1, d0, hri, hex0, hdis0, hm, -, hu, hdat, hpar, -, hr, -, -⟩ :=
    Main.requestInterceptor_shape env (mergeConfig defaults config) w
  have hm : c1.method = config.method := by rw [hm]; simp [mergeConfig, defaults]
  have hu : c1.url = config.url := hu
  have hdat : c1.data = config.data := hdat
  have hpar : c1.params = config.params := hpar
  have hr : c1._retry = config._retry := hr
  have hw := dispatchRequest_world env c1
    { store := w.store, trace := w.trace ++ .getItem "access_token" :: d0 }
  cases hd : dispatchRequest env c1
      { store := w.store, trace := w.trace ++ .getItem "access_token" :: d0 } with
  | mk out w2 =>
    rw [hd] at hw
    simp only at hw
    subst hw
    cases out with
    | ok response =>
      refine ⟨(.fulfilled response,
          ({ store := w.store, trace := w.trace ++ .getItem "access_token" :: d0 } : World).log
            (.dispatch c1)),
        .getItem "access_token" :: d0 ++ [.dispatch c1], c1,
        ?_, ?_, ?_, ?_, hr, hm, hu, hdat, hpar, Or.inl ?_⟩
      · simp [Main.api, hri, hd, Main.responseFulfilled]
      · simp [Main.api, hri, hd, Main.responseFulfilled]
      · simp [World.log]
      · rw [exchanges_append, exchanges_cons _ d0, hex0]
        simp [exchanges]
      · rw [dispatched_append, dispatched_cons _ d0, hdis0]
        simp [dispatched]
    | error e =>
      have he : e.config = c1 := dispatchRequest_error_config env c1 _ e (by rw [hd])
      obtain ⟨r, d, hrun, hrun1, htrace, hex, hdis, hone, hall⟩ :=
        Main.responseRejected_bounded env fuel e
          (({ store := w.store, trace := w.trace ++ .getItem "access_token" :: d0 } : World).log
            (.dispatch c1))
      have hexd : exchanges (.getItem "access_token" :: d0 ++ [.dispatch c1] ++ d)
          = exchanges d := by
        rw [exchanges_append, exchanges_append, exchanges_cons _ d0, hex0]
        simp [exchanges]
      have hdisd : dispatched (.getItem "access_token" :: d0 ++ [.dispatch c1] ++ d)
          = c1 :: dispatched d := by
        rw [dispatched_append, dispatched_append, dispatched_cons _ d0, hdis0]
        simp [dispatched]
      refine ⟨r, .getItem "access_token" :: d0 ++ [.dispatch c1] ++ d, c1,
        ?_, ?_, ?_, ?_, hr, hm, hu, hdat, hpar, ?_⟩
      · simp only [Main.api, hri, hd]
        exact hrun
      · simp only [Main.api, hri, hd]
        exact hrun1
      · rw [htrace]
        simp [World.log]
      · rw [hexd]
        exact hex
      · rw [hdisd, hexd]
        cases hlist : dispatched d with
        | nil => exact Or.inl rfl
        | cons c2 rest =>
          cases rest with
          | cons c3 rest2 =>
            rw [hlist] at hdis
            simp at hdis
          | nil =>
            rw [hlist] at hone hall
            obtain ⟨hexone, hretry⟩ := hone rfl
            obtain ⟨h1, h2, h3, h4, h5⟩ := hall c2 (by simp)
            rw [he] at hretry h2 h3 h4 h5
            refine Or.inr ⟨c2, rfl, ?_, hexone, h1, ?_, ?_, ?_, ?_⟩
            · rw [← hr]; exact hretry
            · rw [h2]; exact hm
            · rw [h3]; exact hu
            · rw [h4]; exact hdat
            · rw [h5]; exact hpar


/-! ## Refresh exchange and removal of credentials -/

namespace Main

/-- A 401 on a first attempt with a present refresh token R: whatever the refresh
endpoint, the server and the storage do afterwards, the handler terminates and the
effects it adds start with the read of R and one post of R to the refresh endpoint,
and contain no other exchange. -/
theorem responseRejected_exchange (env : Env) (fuel : Nat) (error : AxiosError) (w : World)
    (R : String)
    (h401 : error.status = some 401) (hretry : error.config._retry = false)
    (hread : env.faults.getItem w.trace.length "refresh_token" = none)
    (hR : w.store "refresh_token" = some R) (hpresent : R ≠ "") :
    ∃ r rest, responseRejected (api env (fuel + 1)) env error w = some r ∧
      r.2.trace = w.trace ++ [.getItem "refresh_token",
        .post (API_BASE_URL ++ "/auth/refresh/") (.obj [("refresh", .str R)])] ++ rest ∧
      exchanges rest = [] := by
  cases hex : env.refreshEndpoint (w.trace.length + 1) (API_BASE_URL ++ "/auth/refresh/")
      (.obj [("refresh", .str R)]) with
  | failure status message =>
    obtain ⟨out, s, hf⟩ := refreshFailed_trace env
      { error with config := { error.config with _retry := true } }
      ((w.log (.getItem "refresh_token")).log
        (.post (API_BASE_URL ++ "/auth/refresh/") (.obj [("refresh", .str R)])))
    have hrun : responseRejected (api env (fuel + 1)) env error w = some (out,
        { store := s, trace := ((w.log (.getItem "refresh_token")).log
          (.post (API_BASE_URL ++ "/auth/refresh/") (.obj [("refresh", .str R)]))).trace
          ++ [.multiRemove ["access_token", "refresh_token"]] }) := by
      simp only [responseRejected, h401, hretry, and_self, if_true, AsyncStorage.getItem,
        hread, hR, hpresent, ne_eq, not_false_eq_true, axios.post, World.log,
        List.length_append, List.length_singleton, hex]
      simp only [World.log] at hf
      rw [hf]
    exact ⟨_, [.multiRemove ["access_token", "refresh_token"]], hrun, by simp [World.log],
      by simp [exchanges]⟩
  | tokens A2 rotated =>
    cases hwrite : env.faults.setItem (w.trace.length + 2) "access_token" A2 with
    | some e =>
      obtain ⟨out, s, hf⟩ := refreshFailed_trace env
        { error with config := { error.config with _retry := true } }
        (((w.log (.getItem "refresh_token")).log
          (.post (API_BASE_URL ++ "/auth/refresh/") (.obj [("refresh", .str R)]))).log
          (.setItem "access_token" A2))
      have hrun : responseRejected (api env (fuel + 1)) env error w = some (out,
          { store := s, trace := (((w.log (.getItem "refresh_token")).log
            (.post (API_BASE_URL ++ "/auth/refresh/") (.obj [("refresh", .str R)]))).log
            (.setItem "access_token" A2)).trace
            ++ [.multiRemove ["access_token", "refresh_token"]] }) := by
        simp only [responseRejected, h401, hretry, and_self, if_true, AsyncStorage.getItem,
          hread, hR, hpresent, ne_eq, not_false_eq_true, axios.post, World.log,
          List.length_append, List.length_singleton, hex, AsyncStorage.setItem]
        simp only [List.length_cons, List.length_nil, Nat.zero_add, Nat.add_assoc,
          Nat.reduceAdd, hwrite]
        simp only [World.log] at hf
        rw [hf]
      exact ⟨_, [.setItem "access_token" A2, .multiRemove ["access_token", "refresh_token"]],
        hrun, by simp [World.log], by simp [exchanges]⟩
    | none =>
      obtain ⟨c, d, w1, hw1, hex1, -, -, -, -, -, -, -, hrun⟩ :=
        responseRejected_refreshed env error w R A2 rotated h401 hretry hread hR hpresent hex
          hwrite
      subst hw1
      refine ⟨_, [.setItem "access_token" A2] ++ .getItem "access_token" :: d ++ [.dispatch c],
        hrun fuel, by simp [World.log], ?_⟩
      rw [exchanges_append, exchanges_append, exchanges_cons _ d, hex1]
      simp [exchanges]

end Main

/-- C11. Refresh exchange shape: for a 401 on a first attempt with a present stored
refresh token R, the handler of the main variant sends exactly one exchange, a post to
the base URL followed by "/auth/refresh/" whose body is the object with the single
property refresh holding R itself; and `authAPI.refreshToken(R)` is a post of the same
body to the path "/auth/refresh/", which the instance resolves against the same base
URL. -/
theorem C11_refresh_exchange_shape (env : Env) (fuel : Nat) (error : AxiosError) (w : World)
    (R : String)
    (h401 : error.status = some 401) (hretry : error.config._retry = false)
    (hread : env.faults.getItem w.trace.length "refresh_token" = none)
    (hR : w.store "refresh_token" = some R) (hpresent : R ≠ "") :
    (∃ r d, Main.responseRejected (Main.api env (fuel + 1)) env error w = some r ∧
      r.2.trace = w.trace ++ d ∧
      exchanges d = [(API_BASE_URL ++ "/auth/refresh/", .obj [("refresh", .str R)])]) ∧
    (Main.Descriptor.authAPI.refreshToken (.str R)).method = some "post" ∧
    (Main.Descriptor.authAPI.refreshToken (.str R)).url = some "/auth/refresh/" ∧
    (Main.Descriptor.authAPI.refreshToken (.str R)).data = .obj [("refresh", .str R)] ∧
    (mergeConfig defaults (Main.Descriptor.authAPI.refreshToken (.str R))).baseURL
      = some API_BASE_URL := by
  refine ⟨?_, rfl, rfl, rfl, rfl⟩
  obtain ⟨r, rest, hrun, htrace, hex⟩ :=
    Main.responseRejected_exchange env fuel error w R h401 hretry hread hR hpresent
  refine ⟨r, [.getItem "refresh_token",
      .post (API_BASE_URL ++ "/auth/refresh/") (.obj [("refresh", .str R)])] ++ rest,
    hrun, ?_, ?_⟩
  · rw [htrace, List.append_assoc]
  · rw [exchanges_append, hex]
    simp [exchanges]

/-- Witness of C11: a 401 on a first `GET /tasks/` with the refresh token R1 stored. -/
theorem C11_witness :
    (∃ r d, Main.responseRejected (Main.api Example.envDenied (0 + 1)) Example.envDenied
        (Example.errorWith 401 false) Example.worldA1R1 = some r ∧
      r.2.trace = Example.worldA1R1.trace ++ d ∧
      exchanges d = [(API_BASE_URL ++ "/auth/refresh/", .obj [("refresh", .str "R1")])]) ∧
    (Main.Descriptor.authAPI.refreshToken (.str "R1")).method = some "post" ∧
    (Main.Descriptor.authAPI.refreshToken (.str "R1")).url = some "/auth/refresh/" ∧
    (Main.Descriptor.authAPI.refreshToken (.str "R1")).data = .obj [("refresh", .str "R1")] ∧
    (mergeConfig defaults (Main.Descriptor.authAPI.refreshToken (.str "R1"))).baseURL
      = some API_BASE_URL :=
  C11_refresh_exchange_shape Example.envDenied 0 (Example.errorWith 401 false)
    Example.worldA1R1 "R1" rfl rfl rfl rfl (by decide)

/-- C12, as amended. Removal of the credentials. The failed refresh of the main variant
and `apiUtils.clearStorage` hand both keys to the storage in one `multiRemove` call, and
when that call succeeds neither key is stored afterwards. The 401 handling of the expo
variant removes the access token and then the refresh token by two calls: when both
succeed neither key is stored afterwards, and in every case the storage afterwards is
the one before, or the one before without the access token, or the one before without
both tokens. -/
theorem C12_credentials_removal (env : Env) (error : AxiosError) (w : World) :
    ((Main.refreshFailed env error w).2.trace
        = w.trace ++ [.multiRemove ["access_token", "refresh_token"]] ∧
      (env.faults.multiRemove w.trace.length ["access_token", "refresh_token"] = none →
        (Main.refreshFailed env error w).2.store "access_token" = none ∧
        (Main.refreshFailed env error w).2.store "refresh_token" = none)) ∧
    (env.faults.multiRemove w.trace.length
        ["access_token", "refresh_token", "user_data", "tasks_cache", "categories_cache"]
        = none →
      (Main.apiUtils.clearStorage env w).2.trace = w.trace ++
        [.multiRemove
          ["access_token", "refresh_token", "user_data", "tasks_cache", "categories_cache"]] ∧
      (Main.apiUtils.clearStorage env w).2.store "access_token" = none ∧
      (Main.apiUtils.clearStorage env w).2.store "refresh_token" = none) ∧
    (error.status = some 401 →
      env.faults.removeItem w.trace.length "access_token" = none →
      env.faults.removeItem (w.trace.length + 1) "refresh_token" = none →
      (Expo.responseRejected env error w).2.store "access_token" = none ∧
      (Expo.responseRejected env error w).2.store "refresh_token" = none) ∧
    ((Expo.responseRejected env error w).2.store = w.store ∨
      (Expo.responseRejected env error w).2.store = w.store.remove "access_token" ∨
      (Expo.responseRejected env error w).2.store
        = (w.store.remove "access_token").remove "refresh_token") := by
  refine ⟨⟨?_, ?_⟩, ?_, ?_, ?_⟩
  · obtain ⟨out, s, hf⟩ := Main.refreshFailed_trace env error w
    rw [hf]
  · intro h
    simp [Main.refreshFailed, AsyncStorage.multiRemove, h, Store.removeAll]
  · intro h
    simp [Main.apiUtils.clearStorage, AsyncStorage.multiRemove, h, Store.removeAll]
  · intro h401 h1 h2
    simp [Expo.responseRejected, h401, AsyncStorage.removeItem, h1, h2, Store.remove]
  · unfold Expo.responseRejected
    by_cases h401 : error.status = some 401
    · simp only [h401, if_true, AsyncStorage.removeItem]
      cases env.faults.removeItem w.trace.length "access_token" with
      | some e => exact Or.inl rfl
      | none =>
        simp only []
        cases env.faults.removeItem (w.trace ++ [Event.removeItem "access_token"]).length
            "refresh_token" with
        | some e => exact Or.inr (Or.inl rfl)
        | none => exact Or.inr (Or.inr rfl)
    · simp [h401]

/-- Witness of C12 as amended: a 401 in the expo variant, and a failed refresh and
`clearStorage` in the main variant, on a device that holds A1 and R1 and whose storage
works. -/
theorem C12_witness :
    ((Main.refreshFailed Example.envDenied (Example.errorWith 401 false)
          Example.worldA1R1).2.store "access_token" = none ∧
      (Main.refreshFailed Example.envDenied (Example.errorWith 401 false)
          Example.worldA1R1).2.store "refresh_token" = none) ∧
    ((Main.apiUtils.clearStorage Example.envDenied Example.worldA1R1).2.trace
        = Example.worldA1R1.trace ++
          [.multiRemove
            ["access_token", "refresh_token", "user_data", "tasks_cache", "categories_cache"]] ∧
      (Main.apiUtils.clearStorage Example.envDenied Example.worldA1R1).2.store "access_token"
        = none ∧
      (Main.apiUtils.clearStorage Example.envDenied Example.worldA1R1).2.store "refresh_token"
        = none) ∧
    ((Expo.responseRejected Example.envDenied (Example.errorWith 401 false)
          Example.worldA1R1).2.store "access_token" = none ∧
      (Expo.responseRejected Example.envDenied (Example.errorWith 401 false)
          Example.worldA1R1).2.store "refresh_token" = none) :=
  ⟨(C12_credentials_removal Example.envDenied (Example.errorWith 401 false)
      Example.worldA1R1).1.2 rfl,
    (C12_credentials_removal Example.envDenied (Example.errorWith 401 false)
      Example.worldA1R1).2.1 rfl,
    (C12_credentials_removal Example.envDenied (Example.errorWith 401 false)
      Example.worldA1R1).2.2.1 rfl rfl rfl⟩

/-- Counterexample to C12 as stated: a 401 in the expo variant on a device that holds A1
and R1, with a storage whose removal of the refresh token fails. Afterwards the access
token has been removed and the refresh token is still stored: one key was removed
alone. -/
theorem C12_counterexample :
    (Example.errorWith 401 false).status = some 401 ∧
    Example.worldA1R1.store "access_token" = some "A1" ∧
    Example.worldA1R1.store "refresh_token" = some "R1" ∧
    (Expo.responseRejected Example.envHalfRemoval (Example.errorWith 401 false)
      Example.worldA1R1).2.store "access_token" = none ∧
    (Expo.responseRejected Example.envHalfRemoval (Example.errorWith 401 false)
      Example.worldA1R1).2.store "refresh_token" = some "R1" :=
  ⟨rfl, rfl, rfl, by decide, by decide⟩


/-! ## The two variants compared, and the API surface -/

/-- Joining string literals around an interpolated value: the base path in front. -/
theorem under_path (base p s q : String) : base ++ (p ++ s ++ q) = (base ++ p) ++ s ++ q := by
  simp [String.append_assoc]

namespace Main

/-- Whatever happens afterwards, a call of the instance dispatches the request it was
given: the first request it hands to the transport has the method, path, body and query
params of the config. -/
theorem api_dispatches_request (env : Env) (fuel : Nat) (config : Config) (w : World) :
    ∃ r c rest, api env (fuel + 2) config w = some r ∧
      dispatched r.2.trace = dispatched w.trace ++ c :: rest ∧
      c.method = config.method ∧ c.url = config.url ∧ c.data = config.data ∧
      c.params = config.params := by
  obtain ⟨c1, d0, hri, -, hdis0, hm, -, hu, hdat, hpar, -, -, -, -⟩ :=
    requestInterceptor_shape env (mergeConfig defaults config) w
  have hm : c1.method = config.method := by rw [hm]; simp [mergeConfig, defaults]
  have hu : c1.url = config.url := hu
  have hdat : c1.data = config.data := hdat
  have hpar : c1.params = config.params := hpar
  have hw := dispatchRequest_world env c1
    { store := w.store, trace := w.trace ++ .getItem "access_token" :: d0 }
  cases hd : dispatchRequest env c1
      { store := w.store, trace := w.trace ++ .getItem "access_token" :: d0 } with
  | mk out w2 =>
    rw [hd] at hw
    simp only at hw
    subst hw
    have hpre : dispatched ((w.trace ++ .getItem "access_token" :: d0) ++ [.dispatch c1])
        = dispatched w.trace ++ [c1] := by
      rw [dispatched_append, dispatched_append, dispatched_cons _ d0, hdis0]
      simp [dispatched]
    cases out with
    | ok response =>
      refine ⟨(.fulfilled response,
          ({ store := w.store, trace := w.trace ++ .getItem "access_token" :: d0 } : World).log
            (.dispatch c1)), c1, [], ?_, hpre, hm, hu, hdat, hpar⟩
      simp [api, hri, hd, responseFulfilled]
    | error e =>
      obtain ⟨r, d, hrun, -, htrace, -, -, -, -⟩ :=
        responseRejected_bounded env fuel e
          (({ store := w.store, trace := w.trace ++ .getItem "access_token" :: d0 } : World).log
            (.dispatch c1))
      refine ⟨r, c1, dispatched d, ?_, ?_, hm, hu, hdat, hpar⟩
      · simp only [api, hri, hd]
        exact hrun
      · rw [htrace, dispatched_append]
        simp only [World.log]
        rw [hpre]
        simp

end Main

/-- C13, as amended. The two variants agree on everything but the 401: their request
interceptors settle alike and leave the same storage, their success handlers are the
same, and an error that is not a 401 is handled alike. On a 401 the expo variant never
refreshes: whatever is stored, it sends no exchange, dispatches no retry and rejects
with the error it was given. -/
theorem C13_variants_agree_except_on_401 (api : Config → World → Option Result) (env : Env)
    (error : AxiosError) (w : World) :
    (∃ d, (Expo.responseRejected env error w).1 = .rejected (.axios error) ∧
      (Expo.responseRejected env error w).2.trace = w.trace ++ d ∧
      exchanges d = [] ∧ dispatched d = []) ∧
    (error.status ≠ some 401 →
      Main.responseRejected api env error w = some (Expo.responseRejected env error w)) ∧
    (∀ response, Main.responseFulfilled response = Expo.responseFulfilled response) ∧
    (∀ config, (Main.requestInterceptor env config w).1 = (Expo.requestInterceptor env config w).1 ∧
      (Main.requestInterceptor env config w).2.store
        = (Expo.requestInterceptor env config w).2.store) := by
  refine ⟨?_, ?_, fun _ => rfl, ?_⟩
  · unfold Expo.responseRejected
    by_cases h401 : error.status = some 401
    · simp only [h401, if_true, AsyncStorage.removeItem]
      cases env.faults.removeItem w.trace.length "access_token" with
      | some e =>
        exact ⟨[.removeItem "access_token", .console "log" "Error removing tokens:"], rfl,
          by simp [World.log], rfl, rfl⟩
      | none =>
        simp only []
        cases env.faults.removeItem (w.trace ++ [Event.removeItem "access_token"]).length
            "refresh_token" with
        | some e =>
          exact ⟨[.removeItem "access_token", .removeItem "refresh_token",
            .console "log" "Error removing tokens:"], rfl, by simp [World.log], rfl, rfl⟩
        | none =>
          exact ⟨[.removeItem "access_token", .removeItem "refresh_token"], rfl,
            by simp, rfl, rfl⟩
    · exact ⟨[], by simp [h401], by simp [h401], rfl, rfl⟩
  · intro h
    rw [Main.responseRejected_of_not_401 api env error w h]
    simp [Expo.responseRejected, h]
  · intro config
    unfold Main.requestInterceptor Expo.requestInterceptor AsyncStorage.getItem
    cases env.faults.getItem w.trace.length "access_token" with
    | some e => exact ⟨rfl, rfl⟩
    | none =>
      cases w.store "access_token" with
      | none => exact ⟨rfl, rfl⟩
      | some t => by_cases ht : t = "" <;> simp [ht]

/-- Witness of C13 as amended: a status 500 is handled alike by both variants. -/
theorem C13_witness :
    Main.responseRejected (Main.api Example.envOk 1) Example.envOk
        (Example.errorWith 500 false) Example.worldA1R1
      = some (Expo.responseRejected Example.envOk (Example.errorWith 500 false)
          Example.worldA1R1) :=
  (C13_variants_agree_except_on_401 (Main.api Example.envOk 1) Example.envOk
    (Example.errorWith 500 false) Example.worldA1R1).2.1 (by decide)

/-- Counterexample to C13 as stated: `GET /tasks/` answered 401 on a device that holds
A1 and R1, the exchange gives A2 and the server accepts A2. The main variant refreshes
and retries: it fulfils with the retried response, A2 and R1 are stored. The expo
variant sends no exchange: it rejects, and neither token is stored. -/
theorem C13_counterexample :
    (∃ response wm, Main.responseRejected (Main.api Example.envRefresh 1) Example.envRefresh
        (Example.errorWith 401 false) Example.worldA1R1 = some (.fulfilled response, wm) ∧
      wm.store "access_token" = some "A2" ∧ wm.store "refresh_token" = some "R1") ∧
    (∃ we, Expo.responseRejected Example.envRefresh (Example.errorWith 401 false)
        Example.worldA1R1 = (.rejected (.axios (Example.errorWith 401 false)), we) ∧
      we.store "access_token" = none ∧ we.store "refresh_token" = none ∧
      exchanges we.trace = [] ∧ dispatched we.trace = []) :=
  ⟨⟨_, _, rfl, by decide, by decide⟩, ⟨_, rfl, by decide, by decide, rfl, rfl⟩⟩

/-- C14, as amended. The tasksAPI wrappers of the main variant are pure mappings from
the identifier and the payload to a descriptor: `getTask`, `updateTask` and `deleteTask`
target "/tasks/<id>/" with the methods get, put and delete; `completeTask`, `snoozeTask`,
`startProgress` and `updateProgress` post to that path extended by "complete/",
"snooze/", "start_progress/" and "update_progress/". The wrappers that take a payload
(`updateTask`, `completeTask`, `snoozeTask`, `updateProgress`) pass it on as the body
as it is; `getTask`, `deleteTask` and `startProgress` take the identifier only and send
no body. In whatever world such a descriptor is handed to the instance, the request
that goes out has its method, path, body and query params. -/
theorem C14_task_wrappers_are_pure_mappings (id d : JsVal) :
    (Main.Descriptor.tasksAPI.getTask id).method = some "get" ∧
    (Main.Descriptor.tasksAPI.getTask id).url = some ("/tasks/" ++ id.toStr ++ "/") ∧
    (Main.Descriptor.tasksAPI.getTask id).data = .undefined ∧
    (Main.Descriptor.tasksAPI.updateTask id d).method = some "put" ∧
    (Main.Descriptor.tasksAPI.updateTask id d).url = some ("/tasks/" ++ id.toStr ++ "/") ∧
    (Main.Descriptor.tasksAPI.updateTask id d).data = d ∧
    (Main.Descriptor.tasksAPI.deleteTask id).method = some "delete" ∧
    (Main.Descriptor.tasksAPI.deleteTask id).url = some ("/tasks/" ++ id.toStr ++ "/") ∧
    (Main.Descriptor.tasksAPI.deleteTask id).data = .undefined ∧
    (Main.Descriptor.tasksAPI.completeTask id d).method = some "post" ∧
    (Main.Descriptor.tasksAPI.completeTask id d).url
      = some (("/tasks/" ++ id.toStr ++ "/") ++ "complete/") ∧
    (Main.Descriptor.tasksAPI.completeTask id d).data = d ∧
    (Main.Descriptor.tasksAPI.snoozeTask id d).method = some "post" ∧
    (Main.Descriptor.tasksAPI.snoozeTask id d).url
      = some (("/tasks/" ++ id.toStr ++ "/") ++ "snooze/") ∧
    (Main.Descriptor.tasksAPI.snoozeTask id d).data = d ∧
    (Main.Descriptor.tasksAPI.updateProgress id d).method = some "post" ∧
    (Main.Descriptor.tasksAPI.updateProgress id d).url
      = some (("/tasks/" ++ id.toStr ++ "/") ++ "update_progress/") ∧
    (Main.Descriptor.tasksAPI.updateProgress id d).data = d ∧
    (Main.Descriptor.tasksAPI.startProgress id).method = some "post" ∧
    (Main.Descriptor.tasksAPI.startProgress id).url
      = some (("/tasks/" ++ id.toStr ++ "/") ++ "start_progress/") ∧
    (Main.Descriptor.tasksAPI.startProgress id).data = .undefined ∧
    (∀ descriptor ∈ [Main.Descriptor.tasksAPI.getTask id,
        Main.Descriptor.tasksAPI.updateTask id d, Main.Descriptor.tasksAPI.deleteTask id,
        Main.Descriptor.tasksAPI.completeTask id d, Main.Descriptor.tasksAPI.snoozeTask id d,
        Main.Descriptor.tasksAPI.startProgress id, Main.Descriptor.tasksAPI.updateProgress id d],
      ∀ (env : Env) (fuel : Nat) (w : World),
        ∃ r c rest, Main.api env (fuel + 2) descriptor w = some r ∧
          dispatched r.2.trace = dispatched w.trace ++ c :: rest ∧
          c.method = descriptor.method ∧ c.url = descriptor.url ∧
          c.data = descriptor.data ∧ c.params = descriptor.params) := by
  refine ⟨rfl, rfl, rfl, rfl, rfl, rfl, rfl, rfl, rfl, rfl, ?_, rfl, rfl, ?_, rfl, rfl, ?_, rfl,
    rfl, ?_, rfl, ?_⟩
  · simp [Main.Descriptor.tasksAPI.completeTask, Request.post, String.append_assoc]
  · simp [Main.Descriptor.tasksAPI.snoozeTask, Request.post, String.append_assoc]
  · simp [Main.Descriptor.tasksAPI.updateProgress, Request.post, String.append_assoc]
  · simp [Main.Descriptor.tasksAPI.startProgress, Request.post, String.append_assoc]
  · intro descriptor _ env fuel w
    exact Main.api_dispatches_request env fuel descriptor w

/-- Counterexample to C14 as stated: `startProgress` is listed among the wrappers whose
body is the payload, but it takes the identifier only: for the task 7 it posts to
"/tasks/7/start_progress/" without a body, whatever payload the caller has. -/
theorem C14_counterexample :
    (Main.Descriptor.tasksAPI.startProgress (.str "7")).method = some "post" ∧
    (Main.Descriptor.tasksAPI.startProgress (.str "7")).url
      = some "/tasks/7/start_progress/" ∧
    (Main.Descriptor.tasksAPI.startProgress (.str "7")).data = .undefined ∧
    (Main.Descriptor.tasksAPI.startProgress (.str "7")).data
      ≠ .obj [("progress", .num 50)] := by
  refine ⟨rfl, by decide, rfl, ?_⟩
  intro h
  cases h


/-- C19, as amended. The endpoint paths of the two variants differ. For login, register,
refresh, task list, get, create, update and delete, and category list, create, update
and delete, the expo wrapper produces the descriptor of the main wrapper (same method,
same body, same query params) with "/api" in front of the path. The profile wrappers
differ further: get and update keep method and body but use "/api/users/profile/"
instead of "/profile/" and "/profile/update/", and change password is a post to
"/api/users/change-password/" instead of a put to "/profile/change-password/", with the
same body. -/
theorem C19_expo_paths_under_api (a id d : JsVal) :
    Expo.Descriptor.authAPI.login a = (Main.Descriptor.authAPI.login a).under "/api" ∧
    Expo.Descriptor.authAPI.register a = (Main.Descriptor.authAPI.register a).under "/api" ∧
    Expo.Descriptor.authAPI.refresh a = (Main.Descriptor.authAPI.refreshToken a).under "/api" ∧
    Expo.Descriptor.tasksAPI.getAll a = (Main.Descriptor.tasksAPI.getTasks a).under "/api" ∧
    Expo.Descriptor.tasksAPI.getById id = (Main.Descriptor.tasksAPI.getTask id).under "/api" ∧
    Expo.Descriptor.tasksAPI.create d = (Main.Descriptor.tasksAPI.createTask d).under "/api" ∧
    Expo.Descriptor.tasksAPI.update id d
      = (Main.Descriptor.tasksAPI.updateTask id d).under "/api" ∧
    Expo.Descriptor.tasksAPI.delete id = (Main.Descriptor.tasksAPI.deleteTask id).under "/api" ∧
    Expo.Descriptor.categoriesAPI.getAll
      = Main.Descriptor.categoriesAPI.getCategories.under "/api" ∧
    Expo.Descriptor.categoriesAPI.create d
      = (Main.Descriptor.categoriesAPI.createCategory d).under "/api" ∧
    Expo.Descriptor.categoriesAPI.update id d
      = (Main.Descriptor.categoriesAPI.updateCategory id d).under "/api" ∧
    Expo.Descriptor.categoriesAPI.delete id
      = (Main.Descriptor.categoriesAPI.deleteCategory id).under "/api" ∧
    Expo.Descriptor.userAPI.getProfile
      = { Main.Descriptor.authAPI.getProfile with url := some "/api/users/profile/" } ∧
    Main.Descriptor.authAPI.getProfile.url = some "/profile/" ∧
    Expo.Descriptor.userAPI.updateProfile d
      = { Main.Descriptor.authAPI.updateProfile d with url := some "/api/users/profile/" } ∧
    (Main.Descriptor.authAPI.updateProfile d).url = some "/profile/update/" ∧
    Expo.Descriptor.userAPI.changePassword d
      = { Main.Descriptor.authAPI.changePassword d with
          method := some "post", url := some "/api/users/change-password/" } ∧
    (Main.Descriptor.authAPI.changePassword d).method = some "put" ∧
    (Main.Descriptor.authAPI.changePassword d).url = some "/profile/change-password/" := by
  refine ⟨rfl, rfl, rfl, rfl, ?_, rfl, ?_, ?_, rfl, rfl, ?_, ?_, rfl, rfl, rfl, rfl, rfl, rfl,
    rfl⟩
  · simp [Expo.Descriptor.tasksAPI.getById, Main.Descriptor.tasksAPI.getTask, Config.under,
      Request.get, under_path]
  · simp [Expo.Descriptor.tasksAPI.update, Main.Descriptor.tasksAPI.updateTask, Config.under,
      Request.put, under_path]
  · simp [Expo.Descriptor.tasksAPI.delete, Main.Descriptor.tasksAPI.deleteTask, Config.under,
      Request.delete, under_path]
  · simp [Expo.Descriptor.categoriesAPI.update, Main.Descriptor.categoriesAPI.updateCategory,
      Config.under, Request.put, under_path]
  · simp [Expo.Descriptor.categoriesAPI.delete, Main.Descriptor.categoriesAPI.deleteCategory,
      Config.under, Request.delete, under_path]

/-- Counterexample to C19 as stated: for the same credentials the login wrappers of the
two variants produce different descriptors, a post to "/auth/login/" in the main variant
and a post to "/api/auth/login/" in the expo variant; and for the same body the change
password wrappers differ in method and path. -/
theorem C19_counterexample :
    (Main.Descriptor.authAPI.login (.obj [("username", .str "u"), ("password", .str "p")])).url
      = some "/auth/login/" ∧
    (Expo.Descriptor.authAPI.login (.obj [("username", .str "u"), ("password", .str "p")])).url
      = some "/api/auth/login/" ∧
    Main.Descriptor.authAPI.login (.obj [("username", .str "u"), ("password", .str "p")])
      ≠ Expo.Descriptor.authAPI.login (.obj [("username", .str "u"), ("password", .str "p")]) ∧
    (Main.Descriptor.authAPI.changePassword .null).method = some "put" ∧
    (Expo.Descriptor.userAPI.changePassword .null).method = some "post" := by
  refine ⟨rfl, rfl, ?_, rfl, rfl⟩
  intro h
  have h2 := congrArg Config.url h
  revert h2
  decide


/-! ## Storage helpers -/

/-- C15, as amended. With a storage whose `multiSet` succeeds, after
`apiUtils.setAuthTokens(a, r)` reading "access_token" gives a and reading
"refresh_token" gives r whatever was stored before, every other key is unchanged, and
two successive calls leave the storage of the second call alone. A subsequent request
through the interceptor carries "Bearer " followed by a when a is not the empty string
and the read of the token succeeds. When a is the empty string, or when the read of
the token fails, the interceptor returns the request as it was given, without attaching
an Authorization header. -/
theorem C15_setAuthTokens_overwrites (env : Env) (a r : String) (w : World)
    (hwrite : ∀ n pairs, env.faults.multiSet n pairs = none) :
    (Main.apiUtils.setAuthTokens env a r w).1 = .fulfilled () ∧
    (Main.apiUtils.setAuthTokens env a r w).2.store "access_token" = some a ∧
    (Main.apiUtils.setAuthTokens env a r w).2.store "refresh_token" = some r ∧
    (∀ key, key ≠ "access_token" → key ≠ "refresh_token" →
      (Main.apiUtils.setAuthTokens env a r w).2.store key = w.store key) ∧
    (∀ a0 r0,
      (Main.apiUtils.setAuthTokens env a r (Main.apiUtils.setAuthTokens env a0 r0 w).2).2.store
        = (Main.apiUtils.setAuthTokens env a r w).2.store) ∧
    (a ≠ "" → env.faults.getItem (w.trace.length + 1) "access_token" = none →
      ∀ config, ∃ c,
        (Main.requestInterceptor env config (Main.apiUtils.setAuthTokens env a r w).2).1
          = .fulfilled c ∧
        c.headers "Authorization" = some ("Bearer " ++ a) ∧
        c = { config with headers := config.headers.set "Authorization" ("Bearer " ++ a) }) ∧
    (a = "" → ∀ config,
      (Main.requestInterceptor env config (Main.apiUtils.setAuthTokens env a r w).2).1
        = .fulfilled config) ∧
    ((∃ e, env.faults.getItem (w.trace.length + 1) "access_token" = some e) → ∀ config,
      (Main.requestInterceptor env config (Main.apiUtils.setAuthTokens env a r w).2).1
        = .fulfilled config) := by
  have hrun : ∀ a1 r1 w1, Main.apiUtils.setAuthTokens env a1 r1 w1
      = (.fulfilled (), (⟨(w1.store.set "access_token" a1).set "refresh_token" r1,
          w1.trace ++ [.multiSet [("access_token", a1), ("refresh_token", r1)]]⟩ : World)) := by
    intro a1 r1 w1
    simp [Main.apiUtils.setAuthTokens, AsyncStorage.multiSet, hwrite, Store.setAll]
  refine ⟨by rw [hrun], ?_, ?_, ?_, ?_, ?_, ?_, ?_⟩
  · rw [hrun]; simp [Store.set]
  · rw [hrun]; simp [Store.set]
  · intro key h1 h2
    rw [hrun]; simp [Store.set, h1, h2]
  · intro a0 r0
    rw [hrun a0 r0 w, hrun, hrun]
    funext key
    simp only [Store.set]
    by_cases h2 : key = "refresh_token"
    · simp [h2]
    · by_cases h1 : key = "access_token"
      · simp [h1]
      · simp [h1, h2]
  · intro ha hread config
    rw [hrun]
    refine ⟨{ config with headers := config.headers.set "Authorization" ("Bearer " ++ a) },
      ?_, by simp [Headers.set], rfl⟩
    simp [Main.requestInterceptor, AsyncStorage.getItem, hread, Store.set, ha]
  · intro ha config
    rw [hrun]
    subst ha
    unfold Main.requestInterceptor AsyncStorage.getItem
    simp only [List.length_append, List.length_singleton]
    cases env.faults.getItem (w.trace.length + 1) "access_token" with
    | some e => rfl
    | none => simp [Store.set]
  · rintro ⟨e, he⟩ config
    rw [hrun]
    simp [Main.requestInterceptor, AsyncStorage.getItem, he]

/-- Witness of C15 as amended: the tokens A2 and R2 are set on a device that holds A1
and R1, and `GET /tasks/` then carries "Bearer A2". -/
theorem C15_witness :
    (Main.apiUtils.setAuthTokens Example.envOk "A2" "R2" Example.worldA1R1).1 = .fulfilled () ∧
    (Main.apiUtils.setAuthTokens Example.envOk "A2" "R2" Example.worldA1R1).2.store
      "access_token" = some "A2" ∧
    (Main.apiUtils.setAuthTokens Example.envOk "A2" "R2" Example.worldA1R1).2.store
      "refresh_token" = some "R2" ∧
    (∀ a0 r0,
      (Main.apiUtils.setAuthTokens Example.envOk "A2" "R2"
        (Main.apiUtils.setAuthTokens Example.envOk a0 r0 Example.worldA1R1).2).2.store
        = (Main.apiUtils.setAuthTokens Example.envOk "A2" "R2" Example.worldA1R1).2.store) ∧
    (∃ c,
      (Main.requestInterceptor Example.envOk Example.getTasks
        (Main.apiUtils.setAuthTokens Example.envOk "A2" "R2" Example.worldA1R1).2).1
        = .fulfilled c ∧
      c.headers "Authorization" = some "Bearer A2") ∧
    (Main.requestInterceptor Example.envOk Example.getTasks
      (Main.apiUtils.setAuthTokens Example.envOk "" "R2" Example.worldA1R1).2).1
      = .fulfilled Example.getTasks := by
  have h := C15_setAuthTokens_overwrites Example.envOk "A2" "R2" Example.worldA1R1
    (fun _ _ => rfl)
  have h0 := C15_setAuthTokens_overwrites Example.envOk "" "R2" Example.worldA1R1
    (fun _ _ => rfl)
  obtain ⟨c, hc, hh, -⟩ := h.2.2.2.2.2.1 (by decide) rfl Example.getTasks
  exact ⟨h.1, h.2.1, h.2.2.1, h.2.2.2.2.1, ⟨c, hc, hh⟩, h0.2.2.2.2.2.2.1 rfl Example.getTasks⟩

/-- Counterexample to C15 as stated: the strings a = "" and r = "R1". After
`apiUtils.setAuthTokens("", "R1")` the empty string is stored under "access_token", and
the interceptor returns `GET /tasks/` as it is, without an Authorization header, not
with "Bearer " followed by a. -/
theorem C15_counterexample :
    (Main.apiUtils.setAuthTokens Example.envOk "" "R1" Example.worldEmpty).2.store
      "access_token" = some "" ∧
    (Main.requestInterceptor Example.envOk Example.getTasks
      (Main.apiUtils.setAuthTokens Example.envOk "" "R1" Example.worldEmpty).2).1
      = .fulfilled Example.getTasks ∧
    Example.getTasks.headers "Authorization" = none ∧
    Example.getTasks.headers "Authorization" ≠ some ("Bearer " ++ "") :=
  ⟨by decide, rfl, rfl, by decide⟩

/-- C16, as amended. Function `apiUtils.clearStorage` never rejects. When its
`multiRemove` succeeds, none of "access_token", "refresh_token", "user_data",
"tasks_cache" and "categories_cache" is stored afterwards and every other key keeps its
value; then `apiUtils.isAuthenticated` resolves to false and the request interceptor
returns the config it is given, without adding an Authorization header. When its
`multiRemove` fails, the failure is only logged: the listed keys that the removal had
reached are absent, every other key, listed or not, keeps its value, and when a
non-empty access token stays stored, `apiUtils.isAuthenticated` (its read succeeding)
resolves to true and the request interceptor attaches "Bearer " followed by it. -/
theorem C16_clearStorage_removes_listed_keys (env : Env) (w : World) :
    (Main.apiUtils.clearStorage env w).1 = .fulfilled () ∧
    (env.faults.multiRemove w.trace.length
        ["access_token", "refresh_token", "user_data", "tasks_cache", "categories_cache"]
        = none →
      (∀ key ∈ ["access_token", "refresh_token", "user_data", "tasks_cache",
          "categories_cache"], (Main.apiUtils.clearStorage env w).2.store key = none) ∧
      (∀ key, key ∉ ["access_token", "refresh_token", "user_data", "tasks_cache",
          "categories_cache"] → (Main.apiUtils.clearStorage env w).2.store key = w.store key) ∧
      (Main.apiUtils.isAuthenticated env (Main.apiUtils.clearStorage env w).2).1
        = .fulfilled false ∧
      (∀ config, (Main.requestInterceptor env config (Main.apiUtils.clearStorage env w).2).1
        = .fulfilled config)) ∧
    (∀ storageError done,
      env.faults.multiRemove w.trace.length
        ["access_token", "refresh_token", "user_data", "tasks_cache", "categories_cache"]
        = some (storageError, done) →
      (Main.apiUtils.clearStorage env w).2.trace
        = w.trace ++ [.multiRemove ["access_token", "refresh_token", "user_data",
            "tasks_cache", "categories_cache"], .console "error" "Error clearing storage:"] ∧
      (∀ key ∈ ["access_token", "refresh_token", "user_data", "tasks_cache",
          "categories_cache"], key ∈ done →
        (Main.apiUtils.clearStorage env w).2.store key = none) ∧
      (∀ key ∈ ["access_token", "refresh_token", "user_data", "tasks_cache",
          "categories_cache"], key ∉ done →
        (Main.apiUtils.clearStorage env w).2.store key = w.store key) ∧
      (∀ key, key ∉ ["access_token", "refresh_token", "user_data", "tasks_cache",
          "categories_cache"] → (Main.apiUtils.clearStorage env w).2.store key = w.store key) ∧
      (∀ token, w.store "access_token" = some token → token ≠ "" → "access_token" ∉ done →
        env.faults.getItem (w.trace.length + 2) "access_token" = none →
        (Main.apiUtils.isAuthenticated env (Main.apiUtils.clearStorage env w).2).1
          = .fulfilled true ∧
        ∀ config,
          (Main.requestInterceptor env config (Main.apiUtils.clearStorage env w).2).1
            = .fulfilled { config with
                headers := config.headers.set "Authorization" ("Bearer " ++ token) })) := by
  refine ⟨?_, ?_, ?_⟩
  · unfold Main.apiUtils.clearStorage AsyncStorage.multiRemove
    cases env.faults.multiRemove w.trace.length
        ["access_token", "refresh_token", "user_data", "tasks_cache", "categories_cache"] with
    | none => rfl
    | some p => rfl
  · intro h
    have hrun : Main.apiUtils.clearStorage env w = (.fulfilled (),
        { store := w.store.removeAll
            ["access_token", "refresh_token", "user_data", "tasks_cache", "categories_cache"],
          trace := w.trace ++ [.multiRemove
            ["access_token", "refresh_token", "user_data", "tasks_cache",
              "categories_cache"]] }) := by
      simp [Main.apiUtils.clearStorage, AsyncStorage.multiRemove, h]
    rw [hrun]
    refine ⟨?_, ?_, ?_, ?_⟩
    · intro key hkey
      simp only [Store.removeAll, hkey, if_true]
    · intro key hkey
      simp only [Store.removeAll, hkey, if_false]
    · unfold Main.apiUtils.isAuthenticated AsyncStorage.getItem
      cases env.faults.getItem (w.trace ++ [Event.multiRemove
          ["access_token", "refresh_token", "user_data", "tasks_cache",
            "categories_cache"]]).length "access_token" with
      | some e => rfl
      | none => simp [Store.removeAll]
    · intro config
      unfold Main.requestInterceptor AsyncStorage.getItem
      cases env.faults.getItem (w.trace ++ [Event.multiRemove
          ["access_token", "refresh_token", "user_data", "tasks_cache",
            "categories_cache"]]).length "access_token" with
      | some e => rfl
      | none => simp [Store.removeAll]
  · intro storageError done h
    have hrun : Main.apiUtils.clearStorage env w = (.fulfilled (),
        (⟨w.store.removeAll (done.filter (· ∈ ["access_token", "refresh_token", "user_data",
            "tasks_cache", "categories_cache"])),
          w.trace ++ [.multiRemove ["access_token", "refresh_token", "user_data",
            "tasks_cache", "categories_cache"], .console "error" "Error clearing storage:"]⟩ :
          World)) := by
      simp [Main.apiUtils.clearStorage, AsyncStorage.multiRemove, h, World.log]
    rw [hrun]
    refine ⟨rfl, ?_, ?_, ?_, ?_⟩
    · intro key hkey hdone
      simp only [Store.removeAll, List.mem_filter, hdone, hkey, decide_True, and_self, if_true]
    · intro key _ hdone
      simp [Store.removeAll, hdone]
    · intro key hkey
      have hk : ¬ (key ∈ done ∧ key ∈ ["access_token", "refresh_token", "user_data",
          "tasks_cache", "categories_cache"]) := fun hh => hkey hh.2
      simp only [Store.removeAll, List.mem_filter, decide_eq_true_eq, hk, if_false]
    · intro token hstored hne hdone hread
      constructor
      · simp [Main.apiUtils.isAuthenticated, AsyncStorage.getItem, hread, Store.removeAll,
          hdone, hstored, hne]
      · intro config
        simp [Main.requestInterceptor, AsyncStorage.getItem, hread, Store.removeAll, hdone,
          hstored, hne]

/-- Witness of C16 as amended: the storage of a device that holds A1 and R1 is
cleared; on a device whose `multiRemove` rejects without having removed anything, R1
stays stored and `apiUtils.isAuthenticated` resolves to true. -/
theorem C16_witness :
    ((∀ key ∈ ["access_token", "refresh_token", "user_data", "tasks_cache",
        "categories_cache"],
      (Main.apiUtils.clearStorage Example.envOk Example.worldA1R1).2.store key = none) ∧
    (∀ key, key ∉ ["access_token", "refresh_token", "user_data", "tasks_cache",
        "categories_cache"] →
      (Main.apiUtils.clearStorage Example.envOk Example.worldA1R1).2.store key
        = Example.worldA1R1.store key) ∧
    (Main.apiUtils.isAuthenticated Example.envOk
      (Main.apiUtils.clearStorage Example.envOk Example.worldA1R1).2).1 = .fulfilled false ∧
    (∀ config, (Main.requestInterceptor Example.envOk config
      (Main.apiUtils.clearStorage Example.envOk Example.worldA1R1).2).1
        = .fulfilled config)) ∧
    ((Main.apiUtils.clearStorage Example.envOkStuck Example.worldA1R1).2.store "refresh_token"
        = Example.worldA1R1.store "refresh_token" ∧
      (Main.apiUtils.isAuthenticated Example.envOkStuck
        (Main.apiUtils.clearStorage Example.envOkStuck Example.worldA1R1).2).1
        = .fulfilled true) :=
  ⟨(C16_clearStorage_removes_listed_keys Example.envOk Example.worldA1R1).2.1 rfl,
    ((C16_clearStorage_removes_listed_keys Example.envOkStuck Example.worldA1R1).2.2
      { message := "remove failed" } [] rfl).2.2.1 "refresh_token" (by decide) (by simp),
    (((C16_clearStorage_removes_listed_keys Example.envOkStuck Example.worldA1R1).2.2
      { message := "remove failed" } [] rfl).2.2.2.2 "A1" (by decide) (by decide) (by simp)
      rfl).1⟩

/-- Counterexample to C16 as stated: a device that holds A1 and R1 and whose
`multiRemove` rejects without having removed anything. The call `clearStorage` fulfils
and logs the failure, both tokens are still stored, `isAuthenticated` resolves to true
and `GET /tasks/` gets the header "Bearer A1". -/
theorem C16_counterexample :
    (Main.apiUtils.clearStorage Example.envOkStuck Example.worldA1R1).1 = .fulfilled () ∧
    (Main.apiUtils.clearStorage Example.envOkStuck Example.worldA1R1).2.trace
      = [.multiRemove ["access_token", "refresh_token", "user_data", "tasks_cache",
          "categories_cache"], .console "error" "Error clearing storage:"] ∧
    (Main.apiUtils.clearStorage Example.envOkStuck Example.worldA1R1).2.store "access_token"
      = some "A1" ∧
    (Main.apiUtils.clearStorage Example.envOkStuck Example.worldA1R1).2.store "refresh_token"
      = some "R1" ∧
    (Main.apiUtils.isAuthenticated Example.envOkStuck
      (Main.apiUtils.clearStorage Example.envOkStuck Example.worldA1R1).2).1
      = .fulfilled true ∧
    (∃ c, (Main.requestInterceptor Example.envOkStuck Example.getTasks
        (Main.apiUtils.clearStorage Example.envOkStuck Example.worldA1R1).2).1 = .fulfilled c ∧
      c.headers "Authorization" = some "Bearer A1") :=
  ⟨rfl, rfl, by decide, by decide,
    by simp [Main.apiUtils.isAuthenticated, Main.apiUtils.clearStorage,
      AsyncStorage.multiRemove, AsyncStorage.getItem, Example.envOkStuck, Example.envOk,
      Faults.never, Example.worldA1R1, World.log, Store.removeAll, Store.set],
    ⟨_, rfl, by decide⟩⟩

/-- C18. Function `apiUtils.isAuthenticated` never rejects and leaves the storage as
it is. It resolves to false when the read of "access_token" fails; when the read
succeeds it resolves to true exactly when an access token, a non-empty string, is
stored under "access_token", and in particular to false when nothing is stored. -/
theorem C18_isAuthenticated (env : Env) (w : World) :
    ∃ b, (Main.apiUtils.isAuthenticated env w).1 = .fulfilled b ∧
      (Main.apiUtils.isAuthenticated env w).2.store = w.store ∧
      ((∃ e, env.faults.getItem w.trace.length "access_token" = some e) → b = false) ∧
      (env.faults.getItem w.trace.length "access_token" = none →
        (b = true ↔ ∃ t, w.store "access_token" = some t ∧ t ≠ "")) ∧
      (w.store "access_token" = none → b = false) := by
  unfold Main.apiUtils.isAuthenticated AsyncStorage.getItem
  cases hf : env.faults.getItem w.trace.length "access_token" with
  | some e => exact ⟨false, rfl, rfl, fun _ => rfl, by simp, fun _ => rfl⟩
  | none =>
    cases hs : w.store "access_token" with
    | none => exact ⟨false, rfl, rfl, by simp, by simp, fun _ => rfl⟩
    | some t =>
      refine ⟨decide (t ≠ ""), rfl, rfl, by simp, ?_, by simp⟩
      intro _
      simp

/-- Witness of C18: true on a device that holds A1, false on a device without tokens
and false when the storage cannot be read. -/
theorem C18_witness :
    (Main.apiUtils.isAuthenticated Example.envOk Example.worldA1).1 = .fulfilled true ∧
    (Main.apiUtils.isAuthenticated Example.envOk Example.worldEmpty).1 = .fulfilled false ∧
    (Main.apiUtils.isAuthenticated Example.envUnreadable Example.worldA1).1
      = .fulfilled false := by
  refine ⟨?_, ?_, ?_⟩
  · obtain ⟨b, hb, -, -, hiff, -⟩ := C18_isAuthenticated Example.envOk Example.worldA1
    rw [hb, (hiff rfl).mpr ⟨"A1", rfl, by decide⟩]
  · obtain ⟨b, hb, -, -, -, hnone⟩ := C18_isAuthenticated Example.envOk Example.worldEmpty
    rw [hb, hnone rfl]
  · obtain ⟨b, hb, -, hfail, -, -⟩ :=
      C18_isAuthenticated Example.envUnreadable Example.worldA1
    rw [hb, hfail ⟨_, rfl⟩]

/-! ## Error handling -/

theorem JsVal.or_of_truthy (a b : JsVal) (h : a.truthy = true) : a.or b = a := by
  simp [JsVal.or, h]

theorem JsVal.or_of_falsy (a b : JsVal) (h : a.truthy = false) : a.or b = b := by
  simp [JsVal.or, h]

namespace Main

/-- When the error has a response whose body is neither null nor undefined,
`handleError` returns the status and the body, with the message `data.message` if that
is truthy, otherwise `data.detail` if that is truthy, otherwise "Error " followed by the
status; without a response it returns the status 0 and a fixed message, or the message
of the error. The message returned is always truthy, so never the empty string. -/
theorem apiUtils.handleError_returns (error : JsError) :
    (∀ status data, error.response = some { status := status, data := data } →
      data ≠ .null → data ≠ .undefined →
      ∃ message, apiUtils.handleError error
          = .ok { message := message, status := status, data := some data } ∧
        message.truthy = true ∧
        ((data.get "message").truthy = true → message = data.get "message") ∧
        ((data.get "message").truthy = false → (data.get "detail").truthy = true →
          message = data.get "detail") ∧
        ((data.get "message").truthy = false → (data.get "detail").truthy = false →
          message = .str ("Error " ++ toString status))) ∧
    (error.response = none → error.request = true →
      apiUtils.handleError error
        = .ok { message := .str "No response from server. Please check your connection."
                status := 0, data := none }) ∧
    (error.response = none → error.request = false →
      ∃ message, apiUtils.handleError error = .ok { message := message, status := 0, data := none } ∧
        message.truthy = true ∧
        (error.message.truthy = true → message = error.message) ∧
        (error.message.truthy = false → message = .str "An unexpected error occurred.")) := by
  refine ⟨?_, ?_, ?_⟩
  · intro status data hresp hnull hundef
    have hstrict : data.getStrict "message" = some (data.get "message") := by
      cases data <;> simp_all [JsVal.getStrict]
    have hne : ("Error " ++ toString status) ≠ "" := by
      intro h
      have h2 := congrArg String.length h
      simp only [String.length_append] at h2
      have h3 : "Error ".length = 6 := by decide
      have h4 : "".length = 0 := by decide
      omega
    refine ⟨((data.get "message").or (data.get "detail")).or
      (.str ("Error " ++ toString status)), ?_, ?_, ?_, ?_, ?_⟩
    · simp [apiUtils.handleError, hresp, hstrict]
    · cases h1 : (data.get "message").truthy with
      | true => rw [JsVal.or_of_truthy _ _ h1, JsVal.or_of_truthy _ _ h1, h1]
      | false =>
        rw [JsVal.or_of_falsy _ _ h1]
        cases h2 : (data.get "detail").truthy with
        | true => rw [JsVal.or_of_truthy _ _ h2, h2]
        | false =>
          rw [JsVal.or_of_falsy _ _ h2]
          simp [JsVal.truthy, hne]
    · intro h1
      rw [JsVal.or_of_truthy _ _ h1, JsVal.or_of_truthy _ _ h1]
    · intro h1 h2
      rw [JsVal.or_of_falsy _ _ h1, JsVal.or_of_truthy _ _ h2]
    · intro h1 h2
      rw [JsVal.or_of_falsy _ _ h1, JsVal.or_of_falsy _ _ h2]
  · intro hresp hreq
    simp [apiUtils.handleError, hresp, hreq]
  · intro hresp hreq
    refine ⟨error.message.or (.str "An unexpected error occurred."), ?_, ?_, ?_, ?_⟩
    · simp [apiUtils.handleError, hresp, hreq]
    · cases h1 : error.message.truthy with
      | true => rw [JsVal.or_of_truthy _ _ h1, h1]
      | false =>
        rw [JsVal.or_of_falsy _ _ h1]
        decide
    · intro h1
      rw [JsVal.or_of_truthy _ _ h1]
    · intro h1
      rw [JsVal.or_of_falsy _ _ h1]

end Main

/-- C17. The failing input of `apiUtils.handleError`: an error whose response has the
status 500 and the body null. Reading `data.message` throws a TypeError, so the function
does not return the object with the message "Error 500" that the claim describes;
an error whose body is an object with a detail is handled as the claim says. -/
theorem C17_handleError_throws_on_null_body :
    (∃ thrown, Main.apiUtils.handleError Example.errorNullBody = .error thrown) ∧
    Main.apiUtils.handleError Example.errorWithDetail
      = .ok { message := .str "Invalid input", status := 400
              data := some (.obj [("detail", .str "Invalid input")]) } :=
  ⟨⟨_, rfl⟩, rfl⟩


/-! ## Login screen of the expo variant -/

theorem JsVal.truthy_of_get_str (v : JsVal) (key s : String) (h : v.get key = .str s) :
    v.truthy = true := by
  cases v <;> simp_all [JsVal.get, JsVal.truthy]

namespace Expo

/-- The response error handler of the expo variant always rejects with the error it is
given. -/
theorem responseRejected_rejects (env : Env) (error : AxiosError) (w : World) :
    (responseRejected env error w).1 = .rejected (.axios error) := by
  unfold responseRejected AsyncStorage.removeItem
  by_cases h401 : error.status = some 401
  · simp only [h401, if_true]
    cases env.faults.removeItem w.trace.length "access_token" with
    | some e => rfl
    | none =>
      simp only []
      cases env.faults.removeItem (w.trace ++ [Event.removeItem "access_token"]).length
          "refresh_token" with
      | some e => rfl
      | none => rfl
  · simp [h401]

/-- The request interceptor of the expo variant always fulfils and leaves the storage as
it is. -/
theorem requestInterceptor_store (env : Env) (config : Config) (w : World) :
    ∃ c w1, requestInterceptor env config w = (.fulfilled c, w1) ∧ w1.store = w.store := by
  unfold requestInterceptor AsyncStorage.getItem
  cases env.faults.getItem w.trace.length "access_token" with
  | some e => exact ⟨_, _, rfl, rfl⟩
  | none =>
    cases w.store "access_token" with
    | none => exact ⟨_, _, rfl, rfl⟩
    | some t =>
      by_cases ht : t = ""
      · exact ⟨config, w.log (.getItem "access_token"), by simp [ht], rfl⟩
      · exact ⟨{ config with headers := config.headers.set "Authorization" ("Bearer " ++ t) },
          w.log (.getItem "access_token"), by simp [ht], rfl⟩

/-- A call of the expo instance that fulfils has left the storage as it was. -/
theorem api_fulfilled_store (env : Env) (config : Config) (w w1 : World) (response : Response)
    (h : api env config w = (.fulfilled response, w1)) : w1.store = w.store := by
  obtain ⟨c, w0, hri, hs⟩ := requestInterceptor_store env (mergeConfig defaults config) w
  simp only [api, hri] at h
  have hw := dispatchRequest_world env c w0
  cases hd : dispatchRequest env c w0 with
  | mk out w2 =>
    rw [hd] at h hw
    simp only at hw
    cases out with
    | ok r =>
      simp only [Prod.mk.injEq] at h
      rw [← h.2, hw]
      exact hs
    | error e =>
      simp only at h
      have hrej := responseRejected_rejects env e w2
      rw [h] at hrej
      cases hrej

end Expo

/-- C20. Login of the expo variant, for a non-empty username and password and a login
request that fulfils with a response. When the body of the response carries a
non-empty access token and a non-empty refresh token, either as its own properties
access and refresh or as those of its property tokens, and the two writes succeed,
`handleLogin` stores the access token under "access_token" and the refresh token under
"refresh_token", leaves every other key as it was, and navigates to "Main" without an
alert; the storage afterwards depends on the tokens only, not on the shape. When the
body carries no access token, nothing is written and no navigation happens. -/
theorem C20_expo_login_token_shapes (env : Env) (username password : String) (w w1 : World)
    (ui : Ui) (response : Response) (access refresh : String)
    (huser : username ≠ "") (hpass : password ≠ "")
    (hlogin : Expo.api env (Expo.Descriptor.authAPI.login
      (.obj [("username", .str username), ("password", .str password)])) w
      = (.fulfilled response, w1)) :
    ((((response.data.get "tokens").truthy = false ∧
          response.data.get "access" = .str access ∧
          response.data.get "refresh" = .str refresh) ∨
        ((response.data.get "tokens").get "access" = .str access ∧
          (response.data.get "tokens").get "refresh" = .str refresh)) →
      access ≠ "" → refresh ≠ "" →
      env.faults.setItem w1.trace.length "access_token" access = none →
      env.faults.setItem (w1.trace.length + 1) "refresh_token" refresh = none →
      (Expo.LoginScreen.handleLogin env username password w ui).1.store
        = (w.store.set "access_token" access).set "refresh_token" refresh ∧
      (Expo.LoginScreen.handleLogin env username password w ui).2.routes
        = ui.routes ++ ["Main"] ∧
      (Expo.LoginScreen.handleLogin env username password w ui).2.alerts = ui.alerts) ∧
    (((((response.data.get "tokens").or response.data).or (.obj [])).get "access").truthy
        = false →
      (Expo.LoginScreen.handleLogin env username password w ui).1.store = w.store ∧
      (Expo.LoginScreen.handleLogin env username password w ui).1.trace = w1.trace ∧
      (Expo.LoginScreen.handleLogin env username password w ui).2.routes = ui.routes) := by
  have hstore := Expo.api_fulfilled_store env _ w w1 response hlogin
  constructor
  · intro hshape hacc href hw1 hw2
    have htokens : (((response.data.get "tokens").or response.data).or (.obj [])).get "access"
          = .str access ∧
        (((response.data.get "tokens").or response.data).or (.obj [])).get "refresh"
          = .str refresh := by
      rcases hshape with ⟨hno, ha, hr⟩ | ⟨ha, hr⟩
      · rw [JsVal.or_of_falsy _ _ hno,
          JsVal.or_of_truthy _ _ (JsVal.truthy_of_get_str _ _ _ ha)]
        exact ⟨ha, hr⟩
      · have ht := JsVal.truthy_of_get_str _ _ _ ha
        rw [JsVal.or_of_truthy _ _ ht, JsVal.or_of_truthy _ _ ht]
        exact ⟨ha, hr⟩
    simp only [Expo.LoginScreen.handleLogin, huser, hpass, or_self, if_false,
      Expo.LoginScreen.attemptLogin, hlogin, htokens.1, htokens.2, JsVal.truthy,
      AsyncStorage.setItemOf, AsyncStorage.setItem, hw1]
    simp [hacc, href, hw2, hstore, Ui.replace]
  · intro hno
    simp only [Expo.LoginScreen.handleLogin, huser, hpass, or_self, if_false,
      Expo.LoginScreen.attemptLogin, hlogin, hno]
    simp [hstore, Ui.alert]

/-- Witness of C20: the same tokens A1 and R1 sent in the two shapes leave the same
stored session and lead to "Main"; a body without tokens leaves the storage empty and
the screen where it is. -/
theorem C20_witness :
    ((Expo.LoginScreen.handleLogin Example.envLoginFlat "u" "p" Example.worldEmpty
          Example.uiStart).1.store
        = (Example.worldEmpty.store.set "access_token" "A1").set "refresh_token" "R1" ∧
      (Expo.LoginScreen.handleLogin Example.envLoginFlat "u" "p" Example.worldEmpty
          Example.uiStart).2.routes = Example.uiStart.routes ++ ["Main"] ∧
      (Expo.LoginScreen.handleLogin Example.envLoginFlat "u" "p" Example.worldEmpty
          Example.uiStart).2.alerts = Example.uiStart.alerts) ∧
    ((Expo.LoginScreen.handleLogin Example.envLoginNested "u" "p" Example.worldEmpty
          Example.uiStart).1.store
        = (Example.worldEmpty.store.set "access_token" "A1").set "refresh_token" "R1" ∧
      (Expo.LoginScreen.handleLogin Example.envLoginNested "u" "p" Example.worldEmpty
          Example.uiStart).2.routes = Example.uiStart.routes ++ ["Main"] ∧
      (Expo.LoginScreen.handleLogin Example.envLoginNested "u" "p" Example.worldEmpty
          Example.uiStart).2.alerts = Example.uiStart.alerts) ∧
    ((Expo.LoginScreen.handleLogin Example.envLoginEmpty "u" "p" Example.worldEmpty
          Example.uiStart).1.store = Example.worldEmpty.store ∧
      (Expo.LoginScreen.handleLogin Example.envLoginEmpty "u" "p" Example.worldEmpty
          Example.uiStart).2.routes = Example.uiStart.routes) :=
  ⟨(C20_expo_login_token_shapes Example.envLoginFlat "u" "p" Example.worldEmpty _
      Example.uiStart _ "A1" "R1" (by decide) (by decide) rfl).1
      (Or.inl ⟨rfl, rfl, rfl⟩) (by decide) (by decide) rfl rfl,
    (C20_expo_login_token_shapes Example.envLoginNested "u" "p" Example.worldEmpty _
      Example.uiStart _ "A1" "R1" (by decide) (by decide) rfl).1
      (Or.inr ⟨rfl, rfl⟩) (by decide) (by decide) rfl rfl,
    ⟨((C20_expo_login_token_shapes Example.envLoginEmpty "u" "p" Example.worldEmpty _
        Example.uiStart _ "A1" "R1" (by decide) (by decide) rfl).2 rfl).1,
      ((C20_expo_login_token_shapes Example.envLoginEmpty "u" "p" Example.worldEmpty _
        Example.uiStart _ "A1" "R1" (by decide) (by decide) rfl).2 rfl).2.2⟩⟩


/-! ## The 401 in the expo variant -/

namespace Expo

/-- The response error handler of the expo variant touches the storage and the console
only: it sends no exchange and dispatches nothing. -/
theorem responseRejected_trace (env : Env) (error : AxiosError) (w : World) :
    ∃ d, (responseRejected env error w).2.trace = w.trace ++ d ∧
      exchanges d = [] ∧ dispatched d = [] := by
  unfold responseRejected AsyncStorage.removeItem
  by_cases h401 : error.status = some 401
  · simp only [h401, if_true]
    cases env.faults.removeItem w.trace.length "access_token" with
    | some e =>
      exact ⟨[.removeItem "access_token", .console "log" "Error removing tokens:"],
        by simp [World.log], rfl, rfl⟩
    | none =>
      simp only []
      cases env.faults.removeItem (w.trace ++ [Event.removeItem "access_token"]).length
          "refresh_token" with
      | some e =>
        exact ⟨[.removeItem "access_token", .removeItem "refresh_token",
          .console "log" "Error removing tokens:"], by simp [World.log], rfl, rfl⟩
      | none => exact ⟨[.removeItem "access_token", .removeItem "refresh_token"], by simp, rfl, rfl⟩
  · exact ⟨[], by simp [h401], rfl, rfl⟩

end Expo

/-- C22. Expo variant on 401: for every error with status 401 and every storage state,
the handler rejects with the error it was given, also when a removal fails (the failure
is only logged); it sends no exchange and dispatches no retry, whatever is stored; and
when both removals succeed neither "access_token" nor "refresh_token" is stored
afterwards, every other key keeping its value. -/
theorem C22_expo_401_clears_and_rejects (env : Env) (error : AxiosError) (w : World)
    (h401 : error.status = some 401) :
    (Expo.responseRejected env error w).1 = .rejected (.axios error) ∧
    (∃ d, (Expo.responseRejected env error w).2.trace = w.trace ++ d ∧
      exchanges d = [] ∧ dispatched d = []) ∧
    (env.faults.removeItem w.trace.length "access_token" = none →
      env.faults.removeItem (w.trace.length + 1) "refresh_token" = none →
      (Expo.responseRejected env error w).2.store "access_token" = none ∧
      (Expo.responseRejected env error w).2.store "refresh_token" = none ∧
      ∀ key, key ≠ "access_token" → key ≠ "refresh_token" →
        (Expo.responseRejected env error w).2.store key = w.store key) ∧
    ((∃ e, env.faults.removeItem w.trace.length "access_token" = some e) →
      Expo.responseRejected env error w
        = (.rejected (.axios error),
          (w.log (.removeItem "access_token")).log (.console "log" "Error removing tokens:"))) := by
  refine ⟨Expo.responseRejected_rejects env error w, Expo.responseRejected_trace env error w,
    ?_, ?_⟩
  · intro h1 h2
    refine ⟨?_, ?_, ?_⟩
    · simp [Expo.responseRejected, h401, AsyncStorage.removeItem, h1, h2, Store.remove]
    · simp [Expo.responseRejected, h401, AsyncStorage.removeItem, h1, h2, Store.remove]
    · intro key hk1 hk2
      simp [Expo.responseRejected, h401, AsyncStorage.removeItem, h1, h2, Store.remove, hk1,
        hk2]
  · rintro ⟨e, he⟩
    simp [Expo.responseRejected, h401, AsyncStorage.removeItem, he]

/-- Witness of C22: a 401 on a device that holds A1 and R1, with a storage that works
and with a storage whose removal of the refresh token fails. -/
theorem C22_witness :
    ((Expo.responseRejected Example.envRefresh (Example.errorWith 401 false)
          Example.worldA1R1).1 = .rejected (.axios (Example.errorWith 401 false)) ∧
      (Expo.responseRejected Example.envRefresh (Example.errorWith 401 false)
          Example.worldA1R1).2.store "access_token" = none ∧
      (Expo.responseRejected Example.envRefresh (Example.errorWith 401 false)
          Example.worldA1R1).2.store "refresh_token" = none) ∧
    (Expo.responseRejected Example.envHalfRemoval (Example.errorWith 401 false)
        Example.worldA1R1).1 = .rejected (.axios (Example.errorWith 401 false)) :=
  ⟨⟨(C22_expo_401_clears_and_rejects Example.envRefresh (Example.errorWith 401 false)
        Example.worldA1R1 rfl).1,
      ((C22_expo_401_clears_and_rejects Example.envRefresh (Example.errorWith 401 false)
        Example.worldA1R1 rfl).2.2.1 rfl rfl).1,
      ((C22_expo_401_clears_and_rejects Example.envRefresh (Example.errorWith 401 false)
        Example.worldA1R1 rfl).2.2.1 rfl rfl).2.1⟩,
    (C22_expo_401_clears_and_rejects Example.envHalfRemoval (Example.errorWith 401 false)
      Example.worldA1R1 rfl).1⟩

/-! ## Login form of the main variant -/

theorem jsLength_empty : jsLength "" = 0 := rfl

/-- The JavaScript length of a string is its number of characters plus its number of
characters outside the basic plane, which take two code units each. -/
theorem jsLength_eq (s : String) :
    jsLength s = s.length + (s.data.filter (fun c => decide (0x10000 ≤ c.toNat))).length := by
  have h : ∀ l : List Char, (l.map fun c => if c.toNat < 0x10000 then 1 else 2).sum
      = l.length + (l.filter (fun c => decide (0x10000 ≤ c.toNat))).length := by
    intro l
    induction l with
    | nil => rfl
    | cons c rest ih =>
      by_cases hc : c.toNat < 0x10000
      · have hc2 : ¬ 0x10000 ≤ c.toNat := by omega
        simp only [List.map_cons, List.sum_cons, hc, if_true, ih, List.length_cons,
          List.filter_cons, hc2, decide_False]
        simp
        omega
      · have hc2 : 0x10000 ≤ c.toNat := by omega
        simp only [List.map_cons, List.sum_cons, hc, if_false, ih, List.length_cons,
          List.filter_cons, hc2, decide_True, if_true]
        omega
  exact h s.data

/-- A string trims to the empty string exactly when it is empty or consists of white
space only. -/
theorem jsTrim_eq_empty_iff (s : String) :
    jsTrim s = "" ↔ ∀ c ∈ s.data, isJsWhitespace c = true := by
  have hmk : ∀ L : List Char, String.mk L = "" ↔ L = [] := by
    intro L
    constructor
    · intro h
      have := congrArg String.data h
      simpa using this
    · rintro rfl; rfl
  unfold jsTrim
  rw [hmk, List.reverse_eq_nil_iff, List.dropWhile_eq_nil_iff]
  constructor
  · intro h
    have hnil : s.data.dropWhile isJsWhitespace = [] := by
      by_contra hne
      have hhead := List.head_dropWhile_not isJsWhitespace s.data hne
      have hmem := h _ (List.mem_reverse.mpr (List.head_mem hne))
      rw [hmem] at hhead
      cases hhead
    exact List.dropWhile_eq_nil_iff.mp hnil
  · intro h x hx
    have hnil : s.data.dropWhile isJsWhitespace = [] := List.dropWhile_eq_nil_iff.mpr h
    rw [hnil] at hx
    cases hx

/-- C21. Main login form validation. The trimmed username is empty exactly when every
character of the username is white space, and the length of the password is the
JavaScript length: the number of UTF-16 code units, one for each character and one
more for each character outside the basic plane. With these, `validateForm` returns
true exactly when the username is not empty after trimming and the password has a
length of at least 6. The username error is "Username is required" exactly when the
trimmed username is empty; the password error is "Password is required" exactly when
the password is empty and "Password must be at least 6 characters" exactly when the
password is not empty and shorter than 6. When `validateForm` returns false,
`handleLogin` returns having dispatched no login and shown no alert; when it returns
true, the login is dispatched with the form. -/
theorem C21_login_form_validation (s : Main.LoginScreen.State)
    (loginUser : Main.LoginScreen.FormData → Except JsVal Unit) :
    (jsTrim s.formData.username = "" ↔
      ∀ c ∈ s.formData.username.data, isJsWhitespace c = true) ∧
    (jsLength s.formData.password = s.formData.password.length +
      (s.formData.password.data.filter (fun c => decide (0x10000 ≤ c.toNat))).length) ∧
    ((Main.LoginScreen.validateForm s).2 = true ↔
      jsTrim s.formData.username ≠ "" ∧ 6 ≤ jsLength s.formData.password) ∧
    ((Main.LoginScreen.validateForm s).2 = true ↔
      (∃ c ∈ s.formData.username.data, isJsWhitespace c = false) ∧
      6 ≤ s.formData.password.length +
        (s.formData.password.data.filter (fun c => decide (0x10000 ≤ c.toNat))).length) ∧
    ((Main.LoginScreen.validateForm s).1.formErrors.username = some "Username is required" ↔
      jsTrim s.formData.username = "") ∧
    ((Main.LoginScreen.validateForm s).1.formErrors.username = none ↔
      jsTrim s.formData.username ≠ "") ∧
    ((Main.LoginScreen.validateForm s).1.formErrors.password = some "Password is required" ↔
      s.formData.password = "") ∧
    ((Main.LoginScreen.validateForm s).1.formErrors.password
        = some "Password must be at least 6 characters" ↔
      s.formData.password ≠ "" ∧ jsLength s.formData.password < 6) ∧
    ((Main.LoginScreen.validateForm s).1.formErrors.password = none ↔
      s.formData.password ≠ "" ∧ 6 ≤ jsLength s.formData.password) ∧
    ((Main.LoginScreen.validateForm s).2 = false →
      ∃ s1, Main.LoginScreen.handleLogin loginUser s = some s1 ∧
        s1.dispatched = s.dispatched ∧ s1.alerts = s.alerts ∧
        s1.formErrors = Main.LoginScreen.errorsOf s.formData) ∧
    ((Main.LoginScreen.validateForm s).2 = true →
      (∀ s1, Main.LoginScreen.handleLogin loginUser s = some s1 →
        s1.dispatched = s.dispatched ++ [s.formData]) ∧
      (loginUser s.formData = .ok () →
        ∃ s1, Main.LoginScreen.handleLogin loginUser s = some s1 ∧
          s1.dispatched = s.dispatched ++ [s.formData] ∧ s1.alerts = s.alerts)) := by
  have hvalid : (Main.LoginScreen.validateForm s).2 = true ↔
      jsTrim s.formData.username ≠ "" ∧ 6 ≤ jsLength s.formData.password := by
    simp only [Main.LoginScreen.validateForm, Main.LoginScreen.errorsOf]
    by_cases hu : jsTrim s.formData.username = ""
    · simp [hu]
    · by_cases hp : s.formData.password = ""
      · simp [hu, hp, jsLength_empty]
      · by_cases hl : jsLength s.formData.password < 6
        · simp [hu, hp, hl]
        · simp [hu, hp, hl]
          omega
  refine ⟨jsTrim_eq_empty_iff _, jsLength_eq _, hvalid, ?_, ?_, ?_, ?_, ?_, ?_, ?_, ?_⟩
  · rw [hvalid, ← jsLength_eq, Ne, jsTrim_eq_empty_iff]
    simp
  · simp only [Main.LoginScreen.validateForm, Main.LoginScreen.errorsOf]
    by_cases hu : jsTrim s.formData.username = "" <;> simp [hu]
  · simp only [Main.LoginScreen.validateForm, Main.LoginScreen.errorsOf]
    by_cases hu : jsTrim s.formData.username = "" <;> simp [hu]
  · simp only [Main.LoginScreen.validateForm, Main.LoginScreen.errorsOf]
    by_cases hp : s.formData.password = ""
    · simp [hp]
    · by_cases hl : jsLength s.formData.password < 6
      · simp [hp, hl]
      · simp [hp, hl]
  · simp only [Main.LoginScreen.validateForm, Main.LoginScreen.errorsOf]
    by_cases hp : s.formData.password = ""
    · simp [hp]
    · by_cases hl : jsLength s.formData.password < 6
      · simp [hp, hl]
      · simp [hp, hl]
  · simp only [Main.LoginScreen.validateForm, Main.LoginScreen.errorsOf]
    by_cases hp : s.formData.password = ""
    · simp [hp]
    · by_cases hl : jsLength s.formData.password < 6
      · simp [hp, hl]
      · simp [hp, hl]
        omega
  · intro h
    refine ⟨{ s with formErrors := Main.LoginScreen.errorsOf s.formData }, ?_, rfl, rfl, rfl⟩
    simp only [Main.LoginScreen.validateForm] at h
    simp [Main.LoginScreen.handleLogin, Main.LoginScreen.validateForm, h]
  · intro h
    simp only [Main.LoginScreen.validateForm] at h
    constructor
    · intro s1 hrun
      simp only [Main.LoginScreen.handleLogin, Main.LoginScreen.validateForm, h] at hrun
      cases hl : loginUser s.formData with
      | ok u =>
        simp only [hl, Option.some.injEq] at hrun
        rw [← hrun]
      | error err =>
        simp only [hl] at hrun
        cases hm : err.getStrict "message" with
        | none => simp [hm] at hrun
        | some m =>
          simp only [hm, Option.some.injEq] at hrun
          rw [← hrun]
    · intro hl
      refine ⟨{ s with formErrors := Main.LoginScreen.errorsOf s.formData
                       dispatched := s.dispatched ++ [s.formData] }, ?_, rfl, rfl⟩
      simp [Main.LoginScreen.handleLogin, Main.LoginScreen.validateForm, h, hl]

/-- Witness of C21. A username of a tab, a space, a line feed and a no-break space with
the password "abc" is refused with both errors, and `handleLogin` dispatches nothing.
The username " alice " with the password "secret" is accepted, and `handleLogin`
dispatches the login. -/
theorem C21_witness :
    ((Main.LoginScreen.validateForm Example.loginStart).2 = false ∧
      (Main.LoginScreen.validateForm Example.loginStart).1.formErrors.username
        = some "Username is required" ∧
      (Main.LoginScreen.validateForm Example.loginStart).1.formErrors.password
        = some "Password must be at least 6 characters" ∧
      ∃ s1, Main.LoginScreen.handleLogin (fun _ => .ok ()) Example.loginStart = some s1 ∧
        s1.dispatched = Example.loginStart.dispatched ∧
        s1.alerts = Example.loginStart.alerts ∧
        s1.formErrors = Main.LoginScreen.errorsOf Example.loginStart.formData) ∧
    ((Main.LoginScreen.validateForm Example.loginAccepted).2 = true ∧
      jsLength Example.loginAccepted.formData.password = 6 ∧
      ∃ s1, Main.LoginScreen.handleLogin (fun _ => .ok ()) Example.loginAccepted = some s1 ∧
        s1.dispatched = Example.loginAccepted.dispatched ++ [Example.loginAccepted.formData] ∧
        s1.alerts = Example.loginAccepted.alerts) := by
  have h := C21_login_form_validation Example.loginStart (fun _ => .ok ())
  have h2 := C21_login_form_validation Example.loginAccepted (fun _ => .ok ())
  have hacc : (Main.LoginScreen.validateForm Example.loginAccepted).2 = true :=
    h2.2.2.2.1.mpr ⟨⟨'a', by decide, by decide⟩, by decide⟩
  refine ⟨⟨by decide, h.2.2.2.2.1.mpr (by decide),
    h.2.2.2.2.2.2.2.1.mpr ⟨by decide, by decide⟩, h.2.2.2.2.2.2.2.2.2.1 (by decide)⟩,
    hacc, ?_, (h2.2.2.2.2.2.2.2.2.2.2 hacc).2 rfl⟩
  rw [h2.2.1]
  decide

/-! ## Due date text of the task card -/

theorem TaskCard.diff_neg_of_le (a b u : Int) (hu : 0 < u) (h : a + u ≤ b) :
    TaskCard.diff a b u < 0 := by
  have h1 : a - b = -(b - a) := by omega
  unfold TaskCard.diff
  rw [h1, Int.neg_tdiv, Int.tdiv_eq_ediv (by omega) (by omega)]
  have : 1 ≤ (b - a) / u := Int.le_ediv_of_mul_le hu (by omega)
  omega

theorem TaskCard.diff_nonpos_of_le (a b u : Int) (hu : 0 < u) (h : a ≤ b) :
    TaskCard.diff a b u ≤ 0 := by
  have h1 : a - b = -(b - a) := by omega
  unfold TaskCard.diff
  rw [h1, Int.neg_tdiv, Int.tdiv_eq_ediv (by omega) (by omega)]
  have : 0 ≤ (b - a) / u := Int.ediv_nonneg (by omega) (by omega)
  omega

theorem TaskCard.diff_zero_of_lt (a b u : Int) (hu : 0 < u) (h1 : b < a + u) (h2 : a ≤ b) :
    TaskCard.diff a b u = 0 := by
  have h3 : a - b = -(b - a) := by omega
  unfold TaskCard.diff
  rw [h3, Int.neg_tdiv, Int.tdiv_eq_ediv (by omega) (by omega),
    Int.ediv_eq_zero_of_lt (by omega) (by omega)]
  rfl

/-- A due date at least one hour before now gives an "Overdue" text. -/
theorem TaskCard.formatDueDate_overdue (format : Int → String) (now due : Int)
    (h : due + 3600000 ≤ now) :
    TaskCard.formatDueDate format now (some due) = "Overdue today" ∨
    TaskCard.formatDueDate format now (some due)
      = "Overdue by " ++ toString (TaskCard.diff due now 86400000).natAbs ++ " days" := by
  have hh := TaskCard.diff_neg_of_le due now 3600000 (by decide) h
  have hd := TaskCard.diff_nonpos_of_le due now 86400000 (by decide) (by omega)
  rcases lt_or_eq_of_le hd with hlt | heq
  · right
    simp [TaskCard.formatDueDate, hlt]
  · left
    simp [TaskCard.formatDueDate, heq, hh]

/-- A due date less than one hour before now gives the text "Due within an hour". -/
theorem TaskCard.formatDueDate_within_the_hour (format : Int → String) (now due : Int)
    (h1 : now < due + 3600000) (h2 : due ≤ now) :
    TaskCard.formatDueDate format now (some due) = "Due within an hour" := by
  have hh := TaskCard.diff_zero_of_lt due now 3600000 (by decide) h1 h2
  have hd := TaskCard.diff_zero_of_lt due now 86400000 (by decide) (by omega) h2
  simp [TaskCard.formatDueDate, hh, hd]

/-- C23. The failing input of `formatDueDate`: a due date thirty minutes before now. The
task is overdue (`isOverdueTask` is true), but the day and hour differences are both
truncated to zero, so the text is "Due within an hour" and not an "Overdue" text. -/
theorem C23_overdue_within_the_hour (format : Int → String) (now : Int) :
    TaskCard.isOverdueTask now false (some (now - 1800000)) = true ∧
    TaskCard.diff (now - 1800000) now 86400000 = 0 ∧
    TaskCard.diff (now - 1800000) now 3600000 = 0 ∧
    TaskCard.formatDueDate format now (some (now - 1800000)) = "Due within an hour" := by
  have hd : now - 1800000 - now = -1800000 := by omega
  have h1 : TaskCard.diff (now - 1800000) now 86400000 = 0 := by
    simp only [TaskCard.diff, hd]
    decide
  have h2 : TaskCard.diff (now - 1800000) now 3600000 = 0 := by
    simp only [TaskCard.diff, hd]
    decide
  refine ⟨?_, h1, h2, ?_⟩
  · simp [TaskCard.isOverdueTask]
  · simp [TaskCard.formatDueDate, h1, h2]


/-! ## Dashboard of the expo variant -/

theorem JsVal.strictEq_str (v : JsVal) (s : String) :
    v.strictEq (.str s) = true ↔ v = .str s := by
  cases v <;> simp [JsVal.strictEq]

theorem roundHalfEven_le (n d N : Nat) (hd : 0 < d) (h : n ≤ N * d) :
    roundHalfEven n d ≤ N := by
  have hq : n / d ≤ N := Nat.div_le_of_le_mul (by rw [Nat.mul_comm]; exact h)
  have hdm := Nat.div_add_mod n d
  by_cases hlt : n / d < N
  · unfold roundHalfEven
    split_ifs <;> omega
  · have hq2 : n / d = N := by omega
    have hr : n % d = 0 := by
      rw [hq2] at hdm
      have h2 : d * N = N * d := Nat.mul_comm d N
      omega
    unfold roundHalfEven
    rw [hr]
    simp [hd, hq2]

theorem Double.nearest_le (p q N : Nat) (hq : 0 < q) (h : p ≤ N * q) :
    (Double.nearest p q).mantissa ≤ N * 2 ^ (Double.nearest p q).scale := by
  unfold Double.nearest
  by_cases hp : p = 0
  · simp [hp]
  · simp only [hp, if_false]
    apply roundHalfEven_le _ _ _ hq
    calc p * 2 ^ scaleFrom p q (52 + q) 0
        ≤ (N * q) * 2 ^ scaleFrom p q (52 + q) 0 := Nat.mul_le_mul_right _ h
      _ = N * 2 ^ scaleFrom p q (52 + q) 0 * q := by ring

theorem Math.round_le (x : Double) (N : Nat) (h : x.mantissa ≤ N * 2 ^ x.scale) :
    Math.round x ≤ N := by
  unfold Math.round
  have hpos : 0 < 2 ^ x.scale := Nat.two_pow_pos _
  have hlt : 2 * x.mantissa + 2 ^ x.scale < (N + 1) * 2 ^ (x.scale + 1) := by
    rw [Nat.pow_succ]
    nlinarith
  have := (Nat.div_lt_iff_lt_mul (Nat.two_pow_pos _)).mpr hlt
  omega

namespace Expo.HomeScreen

/-- The completion rate is at most 100, whatever the counts. -/
theorem completionRate_le (completed total : Nat) (h : completed ≤ total) :
    completionRate completed total ≤ 100 := by
  unfold completionRate
  by_cases ht : 0 < total
  · simp only [ht, if_true]
    apply Math.round_le
    apply Double.nearest_le _ _ _ (Nat.two_pow_pos _)
    have h1 := Double.nearest_le completed total 1 ht (by omega)
    calc (Double.nearest completed total).mantissa * 100
        ≤ (1 * 2 ^ (Double.nearest completed total).scale) * 100 := Nat.mul_le_mul_right _ h1
      _ = 100 * 2 ^ (Double.nearest completed total).scale := by ring
  · simp [ht]

/-- The first filtered elements of a list are the filtered elements of a first part of
the list. -/
theorem take_filter_eq_filter_prefix (p : JsVal → Bool) (n : Nat) (l : List JsVal) :
    ∃ pre post, l = pre ++ post ∧ (l.filter p).take n = pre.filter p := by
  induction l generalizing n with
  | nil => exact ⟨[], [], rfl, by simp⟩
  | cons a rest ih =>
    cases n with
    | zero => exact ⟨[], a :: rest, rfl, by simp⟩
    | succ m =>
      by_cases ha : p a = true
      · obtain ⟨pre, post, hl, htake⟩ := ih m
        refine ⟨a :: pre, post, by rw [hl]; rfl, ?_⟩
        simp [List.filter_cons, ha, htake]
      · obtain ⟨pre, post, hl, htake⟩ := ih (m + 1)
        refine ⟨a :: pre, post, by rw [hl]; rfl, ?_⟩
        simp [List.filter_cons, ha, htake]

/-- What `fetchTasks` sets when the request fulfils with tasks that can be read. -/
theorem fetchTasks_of_tasks (env : Env) (clock : Clock) (w w1 : World) (s : State)
    (response : Response)
    (hfetch : Expo.api env (Expo.Descriptor.tasksAPI.getAll .undefined) w
      = (.fulfilled response, w1))
    (hread : ∀ t ∈ normalizeTasks response.data, t ≠ .null ∧ t ≠ .undefined) :
    fetchTasks env clock w s = (w1, { s with
      stats := statsOf clock (normalizeTasks response.data)
      urgentTasks := ((normalizeTasks response.data).filter isUrgent).take 2
      todayTasks := ((normalizeTasks response.data).filter (isToday clock)).take 2
      loading := false }) := by
  have hall : (normalizeTasks response.data).all JsVal.readable = true := by
    rw [List.all_eq_true]
    intro t ht
    obtain ⟨h1, h2⟩ := hread t ht
    cases t <;> simp_all [JsVal.readable]
  simp [fetchTasks, hfetch, hall]

/-- The counts of the statistics are consistent for every list of tasks. -/
theorem statsOf_consistent (clock : Clock) (tasks : List JsVal) :
    (statsOf clock tasks).totalTasks = tasks.length ∧
    (statsOf clock tasks).completedTasks + (statsOf clock tasks).pendingTasks
      = (statsOf clock tasks).totalTasks ∧
    (statsOf clock tasks).overdueTasks ≤ (statsOf clock tasks).pendingTasks ∧
    (∀ t ∈ tasks.filter (isOverdue clock), isCompleted t = false) ∧
    (statsOf clock tasks).completionRate ≤ 100 ∧
    (tasks = [] → (statsOf clock tasks).completionRate = 0) := by
  have hc : (tasks.filter isCompleted).length ≤ tasks.length :=
    (List.filter_sublist tasks).length_le
  have hsplit := List.length_eq_countP_add_countP (p := isCompleted) tasks
  have ho : (tasks.filter (isOverdue clock)).length
      ≤ List.countP (fun a => decide ¬isCompleted a = true) tasks := by
    rw [← List.countP_eq_length_filter]
    apply List.countP_mono_left
    intro t _ ht
    simp [isOverdue] at ht
    simp [ht.2]
  rw [List.countP_eq_length_filter] at hsplit
  refine ⟨rfl, ?_, ?_, ?_, ?_, ?_⟩
  · simp only [statsOf]
    omega
  · simp only [statsOf]
    omega
  · intro t ht
    simp [isOverdue] at ht
    exact ht.2.2
  · exact completionRate_le _ _ hc
  · intro h
    simp [statsOf, h, completionRate]

end Expo.HomeScreen

/-- C28. Expo dashboard urgent list, when the request fulfils with tasks that can be
read: `urgentTasks` is the first at most two tasks, in list order, whose priority is
"urgent" or "high" (the test `isUrgent`). It has at most two elements, each of them has the priority "urgent"
or "high", it is a sublist of the task list, and the task list splits into a first part
and a rest such that `urgentTasks` consists of all the matching tasks of the first
part: no matching task before an included one is left out. -/
theorem C28_urgent_tasks (env : Env) (clock : Clock) (w w1 : World)
    (s : Expo.HomeScreen.State) (response : Response)
    (hfetch : Expo.api env (Expo.Descriptor.tasksAPI.getAll .undefined) w
      = (.fulfilled response, w1))
    (hread : ∀ t ∈ Expo.HomeScreen.normalizeTasks response.data, t ≠ .null ∧ t ≠ .undefined) :
    (Expo.HomeScreen.fetchTasks env clock w s).2.urgentTasks
      = ((Expo.HomeScreen.normalizeTasks response.data).filter Expo.HomeScreen.isUrgent).take 2 ∧
    (∀ t : JsVal, Expo.HomeScreen.isUrgent t = true ↔
      (t.get "priority" = .str "urgent" ∨ t.get "priority" = .str "high")) ∧
    (Expo.HomeScreen.fetchTasks env clock w s).2.urgentTasks.length ≤ 2 ∧
    (∀ t ∈ (Expo.HomeScreen.fetchTasks env clock w s).2.urgentTasks,
      t.get "priority" = .str "urgent" ∨ t.get "priority" = .str "high") ∧
    List.Sublist (Expo.HomeScreen.fetchTasks env clock w s).2.urgentTasks
      (Expo.HomeScreen.normalizeTasks response.data) ∧
    (∃ pre post, Expo.HomeScreen.normalizeTasks response.data = pre ++ post ∧
      (Expo.HomeScreen.fetchTasks env clock w s).2.urgentTasks
        = pre.filter Expo.HomeScreen.isUrgent) := by
  rw [Expo.HomeScreen.fetchTasks_of_tasks env clock w w1 s response hfetch hread]
  have hp : ∀ t : JsVal, Expo.HomeScreen.isUrgent t = true ↔
      (t.get "priority" = .str "urgent" ∨ t.get "priority" = .str "high") := by
    intro t
    simp [Expo.HomeScreen.isUrgent, JsVal.strictEq_str]
  refine ⟨rfl, hp, ?_, ?_, ?_, ?_⟩
  · exact List.length_take_le _ _
  · intro t ht
    have hmem := List.mem_of_mem_take ht
    exact (hp t).mp (List.mem_filter.mp hmem).2
  · exact (List.take_sublist _ _).trans (List.filter_sublist _)
  · exact Expo.HomeScreen.take_filter_eq_filter_prefix _ _ _

/-- Witness of C28: of the tasks with the priorities low, high, urgent and high, the
second and the third are the urgent tasks. -/
theorem C28_witness :
    (Expo.HomeScreen.fetchTasks Example.envFourTasks Example.clock Example.worldEmpty
        Example.homeStart).2.urgentTasks
      = [Example.task 2 "pending" "high", Example.task 3 "completed" "urgent"] ∧
    (Expo.HomeScreen.fetchTasks Example.envFourTasks Example.clock Example.worldEmpty
        Example.homeStart).2.urgentTasks.length ≤ 2 := by
  have h := C28_urgent_tasks Example.envFourTasks Example.clock Example.worldEmpty _
    Example.homeStart _ rfl (by
      intro t ht
      have ht2 : t ∈ Example.fourTasks := ht
      constructor <;>
      · rintro rfl
        simp [Example.fourTasks, Example.task] at ht2)
  exact ⟨rfl, h.2.2.1⟩

/-- C24. The failing input of the dashboard statistics: forty tasks of which twenty-three
are completed. The counts are consistent (40 tasks, 23 completed, 17 pending), but the
completion rate set by `fetchTasks` is 57, whereas 100 * 23 / 40 = 57.5 rounds to 58:
the quotient 23 / 40 is not a double, and the product of the nearest double with 100
lies below 57.5. -/
theorem C24_completion_rate_of_23_in_40 :
    (Expo.HomeScreen.fetchTasks Example.envFortyTasks Example.clock Example.worldEmpty
      Example.homeStart).2.stats.totalTasks = 40 ∧
    (Expo.HomeScreen.fetchTasks Example.envFortyTasks Example.clock Example.worldEmpty
      Example.homeStart).2.stats.completedTasks = 23 ∧
    (Expo.HomeScreen.fetchTasks Example.envFortyTasks Example.clock Example.worldEmpty
      Example.homeStart).2.stats.pendingTasks = 17 ∧
    (Expo.HomeScreen.fetchTasks Example.envFortyTasks Example.clock Example.worldEmpty
      Example.homeStart).2.stats.completionRate = 57 ∧
    Spec.roundedPercentage 23 40 = 58 ∧
    (Double.nearest 23 40).mantissa = 5179139571476070 ∧
    (Double.nearest 23 40).scale = 53 ∧
    2 * (Double.nearest ((Double.nearest 23 40).mantissa * 100)
        (2 ^ (Double.nearest 23 40).scale)).mantissa
      < 115 * 2 ^ (Double.nearest ((Double.nearest 23 40).mantissa * 100)
        (2 ^ (Double.nearest 23 40).scale)).scale := by
  refine ⟨by decide, by decide, by decide, by decide, by decide, by decide, by decide,
    by decide⟩


/-! ## Tasks screen of the expo variant -/

theorem JsVal.getStrict_of_readable (t : JsVal) (key : String)
    (h : t ≠ .null ∧ t ≠ .undefined) : t.getStrict key = some (t.get key) := by
  cases t <;> simp_all [JsVal.getStrict]

theorem lookup_setField_same (key : String) (value : JsVal) (fields : List (String × JsVal)) :
    JsVal.lookup key (setField key value fields) = value := by
  induction fields with
  | nil => simp [setField, JsVal.lookup]
  | cons p rest ih =>
    obtain ⟨k, v⟩ := p
    by_cases hk : k = key
    · simp [setField, JsVal.lookup, hk]
    · simp [setField, JsVal.lookup, hk, ih]

theorem lookup_setField_other (key other : String) (value : JsVal)
    (fields : List (String × JsVal)) (h : other ≠ key) :
    JsVal.lookup other (setField key value fields) = JsVal.lookup other fields := by
  induction fields with
  | nil => simp [setField, JsVal.lookup, Ne.symm h]
  | cons p rest ih =>
    obtain ⟨k, v⟩ := p
    by_cases hk : k = key
    · subst hk
      simp [setField, JsVal.lookup, Ne.symm h]
    · by_cases hko : k = other
      · subst hko
        simp [setField, JsVal.lookup, hk]
      · simp [setField, JsVal.lookup, hk, hko, ih]

theorem setField_setField (key : String) (value : JsVal) (fields : List (String × JsVal)) :
    setField key value (setField key value fields) = setField key value fields := by
  induction fields with
  | nil => simp [setField]
  | cons p rest ih =>
    obtain ⟨k, v⟩ := p
    by_cases hk : k = key
    · simp [setField, hk]
    · simp [setField, hk, ih]

namespace Expo.TasksScreen

theorem completed_status (t : JsVal) : (completed t).get "status" = .str "completed" := by
  simp [completed, JsVal.get, lookup_setField_same]

theorem completed_other (t : JsVal) (key : String) (h : key ≠ "status") :
    (completed t).get key = t.get key := by
  cases t <;>
    simp [completed, JsVal.get, JsVal.ownProperties, lookup_setField_other _ _ _ _ h,
      JsVal.lookup, setField, Ne.symm h]

theorem completed_completed (t : JsVal) : completed (completed t) = completed t := by
  simp [completed, JsVal.ownProperties, setField_setField]

theorem completed_readable (t : JsVal) : completed t ≠ .null ∧ completed t ≠ .undefined := by
  constructor <;> (intro h; cases h)

/-- On tasks that can be read, the update of `handleComplete` is a map. -/
theorem completeUpdater_eq_map (id : JsVal) (prev : List JsVal)
    (hread : ∀ t ∈ prev, t ≠ .null ∧ t ≠ .undefined) :
    completeUpdater id prev
      = some (prev.map fun t => if (t.get "id").strictEq id then completed t else t) := by
  induction prev with
  | nil => rfl
  | cons t rest ih =>
    have ht := JsVal.getStrict_of_readable t "id" (hread t (List.mem_cons_self _ _))
    have hrest := ih (fun u hu => hread u (List.mem_cons_of_mem _ hu))
    simp [completeUpdater, ht, hrest]

/-- On tasks that can be read, the update of `handleDelete` is a filter. -/
theorem deleteUpdater_eq_filter (id : JsVal) (prev : List JsVal)
    (hread : ∀ t ∈ prev, t ≠ .null ∧ t ≠ .undefined) :
    deleteUpdater id prev = some (prev.filter fun t => !(t.get "id").strictEq id) := by
  induction prev with
  | nil => rfl
  | cons t rest ih =>
    have ht := JsVal.getStrict_of_readable t "id" (hread t (List.mem_cons_self _ _))
    have hrest := ih (fun u hu => hread u (List.mem_cons_of_mem _ hu))
    by_cases hm : (t.get "id").strictEq id = true
    · simp [deleteUpdater, ht, hrest, hm]
    · simp [deleteUpdater, ht, hrest, hm]

end Expo.TasksScreen

/-- C25. TasksScreen completion update, for a task whose id can be read and a list of
tasks that can be read. The update applied after a successful call maps the list: it
has the same length and order, a task whose id equals the id of the given task becomes
the same object with the status "completed" and every other property as it was, and
every other task is unchanged. Applying the update twice equals applying it once. When
the call fulfils, `handleComplete` sets the updated list; when the call fails the list
is unchanged. -/
theorem C25_completion_update (env : Env) (task id : JsVal) (w : World)
    (s : Expo.TasksScreen.State) (ui : Ui)
    (hid : task.getStrict "id" = some id)
    (hread : ∀ t ∈ s.tasks, t ≠ .null ∧ t ≠ .undefined) :
    ∃ updated, Expo.TasksScreen.completeUpdater id s.tasks = some updated ∧
      updated = s.tasks.map (fun t =>
        if (t.get "id").strictEq id then Expo.TasksScreen.completed t else t) ∧
      updated.length = s.tasks.length ∧
      (∀ t, (Expo.TasksScreen.completed t).get "status" = .str "completed" ∧
        ∀ key, key ≠ "status" → (Expo.TasksScreen.completed t).get key = t.get key) ∧
      Expo.TasksScreen.completeUpdater id updated = some updated ∧
      (∀ response w1,
        Expo.api env (Expo.Descriptor.tasksAPI.update id (.obj [("status", .str "completed")])) w
          = (.fulfilled response, w1) →
        Expo.TasksScreen.handleComplete env task w s ui
          = some (w1, { s with tasks := updated }, ui)) ∧
      (∀ reason w1,
        Expo.api env (Expo.Descriptor.tasksAPI.update id (.obj [("status", .str "completed")])) w
          = (.rejected reason, w1) →
        ∃ ui1, Expo.TasksScreen.handleComplete env task w s ui = some (w1, s, ui1)) := by
  have hmap := Expo.TasksScreen.completeUpdater_eq_map id s.tasks hread
  refine ⟨_, hmap, rfl, by simp, ?_, ?_, ?_, ?_⟩
  · intro t
    exact ⟨Expo.TasksScreen.completed_status t, Expo.TasksScreen.completed_other t⟩
  · rw [Expo.TasksScreen.completeUpdater_eq_map]
    · congr 1
      rw [List.map_map]
      apply List.map_congr_left
      intro t _
      by_cases hm : (t.get "id").strictEq id = true
      · have hid2 : (Expo.TasksScreen.completed t).get "id" = t.get "id" :=
          Expo.TasksScreen.completed_other t "id" (by decide)
        simp [hm, hid2, Expo.TasksScreen.completed_completed]
      · simp [hm]
    · intro u hu
      obtain ⟨t, ht, rfl⟩ := List.mem_map.mp hu
      by_cases hm : (t.get "id").strictEq id = true
      · simp only [hm, if_true]
        exact Expo.TasksScreen.completed_readable t
      · simp only [hm]
        exact hread t ht
  · intro response w1 hapi
    simp [Expo.TasksScreen.handleComplete, hid, hapi, hmap]
  · intro reason w1 hapi
    exact ⟨ui.alert "Error" (.str "Failed to mark task as completed"),
      by simp [Expo.TasksScreen.handleComplete, hid, hapi]⟩

/-- Witness of C25: the second of the four tasks is completed. -/
theorem C25_witness :
    ∃ updated, Expo.TasksScreen.completeUpdater (.num 2) Example.tasksStart.tasks
        = some updated ∧
      updated = [Example.task 1 "pending" "low", Example.task 2 "completed" "high",
        Example.task 3 "completed" "urgent", Example.task 4 "pending" "high"] ∧
      updated.length = Example.tasksStart.tasks.length := by
  obtain ⟨updated, h1, h2, h3, -⟩ := C25_completion_update Example.envOk
    (Example.task 2 "pending" "high") (.num 2) Example.worldEmpty Example.tasksStart
    Example.uiStart rfl (by
      intro t ht
      have ht2 : t ∈ Example.fourTasks := ht
      constructor <;>
      · rintro rfl
        simp [Example.fourTasks, Example.task] at ht2)
  refine ⟨updated, h1, ?_, h3⟩
  rw [h2]
  rfl

/-- C26. TasksScreen deletion update, for a task whose id can be read and a list of
tasks that can be read. The update applied after a confirmed, successful call yields
the previous list without the tasks whose id equals the id of the given task, the
remaining tasks as they were and in their order. When the call fulfils, `handleDelete`
sets that list; when the deletion is cancelled nothing is requested and the list is
unchanged; when the call fails the list is unchanged. -/
theorem C26_deletion_update (env : Env) (task id : JsVal) (w : World)
    (s : Expo.TasksScreen.State) (ui : Ui)
    (hid : task.getStrict "id" = some id)
    (hread : ∀ t ∈ s.tasks, t ≠ .null ∧ t ≠ .undefined) :
    ∃ remaining, Expo.TasksScreen.deleteUpdater id s.tasks = some remaining ∧
      remaining = s.tasks.filter (fun t => !(t.get "id").strictEq id) ∧
      List.Sublist remaining s.tasks ∧
      (∀ t, t ∈ remaining ↔ t ∈ s.tasks ∧ (t.get "id").strictEq id = false) ∧
      (∀ response w1,
        Expo.api env (Expo.Descriptor.tasksAPI.delete id) w = (.fulfilled response, w1) →
        ∃ ui1, Expo.TasksScreen.handleDelete env task true w s ui
          = some (w1, { s with tasks := remaining }, ui1)) ∧
      (∃ ui1, Expo.TasksScreen.handleDelete env task false w s ui = some (w, s, ui1)) ∧
      (∀ reason w1,
        Expo.api env (Expo.Descriptor.tasksAPI.delete id) w = (.rejected reason, w1) →
        ∃ ui1, Expo.TasksScreen.handleDelete env task true w s ui = some (w1, s, ui1)) := by
  have hfilter := Expo.TasksScreen.deleteUpdater_eq_filter id s.tasks hread
  refine ⟨_, hfilter, rfl, List.filter_sublist _, ?_, ?_, ?_, ?_⟩
  · intro t
    simp [List.mem_filter]
  · intro response w1 hapi
    exact ⟨ui.alert "Delete Task" (.str "Are you sure you want to delete this task?"),
      by simp [Expo.TasksScreen.handleDelete, hid, hapi, hfilter]⟩
  · exact ⟨ui.alert "Delete Task" (.str "Are you sure you want to delete this task?"),
      by simp [Expo.TasksScreen.handleDelete]⟩
  · intro reason w1 hapi
    exact ⟨(ui.alert "Delete Task" (.str "Are you sure you want to delete this task?")).alert
        "Error" (.str "Failed to delete task"),
      by simp [Expo.TasksScreen.handleDelete, hid, hapi]⟩

/-- Witness of C26: the second of the four tasks is deleted. -/
theorem C26_witness :
    ∃ remaining, Expo.TasksScreen.deleteUpdater (.num 2) Example.tasksStart.tasks
        = some remaining ∧
      remaining = [Example.task 1 "pending" "low", Example.task 3 "completed" "urgent",
        Example.task 4 "pending" "high"] := by
  obtain ⟨remaining, h1, h2, -⟩ := C26_deletion_update Example.envOk
    (Example.task 2 "pending" "high") (.num 2) Example.worldEmpty Example.tasksStart
    Example.uiStart rfl (by
      intro t ht
      have ht2 : t ∈ Example.fourTasks := ht
      constructor <;>
      · rintro rfl
        simp [Example.fourTasks, Example.task] at ht2)
  refine ⟨remaining, h1, ?_⟩
  rw [h2]
  rfl


namespace Expo

/-- The request interceptor of the expo variant reads the access token and changes
nothing of the config except possibly the Authorization header. -/
theorem requestInterceptor_keeps_request (env : Env) (config : Config) (w : World) :
    ∃ c d, requestInterceptor env config w
        = (.fulfilled c, ⟨w.store, w.trace ++ .getItem "access_token" :: d⟩) ∧
      dispatched d = [] ∧
      c.method = config.method ∧ c.url = config.url ∧ c.data = config.data ∧
      c.params = config.params := by
  unfold requestInterceptor AsyncStorage.getItem
  cases env.faults.getItem w.trace.length "access_token" with
  | some e =>
    exact ⟨config, [.console "log" "Error getting token:"], by simp [World.log], rfl, rfl, rfl,
      rfl, rfl⟩
  | none =>
    cases w.store "access_token" with
    | none => exact ⟨config, [], by simp [World.log], rfl, rfl, rfl, rfl, rfl⟩
    | some t =>
      by_cases ht : t = ""
      · exact ⟨config, [], by simp [World.log, ht], rfl, rfl, rfl, rfl, rfl⟩
      · exact ⟨{ config with headers := config.headers.set "Authorization" ("Bearer " ++ t) },
          [], by simp [World.log, ht], rfl, rfl, rfl, rfl, rfl⟩

/-- A call of the expo instance dispatches exactly one request, which has the method,
path, body and query params of the config. -/
theorem api_dispatches_config (env : Env) (config : Config) (w : World) :
    ∃ c, dispatched (api env config w).2.trace = dispatched w.trace ++ [c] ∧
      c.method = config.method ∧ c.url = config.url ∧ c.data = config.data ∧
      c.params = config.params := by
  obtain ⟨c, d0, hri, hdis0, hm, hu, hdat, hpar⟩ :=
    requestInterceptor_keeps_request env (mergeConfig defaults config) w
  have hm : c.method = config.method := by rw [hm]; simp [mergeConfig, defaults]
  have hu : c.url = config.url := hu
  have hdat : c.data = config.data := hdat
  have hpar : c.params = config.params := hpar
  refine ⟨c, ?_, hm, hu, hdat, hpar⟩
  have hpre : dispatched ((w.trace ++ .getItem "access_token" :: d0) ++ [.dispatch c])
      = dispatched w.trace ++ [c] := by
    rw [dispatched_append, dispatched_append, dispatched_cons _ d0, hdis0]
    simp [dispatched]
  have hw := dispatchRequest_world env c ⟨w.store, w.trace ++ .getItem "access_token" :: d0⟩
  simp only [api, hri]
  cases hd : dispatchRequest env c ⟨w.store, w.trace ++ .getItem "access_token" :: d0⟩ with
  | mk out w2 =>
    rw [hd] at hw
    simp only at hw
    subst hw
    cases out with
    | ok response => exact hpre
    | error e =>
      obtain ⟨d, htrace, -, hdis⟩ := responseRejected_trace env e
        ((⟨w.store, w.trace ++ .getItem "access_token" :: d0⟩ : World).log (.dispatch c))
      simp only
      rw [htrace, dispatched_append, hdis]
      simp only [World.log]
      rw [hpre]
      simp

end Expo

/-- C27, as amended. TasksScreen task creation. A title that is empty or consists of
white space only (it trims to the empty string) makes `submitCreate` return without a
request and with the task list unchanged. For every other title exactly one request is
dispatched, a post to "/api/tasks/" whose body has the title trimmed, the selected
priority, the status "pending" and, exactly when the trimmed due date is not empty, that
due date. When the request fulfils with a body that is truthy, the created task, that
body is put in front of the list and the earlier tasks follow unchanged; when the body
is empty or otherwise falsy, or when the request fails, the list is unchanged. -/
theorem C27_task_creation (env : Env) (w : World) (s : Expo.TasksScreen.State) (ui : Ui) :
    (jsTrim s.newTitle = "" ↔ ∀ c ∈ s.newTitle.data, isJsWhitespace c = true) ∧
    (jsTrim s.newTitle = "" →
      ∃ ui1, Expo.TasksScreen.submitCreate env w s ui = (w, s, ui1)) ∧
    (jsTrim s.newTitle ≠ "" →
      (jsTrim s.newDueDate = "" →
        Expo.TasksScreen.payloadOf s = .obj [("title", .str (jsTrim s.newTitle)),
          ("priority", .str s.newPriority), ("status", .str "pending")]) ∧
      (jsTrim s.newDueDate ≠ "" →
        Expo.TasksScreen.payloadOf s = .obj [("title", .str (jsTrim s.newTitle)),
          ("priority", .str s.newPriority), ("status", .str "pending"),
          ("due_date", .str (jsTrim s.newDueDate))]) ∧
      (∃ c, dispatched (Expo.TasksScreen.submitCreate env w s ui).1.trace
          = dispatched w.trace ++ [c] ∧
        c.method = some "post" ∧ c.url = some "/api/tasks/" ∧
        c.data = Expo.TasksScreen.payloadOf s) ∧
      (∀ created w1,
        Expo.api env (Expo.Descriptor.tasksAPI.create (Expo.TasksScreen.payloadOf s)) w
          = (.fulfilled created, w1) →
        (created.data.truthy = true →
          (Expo.TasksScreen.submitCreate env w s ui).2.1.tasks = created.data :: s.tasks) ∧
        (created.data.truthy = false →
          (Expo.TasksScreen.submitCreate env w s ui).2.1.tasks = s.tasks)) ∧
      (∀ reason w1,
        Expo.api env (Expo.Descriptor.tasksAPI.create (Expo.TasksScreen.payloadOf s)) w
          = (.rejected reason, w1) →
        (Expo.TasksScreen.submitCreate env w s ui).2.1.tasks = s.tasks)) := by
  refine ⟨jsTrim_eq_empty_iff s.newTitle, ?_, ?_⟩
  · intro h
    exact ⟨ui.alert "Missing title" (.str "Please enter a task title"),
      by simp [Expo.TasksScreen.submitCreate, h]⟩
  · intro h
    refine ⟨?_, ?_, ?_, ?_, ?_⟩
    · intro hd
      simp [Expo.TasksScreen.payloadOf, hd]
    · intro hd
      simp [Expo.TasksScreen.payloadOf, hd]
    · obtain ⟨c, hdis, hm, hu, hdat, -⟩ := Expo.api_dispatches_config env
        (Expo.Descriptor.tasksAPI.create (Expo.TasksScreen.payloadOf s)) w
      refine ⟨c, ?_, hm, hu, hdat⟩
      rw [← hdis]
      simp only [Expo.TasksScreen.submitCreate, h, if_false]
      cases Expo.api env (Expo.Descriptor.tasksAPI.create (Expo.TasksScreen.payloadOf s)) w with
      | mk out w1 => cases out <;> rfl
    · intro created w1 hapi
      constructor
      · intro ht
        simp [Expo.TasksScreen.submitCreate, h, hapi, ht]
      · intro ht
        simp [Expo.TasksScreen.submitCreate, h, hapi, ht]
    · intro reason w1 hapi
      simp [Expo.TasksScreen.submitCreate, h, hapi]

/-- Witness of C27 as amended: the title "  Buy milk " is sent trimmed, without a due
date, and the created task is put in front of the four tasks. -/
theorem C27_witness :
    Expo.TasksScreen.payloadOf Example.tasksStart
      = .obj [("title", .str "Buy milk"), ("priority", .str "medium"),
          ("status", .str "pending")] ∧
    (Expo.TasksScreen.submitCreate Example.envCreated Example.worldEmpty Example.tasksStart
      Example.uiStart).2.1.tasks = Example.task 9 "pending" "medium" :: Example.fourTasks := by
  have h := (C27_task_creation Example.envCreated Example.worldEmpty Example.tasksStart
    Example.uiStart).2.2 (by decide)
  refine ⟨?_, ((h.2.2.2.1 _ _ rfl).1 rfl)⟩
  rw [h.1 (by decide)]
  have ht : jsTrim Example.tasksStart.newTitle = "Buy milk" := by decide
  rw [ht]
  rfl

/-- Counterexample to C27 as stated: the title "  Buy milk " is not empty after
trimming and the creation succeeds with status 201 and an empty body. Nothing is put in
front of the list: it still holds the four tasks. -/
theorem C27_counterexample :
    jsTrim Example.tasksStart.newTitle ≠ "" ∧
    (∃ created w1, Expo.api Example.envCreatedEmpty
        (Expo.Descriptor.tasksAPI.create (Expo.TasksScreen.payloadOf Example.tasksStart))
        Example.worldEmpty = (.fulfilled created, w1) ∧
      created.status = 201 ∧ created.data.truthy = false) ∧
    (Expo.TasksScreen.submitCreate Example.envCreatedEmpty Example.worldEmpty
      Example.tasksStart Example.uiStart).2.1.tasks = Example.fourTasks ∧
    (Expo.TasksScreen.submitCreate Example.envCreatedEmpty Example.worldEmpty
      Example.tasksStart Example.uiStart).2.1.tasks.length = 4 :=
  ⟨by decide, ⟨_, _, rfl, rfl, rfl⟩, rfl, rfl⟩

end Taskmaster
